import Mathlib

/-!
# Plan13 (`P13.cpp` / `P13.h`): a verification development

The C++ sources implement the Plan13 orbit prediction algorithm.  This file
embeds the parts of the program the properties below talk about: the
definitions come first, then auxiliary lemmas, then one theorem per property.

## Numeric model

* `int` / `long` values are `Int`.  The conversions `(long)x` and `(int)x` are the
  truncation `toLong`, whose value is that of the C conversion whenever it lies
  in the range of the target type; C leaves the conversion undefined elsewhere,
  and the statement about every call of `add` is made through `addChecked`,
  which has no result there.
* The calendar and time-of-day code (`fnday`, `fndate`, `settime`, `gettime`,
  `add`, `roundup`) converts floating-point values to integers with C casts, so its
  results depend on how each floating-point operation rounds.  That code is
  embedded with IEEE-754 arithmetic: a finite `double` (`float`) is the rational
  number it denotes, and every operation is the exact rational operation
  followed by rounding to nearest, ties to even, at 53 (24) significant bits
  (`b64`, `b32`).  Infinities, NaN, signed zeros and the subnormal/overflow
  ranges are outside the model.
* The observer, element-set and propagation code calls `sin`, `cos`, `sqrt`, `pow`,
  `asin` and `atan2`.  It is embedded twice.  The first embedding is over the real
  numbers, except for the two `float` variables of `P13Satellite::predict`, which
  are rounded to 24 significant bits (see the section on geometry below); the
  properties that hold of the program up to the rounding of `double` operations
  are stated there.  The second embedding, `Binary64`, rounds every operation to
  binary64 and takes the C library's functions as a parameter (see the section
  on binary64 below); it is the one in which the program is evaluated where a
  result hangs on the last bit.
-/

namespace P13

/-! ## IEEE-754 rounding on rationals -/

/-- Nearest integer, a tie going to the even neighbour. -/
def roundHalfEven (x : ℚ) : Int :=
  let f : Int := Int.floor x
  if x - f < 1 / 2 then f else if 1 / 2 < x - f then f + 1 else if f % 2 = 0 then f else f + 1

/-- Round a rational to the nearest number with `p` significant bits, ties to
even (unbounded exponent range): with `2 ^ e ≤ |q| < 2 ^ (e + 1)` the
representable numbers around `q` are the multiples of `2 ^ (e - (p - 1))`. -/
def roundNE (p : Nat) (q : ℚ) : ℚ :=
  let ulp : ℚ := (2 : ℚ) ^ (Int.log 2 |q| - ((p : Int) - 1))
  (roundHalfEven (q / ulp) : ℚ) * ulp

/-- Rounding to `double` (binary64). -/
def b64 (q : ℚ) : ℚ := roundNE 53 q

/-- Rounding to `float` (binary32). -/
def b32 (q : ℚ) : ℚ := roundNE 24 q

/-- The C conversion of a floating-point value to an integer type: the
fractional part is discarded (truncation toward zero). -/
def toLong {K : Type} [LinearOrderedField K] [FloorRing K] (x : K) : Int :=
  if 0 ≤ x then Int.floor x else Int.ceil x

/-! ## Constants of `P13.h` used by the time model -/

/-- `static const double YM = 365.25f;` -/
def YM : ℚ := b64 (b32 (36525 / 100))

/-! ## class P13DateTime -/

/-- `static long fnday(int y, int m, int d)`. -/
def fnday (y m d : Int) : Int :=
  let m' : Int := if m < 3 then m + 12 else m
  let y' : Int := if m < 3 then y - 1 else y
  toLong (b64 ((y' : ℚ) * YM)) + toLong (b32 (((m' + 1 : Int) : ℚ) * b32 (306 / 10))) + d - 428

/-- `static void fndate(int &y, int &m, int &d, long dt)`, returning `(y, m, d)`. -/
def fndate (dt : Int) : Int × Int × Int :=
  let dt1 : Int := dt + 428
  let y : Int := toLong (b64 (b64 ((dt1 : ℚ) - b64 (1221 / 10)) / b64 (36525 / 100)))
  let dt2 : Int := dt1 - toLong (b64 ((y : ℚ) * b64 (36525 / 100)))
  let m : Int := toLong (b64 ((dt2 : ℚ) / b64 (3061 / 100)))
  let dt3 : Int := dt2 - toLong (b64 ((m : ℚ) * b64 (306 / 10)))
  let m1 : Int := m - 1
  if m1 > 12 then (y + 1, m1 - 12, dt3) else (y, m1, dt3)

/-- The two data members of `P13DateTime`: the day number `DN` (`long`) and the
fraction of the day `TN` (`double`). -/
structure P13DateTime where
  DN : Int
  TN : ℚ
  deriving DecidableEq

/-- `void P13DateTime::settime(int year, int month, int day, int h, int m, int s)`. -/
def settime (year month day h m s : Int) : P13DateTime :=
  { DN := fnday year month day
    TN := b64 (b64 (b64 ((h : ℚ) + b64 ((m : ℚ) / 60)) + b64 ((s : ℚ) / 3600)) / 24) }

/-- `void P13DateTime::gettime(int &year, int &month, int &day, int &h, int &m, int &s)`,
returning `(year, month, day, h, m, s)`. -/
def gettime (t : P13DateTime) : Int × Int × Int × Int × Int × Int :=
  let ymd := fndate t.DN
  let t1 : ℚ := b64 (t.TN * 24)
  let h : Int := toLong t1
  let t2 : ℚ := b64 (b64 (t1 - h) * 60)
  let m : Int := toLong t2
  let t3 : ℚ := b64 (b64 (t2 - m) * 60)
  let s : Int := toLong t3
  (ymd.1, ymd.2.1, ymd.2.2, h, m, s)

/-- `void P13DateTime::add(double days)`. -/
def add (t : P13DateTime) (days : ℚ) : P13DateTime :=
  let TN1 : ℚ := b64 (t.TN + days)
  { DN := t.DN + toLong TN1
    TN := b64 (TN1 - (toLong TN1 : ℚ)) }

/-- `add` on a machine whose `long` has `w` bits.  C leaves the conversion `(long)TN`
undefined when the truncated value is outside the range of `long`, and the
addition `DN += (long)TN` undefined when it overflows; `none` stands for these
two cases, and in every other case the result is that of `add`. -/
def addChecked (w : Nat) (t : P13DateTime) (days : ℚ) : Option P13DateTime :=
  let k : Int := toLong (b64 (t.TN + days))
  if -(2 : Int) ^ (w - 1) ≤ k ∧ k < (2 : Int) ^ (w - 1) ∧
      -(2 : Int) ^ (w - 1) ≤ t.DN + k ∧ t.DN + k < (2 : Int) ^ (w - 1) then
    some (add t days)
  else none

/-- `fmod` of `<math.h>`: the remainder `x - n * y` with `n` the quotient `x / y`
truncated toward zero; the C library returns it without rounding. -/
def fmod (x y : ℚ) : ℚ := x - (toLong (x / y) : ℚ) * y

/-- `void P13DateTime::roundup(double t)`. -/
def roundup (self : P13DateTime) (t : ℚ) : P13DateTime :=
  let inc : ℚ := b64 (t - fmod self.TN t)
  let TN1 : ℚ := b64 (self.TN + inc)
  { DN := self.DN + toLong TN1
    TN := b64 (TN1 - (toLong TN1 : ℚ)) }

/-- The numbers with at most `p` significant bits (unbounded exponent range):
the values that `roundNE p` can return. -/
def IsFloat (p : Nat) (x : ℚ) : Prop := ∃ k j : Int, |k| < 2 ^ p ∧ x = k * (2 : ℚ) ^ j

/-! ## Geometry and orbit code

`P13Observer`, `P13Satellite::tle`, `predict` and `LL` compute
with `sin`, `cos`, `sqrt`, `pow`, `asin` and `atan2`, whose results IEEE-754 does
not fix.  This code is embedded over the real numbers: a `double` is the real
number it stands for, each operation on `double` values is the exact one,
`M_PI` is `π` and a decimal constant is its decimal value.  The two variables
of `predict` that are declared `float` (`TEG`, `GHAE`) hold their value rounded
to 24 significant bits (`f32`), since that rounding is eight orders of magnitude
coarser than the one of a `double`.  Infinities and NaN are not represented (in
Lean `x / 0 = 0`); the statements below say where a denominator is assumed
non-zero.
-/

noncomputable section

/-- `M_PI` of `<math.h>`. -/
def M_PI : ℝ := Real.pi

/-- `double RADIANS(double deg)`; the Arduino `radians` function is the same map. -/
def RADIANS (deg : ℝ) : ℝ := deg * M_PI / 180

/-- `double DEGREES(double rad)`. -/
def DEGREES (rad : ℝ) : ℝ := rad * 180 / M_PI

/-- `atan2` of `<math.h>`: the angle of the point `(x, y)`, in `(-π, π]`, and `0`
at the origin. -/
def atan2 (y x : ℝ) : ℝ := Complex.arg ⟨x, y⟩

/-- Nearest integer to a real number, a tie going to the even neighbour. -/
def roundHalfEvenR (x : ℝ) : Int :=
  let f : Int := Int.floor x
  if x - f < 1 / 2 then f else if 1 / 2 < x - f then f + 1 else if f % 2 = 0 then f else f + 1

/-- The operator `roundNE` on real numbers. -/
def roundNER (p : Nat) (x : ℝ) : ℝ :=
  let ulp : ℝ := (2 : ℝ) ^ (Int.log 2 |x| - ((p : Int) - 1))
  (roundHalfEvenR (x / ulp) : ℝ) * ulp

/-- The conversion of a value to `float` (binary32) on assignment to a variable
declared `float`. -/
def f32 (x : ℝ) : ℝ := roundNER 24 x

/-- `static const double RE = 6378.137f;` -/
def RE : ℝ := 6378.137

/-- `static const double FL = 1.0f/298.257224f;` -/
def FL : ℝ := 1 / 298.257224

/-- `static const double GM = 3.986E5f;` -/
def GM : ℝ := 3.986e5

/-- `static const double J2 = 1.08263E-3f;` -/
def J2 : ℝ := 1.08263e-3

/-- `static const double YT = 365.2421874f;` -/
def YT : ℝ := 365.2421874

/-- `static const double WW = 2.0f*M_PI/YT;` -/
def WW : ℝ := 2 * M_PI / YT

/-- `static const double WE = 2.0f*M_PI+ WW;` -/
def WE : ℝ := 2 * M_PI + WW

/-- `static const double W0 = WE/86400.0f;` -/
def W0 : ℝ := WE / 86400

/-- `static const double YG = 2014.0f;`, used only as the `int` argument of `fnday`. -/
def YG : Int := 2014

/-- `static const double G0 = 99.5828f;` -/
def G0 : ℝ := 99.5828

/-- `typedef double Vec3[3];` -/
abbrev Vec3 : Type := Fin 3 → ℝ

/-! ### class P13Observer -/

/-- The data members of `P13Observer`. -/
structure P13Observer where
  name : String
  LA : ℝ
  LO : ℝ
  HT : ℝ
  U : Vec3
  E : Vec3
  N : Vec3
  O : Vec3
  V : Vec3

/-- The constructor `P13Observer::P13Observer(const char *nm, double lat, double lng, double hgt)`. -/
def P13Observer.P13Observer (nm : String) (lat lng hgt : ℝ) : P13Observer :=
  let LA : ℝ := RADIANS lat
  let LO : ℝ := RADIANS lng
  let HT : ℝ := hgt / 1000
  let U : Vec3 := ![Real.cos LA * Real.cos LO, Real.cos LA * Real.sin LO, Real.sin LA]
  let E : Vec3 := ![-Real.sin LO, Real.cos LO, 0]
  let N : Vec3 := ![-Real.sin LA * Real.cos LO, -Real.sin LA * Real.sin LO, Real.cos LA]
  let RP : ℝ := RE * (1 - FL)
  let XX : ℝ := RE * RE
  let ZZ : ℝ := RP * RP
  let D : ℝ := Real.sqrt (XX * Real.cos LA * Real.cos LA + ZZ * Real.sin LA * Real.sin LA)
  let Rx : ℝ := XX / D + HT
  let Rz : ℝ := ZZ / D + HT
  let O : Vec3 := ![Rx * U 0, Rx * U 1, Rz * U 2]
  let V : Vec3 := ![-O 1 * W0, O 0 * W0, 0]
  { name := nm, LA := LA, LO := LO, HT := HT, U := U, E := E, N := N, O := O, V := V }

/-! ### class P13Satellite -/

/-- The data members of `P13Satellite`. -/
structure P13Satellite where
  N : Int
  YE : Int
  DE : Int
  TE : ℝ
  IN : ℝ
  RA : ℝ
  EC : ℝ
  WP : ℝ
  MA : ℝ
  MM : ℝ
  M2 : ℝ
  RV : ℝ
  ALON : ℝ
  ALAT : ℝ
  N0 : ℝ
  A_0 : ℝ
  B_0 : ℝ
  PC : ℝ
  QD : ℝ
  WD : ℝ
  DC : ℝ
  RS : ℝ
  name : String
  SAT : Vec3
  VEL : Vec3
  S : Vec3
  V : Vec3

/-- The characters `c[i0] … c[i1-1]` that `getdouble` and `getlong` copy into
their buffer; a `const char *` string is the list of its characters. -/
def field (c : List Char) (i0 i1 : Nat) : List Char := (c.drop i0).take (i1 - i0)

/-- `isspace` of `<ctype.h>` in the C locale. -/
def isspace (c : Char) : Bool := c.toNat = 32 || (9 ≤ c.toNat && c.toNat ≤ 13)

/-- The value of the longest run of decimal digits at the head of a string. -/
def digitsValue (s : List Char) : Int :=
  (s.takeWhile Char.isDigit).foldl (fun acc c => 10 * acc + ((c.toNat : Int) - 48)) 0

/-- `atol` of `<stdlib.h>` (values within the range of `long`): white space is
skipped, a sign is read, and the digits that follow give the value. -/
def atol (s : List Char) : Int :=
  match s.dropWhile isspace with
  | [] => 0
  | c :: r => if c = '-' then -digitsValue r else if c = '+' then digitsValue r
      else digitsValue (c :: r)

/-- `static long getlong(const char *c, int i0, int i1)`. -/
def getlong (c : List Char) (i0 i1 : Nat) : Int := atol (field c i0 i1)

/-- `static double getdouble(const char *c, int i0, int i1)`; `strtod` of
`<stdlib.h>` is a parameter. -/
def getdouble (strtod : List Char → ℝ) (c : List Char) (i0 i1 : Nat) : ℝ :=
  strtod (field c i0 i1)

/-- `void P13Satellite::tle(const char *nm, const char *l1, const char *l2)`, acting
on the object `self`. -/
def P13Satellite.tle (strtod : List Char → ℝ) (self : P13Satellite) (nm : String)
    (l1 l2 : List Char) : P13Satellite :=
  let N : Int := getlong l2 2 7
  let YE0 : Int := getlong l1 18 20
  let YE : Int := if YE0 < 58 then YE0 + 2000 else YE0 + 1900
  let TE0 : ℝ := getdouble strtod l1 20 32
  let M2 : ℝ := RADIANS (getdouble strtod l1 33 43)
  let IN : ℝ := RADIANS (getdouble strtod l2 8 16)
  let RA : ℝ := RADIANS (getdouble strtod l2 17 25)
  let EC : ℝ := getdouble strtod l2 26 33 / 1e7
  let WP : ℝ := RADIANS (getdouble strtod l2 34 42)
  let MA : ℝ := RADIANS (getdouble strtod l2 43 51)
  let MM : ℝ := 2 * M_PI * getdouble strtod l2 52 63
  let RV : ℝ := (getlong l2 63 68 : ℝ)
  let DE : Int := fnday YE 1 0 + toLong TE0
  let TE : ℝ := TE0 - (toLong TE0 : ℝ)
  let N0 : ℝ := MM / 86400
  let A_0 : ℝ := (GM / (N0 * N0)) ^ ((1 : ℝ) / 3)
  let B_0 : ℝ := A_0 * Real.sqrt (1 - EC * EC)
  let PC0 : ℝ := RE * A_0 / (B_0 * B_0)
  let PC : ℝ := 1.5 * J2 * PC0 * PC0 * MM
  let CI : ℝ := Real.cos IN
  let QD : ℝ := -PC * CI
  let WD : ℝ := PC * (5 * CI * CI - 1) / 2
  let DC : ℝ := -2 * M2 / (3 * MM)
  { self with
    name := nm, N := N, YE := YE, TE := TE, M2 := M2, IN := IN, RA := RA, EC := EC, WP := WP,
    MA := MA, MM := MM, RV := RV, DE := DE, N0 := N0, A_0 := A_0, B_0 := B_0, PC := PC,
    QD := QD, WD := WD, DC := DC }

/-- What the Kepler loop of `predict` leaves behind: the eccentric anomaly `EA`
after the last correction, and `C_EA`, `S_EA`, `DNOM` as computed in the last
pass. -/
structure KeplerResult where
  EA : ℝ
  C_EA : ℝ
  S_EA : ℝ
  DNOM : ℝ

/-- The `for (;;)` loop of `predict`, entered with the value `EA` and allowed
`fuel` passes; `none` when the passes are used up before the `break`. -/
def keplerLoop (EC M : ℝ) : Nat → ℝ → Option KeplerResult
  | 0, _ => none
  | fuel + 1, EA =>
    let C_EA : ℝ := Real.cos EA
    let S_EA : ℝ := Real.sin EA
    let DNOM : ℝ := 1 - EC * C_EA
    let D : ℝ := (EA - EC * S_EA - M) / DNOM
    let EA1 : ℝ := EA - D
    if |D| < 1e-5 then some { EA := EA1, C_EA := C_EA, S_EA := S_EA, DNOM := DNOM }
    else keplerLoop EC M fuel EA1

open Classical in
/-- The unbounded loop: its result when some number of passes reaches the
`break`, and `none` when the loop runs forever. -/
def kepler (EC M : ℝ) : Option KeplerResult :=
  if h : ∃ fuel, (keplerLoop EC M fuel M).isSome then keplerLoop EC M (Nat.find h) M else none

/-- The local `T` of `predict`: the time since the epoch of the elements, in days. -/
def P13Satellite.predictT (self : P13Satellite) (dt : P13DateTime) : ℝ :=
  let DN : Int := dt.DN
  let TN : ℝ := (dt.TN : ℝ)
  ((DN - self.DE : Int) : ℝ) + (TN - self.TE)

/-- The local `M` of `predict` on entry to the Kepler loop: the mean anomaly after
`DR` revolutions have been taken off. -/
def P13Satellite.predictM (self : P13Satellite) (dt : P13DateTime) : ℝ :=
  let T : ℝ := self.predictT dt
  let DT : ℝ := self.DC * T / 2
  let M0 : ℝ := self.MA + self.MM * T * (1 - 3 * DT)
  let DR : ℝ := (toLong (M0 / (2 * M_PI)) : ℝ)
  M0 - DR * 2 * M_PI

/-- The local `GHAA` of `predict`: the Greenwich hour angle at the instant, from
the `float` variables `TEG` and `GHAE`. -/
def P13Satellite.predictGHAA (self : P13Satellite) (dt : P13DateTime) : ℝ :=
  let TEG : ℝ := f32 (((self.DE - fnday YG 1 0 : Int) : ℝ) + self.TE)
  let GHAE : ℝ := f32 (RADIANS G0 + TEG * WE)
  GHAE + WE * self.predictT dt

/-- `void P13Satellite::predict(const P13DateTime &dt)`, acting on the object
`self`; `none` when the Kepler loop does not end.  The locals `T`, `M` and `GHAA`
are the three definitions above; the locals `MRSE`, `MASE` and `RN`, which the
function computes and never reads, are left out. -/
def P13Satellite.predict (self : P13Satellite) (dt : P13DateTime) : Option P13Satellite :=
  let T : ℝ := self.predictT dt
  let DT : ℝ := self.DC * T / 2
  let KD : ℝ := 1 + 4 * DT
  let KDP : ℝ := 1 - 7 * DT
  let M : ℝ := self.predictM dt
  match kepler self.EC M with
  | none => none
  | some k =>
    let A : ℝ := self.A_0 * KD
    let B : ℝ := self.B_0 * KD
    let RS : ℝ := A * k.DNOM
    let Sx : ℝ := A * (k.C_EA - self.EC)
    let Sy : ℝ := B * k.S_EA
    let Vx : ℝ := -A * k.S_EA / k.DNOM * self.N0
    let Vy : ℝ := B * k.C_EA / k.DNOM * self.N0
    let AP : ℝ := self.WP + self.WD * T * KDP
    let CW : ℝ := Real.cos AP
    let SW : ℝ := Real.sin AP
    let RAAN : ℝ := self.RA + self.QD * T * KDP
    let CQ : ℝ := Real.cos RAAN
    let SQ : ℝ := Real.sin RAAN
    let CI : ℝ := Real.cos self.IN
    let SI : ℝ := Real.sin self.IN
    let CX : Vec3 := ![CW * CQ - SW * CI * SQ, -SW * CQ - CW * CI * SQ, SI * SQ]
    let CY : Vec3 := ![CW * SQ + SW * CI * CQ, -SW * SQ + CW * CI * CQ, -SI * CQ]
    let CZ : Vec3 := ![SW * SI, CW * SI, CI]
    let SAT : Vec3 := ![Sx * CX 0 + Sy * CX 1, Sx * CY 0 + Sy * CY 1, Sx * CZ 0 + Sy * CZ 1]
    let VEL : Vec3 := ![Vx * CX 0 + Vy * CX 1, Vx * CY 0 + Vy * CY 1, Vx * CZ 0 + Vy * CZ 1]
    let GHAA : ℝ := self.predictGHAA dt
    let CG : ℝ := Real.cos (-GHAA)
    let SG : ℝ := Real.sin (-GHAA)
    let S : Vec3 := ![SAT 0 * CG - SAT 1 * SG, SAT 0 * SG + SAT 1 * CG, SAT 2]
    let V : Vec3 := ![VEL 0 * CG - VEL 1 * SG, VEL 0 * SG + VEL 1 * CG, VEL 2]
    some { self with RS := RS, SAT := SAT, VEL := VEL, S := S, V := V }

/-- `void P13Satellite::LL(double &lat, double &lng)`, returning `(lat, lng)`. -/
def P13Satellite.LL (self : P13Satellite) : ℝ × ℝ :=
  (DEGREES (Real.arcsin (self.S 2 / self.RS)), DEGREES (atan2 (self.S 1) (self.S 0)))

/-! ### class P13Sun -/

/-- The data members of `P13Sun`. -/
structure P13Sun where
  SUN : Vec3
  H : Vec3

/-- The local `GHAE` of `P13Sun::predict`: the Greenwich hour angle at the instant. -/
def P13Sun.predictGHAE (dt : P13DateTime) : ℝ :=
  let DN : Int := dt.DN
  let TN : ℝ := (dt.TN : ℝ)
  let T : ℝ := ((DN - fnday YG 1 0 : Int) : ℝ) + TN
  RADIANS G0 + T * WE

/-! ### The passes of the Kepler loop as a sequence -/

/-- The correction `D` that one pass of the Kepler loop computes at the value `EA`. -/
def keplerD (EC M EA : ℝ) : ℝ := (EA - EC * Real.sin EA - M) / (1 - EC * Real.cos EA)

/-- The value `EA - D` that one pass of the Kepler loop stores back into `EA`. -/
def keplerStep (EC M EA : ℝ) : ℝ := EA - keplerD EC M EA

/-- A satellite object with Earth-fixed position `S` and radius `RS`, every other
member being zero; it serves as a concrete input. -/
def satAt (S : Vec3) (RS : ℝ) : P13Satellite :=
  { N := 0, YE := 0, DE := 0, TE := 0, IN := 0, RA := 0, EC := 0, WP := 0, MA := 0, MM := 0,
    M2 := 0, RV := 0, ALON := 0, ALAT := 0, N0 := 0, A_0 := 0, B_0 := 0, PC := 0, QD := 0,
    WD := 0, DC := 0, RS := RS, name := "", SAT := 0, VEL := 0, S := S, V := 0 }

/-- The element set that `tle` reads from lines in which every field is zero except
the mean motion (columns 53-63 of line 2, the only field of eleven characters),
read as one revolution per day: a circular orbit without decay, with epoch
day 0 of the year 2000.  It serves as a concrete input. -/
def circularElements : P13Satellite :=
  (satAt 0 0).tle (fun s => if s.length = 11 then 1 else 0) "" [] (List.replicate 69 '0')

/-- The element set that `tle` reads from lines in which every field is zero except
the mean motion (columns 53-63 of line 2), read as one revolution per day, and
the decay (columns 34-43 of line 1, the only field of ten characters), read as
one revolution per day per day.  It serves as a concrete input. -/
def decayingElements : P13Satellite :=
  (satAt 0 0).tle (fun s => if s.length = 11 ∨ s.length = 10 then 1 else 0) ""
    (List.replicate 69 '0') (List.replicate 69 '0')

/-- The element set that `tle` reads from lines in which every field is zero except
the epoch year (columns 19-20 of line 1, holding `22`), the epoch day (columns
21-32 of line 1, the only field of twelve characters, read as `78.3`) and the
mean motion (columns 53-63 of line 2, read as one revolution per day): a
circular orbit with epoch 2022, day 78.3.  It serves as a concrete input. -/
def epochElements : P13Satellite :=
  (satAt 0 0).tle (fun s => if s.length = 12 then 78.3 else if s.length = 11 then 1 else 0) ""
    (List.replicate 18 '0' ++ ['2', '2'] ++ List.replicate 49 '0') (List.replicate 69 '0')

/-! ## The geometry code in binary64

Where the program's result hangs on a last bit (a sum that rounds up to `360`, an
argument of `asin` that rounds past `1`), the real-number embedding above cannot
show what the program returns.  The definitions of `Binary64` embed the same
source lines in IEEE-754 binary64: a `double` is the real number it denotes, and
each `+`, `-`, `*`, `/`, `sqrt` and each conversion of a decimal literal is the
exact operation followed by rounding to nearest, ties to even (`f64`, and `f32`
for a literal with the suffix `f`).  IEEE 754 does not fix the results of `sin`,
`cos`, `asin`, `atan2` and `pow`; they are the fields of a parameter `Libm`, and a
statement below names the values it uses.  `asin` outside `[-1, 1]` returns NaN,
for which `none` stands.  Infinities, signed zeros, and NaN other than that one
are not represented (in Lean `x / 0 = 0`).
-/

/-- Rounding of a real number to `double` (binary64). -/
def f64 (x : ℝ) : ℝ := roundNER 53 x

/-- The functions of `<math.h>` whose results IEEE 754 does not fix. -/
structure Libm where
  sin : ℝ → ℝ
  cos : ℝ → ℝ
  asin : ℝ → ℝ
  atan2 : ℝ → ℝ → ℝ
  pow : ℝ → ℝ → ℝ

namespace Binary64

/-- `# define M_PI 3.14159265358979323846` of `<math.h>`. -/
def M_PI : ℝ := f64 3.14159265358979323846

/-- `double RADIANS(double deg)`: `deg * M_PI / 180.0`. -/
def RADIANS (deg : ℝ) : ℝ := f64 (f64 (deg * M_PI) / 180)

/-- `double DEGREES(double rad)`: `rad * 180.0 / M_PI`. -/
def DEGREES (rad : ℝ) : ℝ := f64 (f64 (rad * 180) / M_PI)

/-- `static const double RE = 6378.137f;` -/
def RE : ℝ := f32 6378.137

/-- `static const double FL = 1.0f/298.257224f;`, a division of two `float` values. -/
def FL : ℝ := f32 (1 / f32 298.257224)

/-- `static const double YT = 365.2421874f;` -/
def YT : ℝ := f32 365.2421874

/-- `static const double WW = 2.0f*M_PI/YT;` -/
def WW : ℝ := f64 (f64 (2 * M_PI) / YT)

/-- `static const double WE = 2.0f*M_PI+ WW;` -/
def WE : ℝ := f64 (f64 (2 * M_PI) + WW)

/-- `static const double W0 = WE/86400.0f;` -/
def W0 : ℝ := f64 (WE / 86400)

/-- The constructor `P13Observer::P13Observer(const char *nm, double lat, double lng, double hgt)`. -/
def P13Observer.P13Observer (m : Libm) (nm : String) (lat lng hgt : ℝ) : P13Observer :=
  let LA : ℝ := RADIANS lat
  let LO : ℝ := RADIANS lng
  let HT : ℝ := f64 (hgt / 1000)
  let U : Vec3 := ![f64 (m.cos LA * m.cos LO), f64 (m.cos LA * m.sin LO), m.sin LA]
  let E : Vec3 := ![-m.sin LO, m.cos LO, 0]
  let N : Vec3 := ![f64 (-m.sin LA * m.cos LO), f64 (-m.sin LA * m.sin LO), m.cos LA]
  let RP : ℝ := f64 (RE * f64 (1 - FL))
  let XX : ℝ := f64 (RE * RE)
  let ZZ : ℝ := f64 (RP * RP)
  let D : ℝ := f64 (Real.sqrt (f64 (f64 (f64 (XX * m.cos LA) * m.cos LA)
    + f64 (f64 (ZZ * m.sin LA) * m.sin LA))))
  let Rx : ℝ := f64 (f64 (XX / D) + HT)
  let Rz : ℝ := f64 (f64 (ZZ / D) + HT)
  let O : Vec3 := ![f64 (Rx * U 0), f64 (Rx * U 1), f64 (Rz * U 2)]
  let V : Vec3 := ![f64 (-O 1 * W0), f64 (O 0 * W0), 0]
  { name := nm, LA := LA, LO := LO, HT := HT, U := U, E := E, N := N, O := O, V := V }

/-- The line-of-sight vector `R` of `altaz` after the three divisions by `r`, from
the Earth-fixed position `S` of the satellite (or `H` of the Sun). -/
def altazR (S : Vec3) (obs : P13Observer) : Vec3 :=
  let R0 : Vec3 := ![f64 (S 0 - obs.O 0), f64 (S 1 - obs.O 1), f64 (S 2 - obs.O 2)]
  let r : ℝ := f64 (Real.sqrt (f64 (f64 (f64 (R0 0 * R0 0) + f64 (R0 1 * R0 1))
    + f64 (R0 2 * R0 2))))
  ![f64 (R0 0 / r), f64 (R0 1 / r), f64 (R0 2 / r)]

/-- The local `u` of `altaz`: the projection of `R` on the up vector. -/
def altazU (S : Vec3) (obs : P13Observer) : ℝ :=
  let R : Vec3 := altazR S obs
  f64 (f64 (f64 (R 0 * obs.U 0) + f64 (R 1 * obs.U 1)) + f64 (R 2 * obs.U 2))

/-- The local `e` of `altaz`: the projection of `R` on the east vector. -/
def altazE (S : Vec3) (obs : P13Observer) : ℝ :=
  let R : Vec3 := altazR S obs
  f64 (f64 (f64 (R 0 * obs.E 0) + f64 (R 1 * obs.E 1)) + f64 (R 2 * obs.E 2))

/-- The local `n` of `altaz`: the projection of `R` on the north vector. -/
def altazN (S : Vec3) (obs : P13Observer) : ℝ :=
  let R : Vec3 := altazR S obs
  f64 (f64 (f64 (R 0 * obs.N 0) + f64 (R 1 * obs.N 1)) + f64 (R 2 * obs.N 2))

/-- The body that `P13Satellite::altaz` and `P13Sun::altaz` share, from the
Earth-fixed position `S` (or `H`), returning `(alt, az)`; `alt` is `none` when
`asin` is called outside `[-1, 1]` and returns NaN. -/
def altazBody (m : Libm) (S : Vec3) (obs : P13Observer) : Option ℝ × ℝ :=
  let u : ℝ := altazU S obs
  let e : ℝ := altazE S obs
  let n : ℝ := altazN S obs
  let az0 : ℝ := DEGREES (m.atan2 e n)
  let az : ℝ := if az0 < 0 then f64 (az0 + 360) else az0
  let alt : Option ℝ := if -1 ≤ u ∧ u ≤ 1 then some (DEGREES (m.asin u)) else none
  (alt, az)

/-- `void P13Satellite::altaz(const P13Observer &obs, double &alt, double &az)`,
returning `(alt, az)`. -/
def P13Satellite.altaz (m : Libm) (self : P13Satellite) (obs : P13Observer) : Option ℝ × ℝ :=
  altazBody m self.S obs

/-! ### Constants of `P13.h` used by the orbit and Sun code -/

/-- `static const double GM = 3.986E5f;` -/
def GM : ℝ := f32 3.986e5

/-- `static const double J2 = 1.08263E-3f;` -/
def J2 : ℝ := f32 1.08263e-3

/-- `static const double G0 = 99.5828f;` -/
def G0 : ℝ := f32 99.5828

/-- `static const double MAS0 = 356.4105f;` -/
def MAS0 : ℝ := f32 356.4105

/-- `static const double MASD = 0.98560028f;` -/
def MASD : ℝ := f32 0.98560028

/-- `static const double EQC1 = 0.03340;` -/
def EQC1 : ℝ := f64 0.03340

/-- `static const double EQC2 = 0.00035;` -/
def EQC2 : ℝ := f64 0.00035

/-- `radians(deg)` of the Arduino core (`WProgram.h`):
`#define radians(deg) ((deg)*DEG_TO_RAD)`, with
`#define DEG_TO_RAD 0.017453292519943295769236907684886`. -/
def radians (deg : ℝ) : ℝ := f64 (deg * f64 0.017453292519943295769236907684886)

/-- `static const double INS = radians(23.4375f);` -/
def INS : ℝ := radians (f32 23.4375)

/-- `static const double CNS = cos(INS);` -/
def CNS (m : Libm) : ℝ := m.cos INS

/-- `static const double SNS = sin(INS);` -/
def SNS (m : Libm) : ℝ := m.sin INS

/-! ### class P13Sun -/

/-- `void P13Sun::predict(const P13DateTime &dt)`, acting on the object `self`. -/
def P13Sun.predict (m : Libm) (_self : P13Sun) (dt : P13DateTime) : P13Sun :=
  let DN : Int := dt.DN
  let TN : ℝ := (dt.TN : ℝ)
  let T : ℝ := f64 (((DN - fnday YG 1 0 : Int) : ℝ) + TN)
  let GHAE : ℝ := f64 (RADIANS G0 + f64 (T * WE))
  let MRSE : ℝ := f64 (f64 (RADIANS G0 + f64 (T * WW)) + M_PI)
  let MASE : ℝ := RADIANS (f64 (MAS0 + f64 (T * MASD)))
  let TAS : ℝ := f64 (f64 (MRSE + f64 (EQC1 * m.sin MASE))
    + f64 (EQC2 * m.sin (f64 (2 * MASE))))
  let C : ℝ := m.cos TAS
  let S : ℝ := m.sin TAS
  let SUN : Vec3 := ![C, f64 (S * CNS m), f64 (S * SNS m)]
  let C1 : ℝ := m.cos (-GHAE)
  let S1 : ℝ := m.sin (-GHAE)
  let H : Vec3 := ![f64 (f64 (SUN 0 * C1) - f64 (SUN 1 * S1)),
    f64 (f64 (SUN 0 * S1) + f64 (SUN 1 * C1)), SUN 2]
  { SUN := SUN, H := H }

/-- `void P13Sun::altaz(const P13Observer &obs, double &alt, double &az)`, returning
`(alt, az)`. -/
def P13Sun.altaz (m : Libm) (self : P13Sun) (obs : P13Observer) : Option ℝ × ℝ :=
  altazBody m self.H obs

/-! ### class P13Satellite -/

/-- `void P13Satellite::tle(const char *nm, const char *l1, const char *l2)`, acting
on the object `self`; `strtod` returns the `double` that a field denotes. -/
def P13Satellite.tle (m : Libm) (strtod : List Char → ℝ) (self : P13Satellite) (nm : String)
    (l1 l2 : List Char) : P13Satellite :=
  let N : Int := getlong l2 2 7
  let YE0 : Int := getlong l1 18 20
  let YE : Int := if YE0 < 58 then YE0 + 2000 else YE0 + 1900
  let TE0 : ℝ := getdouble strtod l1 20 32
  let M2 : ℝ := RADIANS (getdouble strtod l1 33 43)
  let IN : ℝ := RADIANS (getdouble strtod l2 8 16)
  let RA : ℝ := RADIANS (getdouble strtod l2 17 25)
  let EC : ℝ := f64 (getdouble strtod l2 26 33 / 1e7)
  let WP : ℝ := RADIANS (getdouble strtod l2 34 42)
  let MA : ℝ := RADIANS (getdouble strtod l2 43 51)
  let MM : ℝ := f64 (f64 (2 * M_PI) * getdouble strtod l2 52 63)
  let RV : ℝ := (getlong l2 63 68 : ℝ)
  let DE : Int := fnday YE 1 0 + toLong TE0
  let TE : ℝ := f64 (TE0 - (toLong TE0 : ℝ))
  let N0 : ℝ := f64 (MM / 86400)
  let A_0 : ℝ := m.pow (f64 (GM / f64 (N0 * N0))) (f64 (1 / 3))
  let B_0 : ℝ := f64 (A_0 * f64 (Real.sqrt (f64 (1 - f64 (EC * EC)))))
  let PC0 : ℝ := f64 (f64 (RE * A_0) / f64 (B_0 * B_0))
  let PC : ℝ := f64 (f64 (f64 (f64 (1.5 * J2) * PC0) * PC0) * MM)
  let CI : ℝ := m.cos IN
  let QD : ℝ := f64 (-PC * CI)
  let WD : ℝ := f64 (f64 (PC * f64 (f64 (f64 (5 * CI) * CI) - 1)) / 2)
  let DC : ℝ := f64 (f64 (-2 * M2) / f64 (3 * MM))
  { self with
    name := nm, N := N, YE := YE, TE := TE, M2 := M2, IN := IN, RA := RA, EC := EC, WP := WP,
    MA := MA, MM := MM, RV := RV, DE := DE, N0 := N0, A_0 := A_0, B_0 := B_0, PC := PC,
    QD := QD, WD := WD, DC := DC }

/-- The `for (;;)` loop of `predict`, entered with the value `EA` and allowed
`fuel` passes; `none` when the passes are used up before the `break`. -/
def keplerLoop (m : Libm) (EC M : ℝ) : Nat → ℝ → Option KeplerResult
  | 0, _ => none
  | fuel + 1, EA =>
    let C_EA : ℝ := m.cos EA
    let S_EA : ℝ := m.sin EA
    let DNOM : ℝ := f64 (1 - f64 (EC * C_EA))
    let D : ℝ := f64 (f64 (f64 (EA - f64 (EC * S_EA)) - M) / DNOM)
    let EA1 : ℝ := f64 (EA - D)
    if |D| < f64 1e-5 then some { EA := EA1, C_EA := C_EA, S_EA := S_EA, DNOM := DNOM }
    else keplerLoop m EC M fuel EA1

open Classical in
/-- The unbounded loop: its result when some number of passes reaches the
`break`, and `none` when the loop runs forever. -/
def kepler (m : Libm) (EC M : ℝ) : Option KeplerResult :=
  if h : ∃ fuel, (keplerLoop m EC M fuel M).isSome then keplerLoop m EC M (Nat.find h) M
  else none

/-- The local `T` of `predict`: the time since the epoch of the elements, in days. -/
def P13Satellite.predictT (self : P13Satellite) (dt : P13DateTime) : ℝ :=
  let DN : Int := dt.DN
  let TN : ℝ := (dt.TN : ℝ)
  f64 (((DN - self.DE : Int) : ℝ) + f64 (TN - self.TE))

/-- The local `M` of `predict` on entry to the Kepler loop. -/
def P13Satellite.predictM (self : P13Satellite) (dt : P13DateTime) : ℝ :=
  let T : ℝ := predictT self dt
  let DT : ℝ := f64 (f64 (self.DC * T) / 2)
  let M0 : ℝ := f64 (self.MA + f64 (f64 (self.MM * T) * f64 (1 - f64 (3 * DT))))
  let DR : ℝ := (toLong (f64 (M0 / f64 (2 * M_PI))) : ℝ)
  f64 (M0 - f64 (f64 (DR * 2) * M_PI))

/-- The local `GHAA` of `predict`, from the `float` variables `TEG` and `GHAE`. -/
def P13Satellite.predictGHAA (self : P13Satellite) (dt : P13DateTime) : ℝ :=
  let TEG : ℝ := f32 (f64 (((self.DE - fnday YG 1 0 : Int) : ℝ) + self.TE))
  let GHAE : ℝ := f32 (f64 (radians G0 + f64 (TEG * WE)))
  f64 (GHAE + f64 (WE * predictT self dt))

/-- `void P13Satellite::predict(const P13DateTime &dt)`, acting on the object
`self`; `none` when the Kepler loop does not end.  The locals `MRSE`, `MASE` and
`RN`, which the function computes and never reads, are left out. -/
def P13Satellite.predict (m : Libm) (self : P13Satellite) (dt : P13DateTime) :
    Option P13Satellite :=
  let T : ℝ := predictT self dt
  let DT : ℝ := f64 (f64 (self.DC * T) / 2)
  let KD : ℝ := f64 (1 + f64 (4 * DT))
  let KDP : ℝ := f64 (1 - f64 (7 * DT))
  let M : ℝ := predictM self dt
  match kepler m self.EC M with
  | none => none
  | some k =>
    let A : ℝ := f64 (self.A_0 * KD)
    let B : ℝ := f64 (self.B_0 * KD)
    let RS : ℝ := f64 (A * k.DNOM)
    let Sx : ℝ := f64 (A * f64 (k.C_EA - self.EC))
    let Sy : ℝ := f64 (B * k.S_EA)
    let Vx : ℝ := f64 (f64 (f64 (-A * k.S_EA) / k.DNOM) * self.N0)
    let Vy : ℝ := f64 (f64 (f64 (B * k.C_EA) / k.DNOM) * self.N0)
    let AP : ℝ := f64 (self.WP + f64 (f64 (self.WD * T) * KDP))
    let CW : ℝ := m.cos AP
    let SW : ℝ := m.sin AP
    let RAAN : ℝ := f64 (self.RA + f64 (f64 (self.QD * T) * KDP))
    let CQ : ℝ := m.cos RAAN
    let SQ : ℝ := m.sin RAAN
    let CI : ℝ := m.cos self.IN
    let SI : ℝ := m.sin self.IN
    let CX : Vec3 := ![f64 (f64 (CW * CQ) - f64 (f64 (SW * CI) * SQ)),
      f64 (f64 (-SW * CQ) - f64 (f64 (CW * CI) * SQ)), f64 (SI * SQ)]
    let CY : Vec3 := ![f64 (f64 (CW * SQ) + f64 (f64 (SW * CI) * CQ)),
      f64 (f64 (-SW * SQ) + f64 (f64 (CW * CI) * CQ)), f64 (-SI * CQ)]
    let CZ : Vec3 := ![f64 (SW * SI), f64 (CW * SI), CI]
    let SAT : Vec3 := ![f64 (f64 (Sx * CX 0) + f64 (Sy * CX 1)),
      f64 (f64 (Sx * CY 0) + f64 (Sy * CY 1)), f64 (f64 (Sx * CZ 0) + f64 (Sy * CZ 1))]
    let VEL : Vec3 := ![f64 (f64 (Vx * CX 0) + f64 (Vy * CX 1)),
      f64 (f64 (Vx * CY 0) + f64 (Vy * CY 1)), f64 (f64 (Vx * CZ 0) + f64 (Vy * CZ 1))]
    let GHAA : ℝ := predictGHAA self dt
    let CG : ℝ := m.cos (-GHAA)
    let SG : ℝ := m.sin (-GHAA)
    let S : Vec3 := ![f64 (f64 (SAT 0 * CG) - f64 (SAT 1 * SG)),
      f64 (f64 (SAT 0 * SG) + f64 (SAT 1 * CG)), SAT 2]
    let V : Vec3 := ![f64 (f64 (VEL 0 * CG) - f64 (VEL 1 * SG)),
      f64 (f64 (VEL 0 * SG) + f64 (VEL 1 * CG)), VEL 2]
    some { self with RS := RS, SAT := SAT, VEL := VEL, S := S, V := V }

/-- `void P13Satellite::LL(double &lat, double &lng)`, returning `(lat, lng)`; `lat`
is `none` when `asin` is called outside `[-1, 1]` and returns NaN. -/
def P13Satellite.LL (m : Libm) (self : P13Satellite) : Option ℝ × ℝ :=
  let q : ℝ := f64 (self.S 2 / self.RS)
  (if -1 ≤ q ∧ q ≤ 1 then some (DEGREES (m.asin q)) else none,
    DEGREES (m.atan2 (self.S 1) (self.S 0)))

end Binary64

/-- Line 1 of the element set of a circular polar orbit: epoch year 22, epoch day
`001.00000000`, no decay; it serves as a concrete input. -/
def polarLine1 : List Char :=
  String.toList "1 00000U 22001A   22001.00000000  .00000000  00000-0  00000-0 0    00"

/-- Line 2 of the same element set: inclination `90.0000`, right ascension `0.0000`,
eccentricity `0000000`, argument of perigee `60.0000`, mean anomaly `30.0000`,
mean motion `2.00000000` revolutions per day. -/
def polarLine2 : List Char :=
  String.toList "2 00000  90.0000   0.0000 0000000  60.0000  30.0000  2.00000000000000"

/-- What `strtod` returns on the fields of `polarLine1` and `polarLine2` (and `0`
on every other string; the fields not listed read as zero). -/
def polarStrtod (s : List Char) : ℝ :=
  if s = String.toList "001.00000000" then 1
  else if s = String.toList " 90.0000" then 90
  else if s = String.toList " 60.0000" then 60
  else if s = String.toList " 30.0000" then 30
  else if s = String.toList " 2.00000000" then 2
  else 0

/-- The element set that the binary64 `tle` reads from `polarLine1` and
`polarLine2`. -/
def polarElements (m : Libm) : P13Satellite :=
  Binary64.P13Satellite.tle m polarStrtod (satAt 0 0) "" polarLine1 polarLine2

/-- A `Libm` that returns the correctly rounded value of `sin`, `cos`, `atan2` and
`pow` (the value the GNU C library returns) at each argument that occurs in the
evaluations below, and `0` everywhere else; it shows that the hypotheses of these
evaluations can be met. -/
def libmTable : Libm where
  sin x :=
    if x = 0 then 0
    else if x = 884279719003555 / 1125899906842624 then 1592262918131443 / 2251799813685248
    else if x = 4273609908790199 / 562949953421312 then 8698591483220481 / 9007199254740992
    else if x = 4273609908790199 / 281474976710656 then 2257461009008923 / 4503599627370496
    else if x = 7074092835003881 / 1125899906842624 then -(2374320523823349 / 18446744073709551616)
    else if x = 3684498829181479 / 9007199254740992 then 895649940833515 / 2251799813685248
    else if x = -(8863833977788929 / 17592186044416) then -(8381289368573847 / 9007199254740992)
    else if x = -(5385949515015563 / 4503599627370496) then -(523854931736567 / 562949953421312)
    else if x = 4716158501352293 / 9007199254740992 then 9007199254740991 / 18014398509481984
    else if x = 4716158501352293 / 4503599627370496 then 3900231685776981 / 4503599627370496
    else if x = 884279719003555 / 562949953421312 then 1
    else 0
  cos x :=
    if x = 0 then 1
    else if x = 884279719003555 / 1125899906842624 then 6369051672525773 / 9007199254740992
    else if x = 7074092835003881 / 1125899906842624 then 9007199180130651 / 9007199254740992
    else if x = 3684498829181479 / 9007199254740992 then 4132027872315403 / 4503599627370496
    else if x = -(8863833977788929 / 17592186044416) then 6598068485500189 / 18014398509481984
    else if x = -(5385949515015563 / 4503599627370496) then 3298044435934351 / 9007199254740992
    else if x = 4716158501352293 / 9007199254740992 then 7800463371553963 / 9007199254740992
    else if x = 4716158501352293 / 4503599627370496 then 4503599627370497 / 9007199254740992
    else 0
  asin _ := 0
  atan2 y x :=
    if y = -(3444738024912811 / 40564819207303340847894502572032) ∧ x = 3824427469059989 / 4503599627370496 then -(2028240960365167 / 20282409603651670423947251286016)
    else 0
  pow x y :=
    if x = 4823752499213161 / 256 ∧ y = 6004799503160661 / 18014398509481984 then 7314559645602573 / 274877906944
    else 0

end

/-! ## Evaluating the rounding operators -/

theorem roundHalfEven_eq (x : ℚ) (k : Int) (h1 : (k : ℚ) - 1 / 2 < x) (h2 : x < k + 1 / 2) :
    roundHalfEven x = k := by
  have a1 : k - 1 ≤ Int.floor x := by
    rw [Int.le_floor]; push_cast; linarith
  have a2 : Int.floor x < k + 1 := by
    rw [Int.floor_lt]; push_cast; linarith
  have hfl := Int.floor_le x
  have hlf := Int.lt_floor_add_one x
  have hf : Int.floor x = k ∨ Int.floor x = k - 1 := by omega
  unfold roundHalfEven
  rcases hf with hf | hf
  · rw [if_pos (by rw [hf]; linarith), hf]
  · rw [hf] at hfl hlf
    push_cast at hfl hlf
    rw [if_neg (by rw [hf]; push_cast; linarith), if_pos (by rw [hf]; push_cast; linarith), hf]
    ring

theorem roundHalfEven_intCast (k : Int) : roundHalfEven (k : ℚ) = k :=
  roundHalfEven_eq _ k (by linarith) (by linarith)

/-- Certificate for one rounding: `k * u` is the value of `roundNE p q` as soon
as `u` is the unit in the last place of `q` and `q` is less than `u / 2` away
from `k * u`. -/
theorem roundNE_eq (p : Nat) (q : ℚ) (e k : Int) (u : ℚ)
    (hu : u = (2 : ℚ) ^ (e - ((p : Int) - 1)))
    (hlo : (2 : ℚ) ^ e ≤ |q|) (hhi : |q| < (2 : ℚ) ^ (e + 1))
    (h1 : ((k : ℚ) - 1 / 2) * u < q) (h2 : q < ((k : ℚ) + 1 / 2) * u) :
    roundNE p q = k * u := by
  have hq : 0 < |q| := lt_of_lt_of_le (by positivity) hlo
  have he : Int.log 2 |q| = e := by
    apply le_antisymm
    · have h := (Int.lt_zpow_iff_log_lt (b := 2) (by norm_num) hq (x := e + 1)).1
        (by exact_mod_cast hhi)
      omega
    · exact (Int.zpow_le_iff_le_log (b := 2) (by norm_num) hq).1 (by exact_mod_cast hlo)
  have hupos : 0 < u := by rw [hu]; positivity
  unfold roundNE
  simp only [he, ← hu]
  rw [roundHalfEven_eq (q / u) k ((lt_div_iff₀ hupos).2 h1) ((div_lt_iff₀ hupos).2 h2)]

theorem roundNE_zero (p : Nat) : roundNE p 0 = 0 := by
  unfold roundNE
  have h : roundHalfEven 0 = 0 := by simpa using roundHalfEven_intCast 0
  simp [h]

theorem toLong_eq_of_nonneg (q : ℚ) (k : Int) (h0 : 0 ≤ q) (h1 : (k : ℚ) ≤ q) (h2 : q < k + 1) :
    toLong q = k := by
  unfold toLong
  rw [if_pos h0, Int.floor_eq_iff]
  exact ⟨h1, h2⟩

theorem toLong_eq_of_neg (q : ℚ) (k : Int) (h0 : q < 0) (h1 : (k : ℚ) - 1 < q) (h2 : q ≤ k) :
    toLong q = k := by
  unfold toLong
  rw [if_neg (not_le.2 h0), Int.ceil_eq_iff]
  exact ⟨h1, h2⟩

theorem roundHalfEven_tie (f : Int) :
    roundHalfEven ((f : ℚ) + 1 / 2) = if f % 2 = 0 then f else f + 1 := by
  have hf : Int.floor ((f : ℚ) + 1 / 2) = f := by
    rw [Int.floor_eq_iff]; constructor <;> linarith
  unfold roundHalfEven
  simp only [hf]
  rw [if_neg (by norm_num), if_neg (by norm_num)]

/-- The exponent that `roundNE` reads off its argument. -/
theorem log_two_abs_eq (q : ℚ) (e : Int) (hlo : (2 : ℚ) ^ e ≤ |q|)
    (hhi : |q| < (2 : ℚ) ^ (e + 1)) : Int.log 2 |q| = e := by
  have hq : 0 < |q| := lt_of_lt_of_le (by positivity) hlo
  apply le_antisymm
  · have h := (Int.lt_zpow_iff_log_lt (b := 2) (by norm_num) hq (x := e + 1)).1
      (by exact_mod_cast hhi)
    omega
  · exact (Int.zpow_le_iff_le_log (b := 2) (by norm_num) hq).1 (by exact_mod_cast hlo)

/-- Certificate for a rounding that falls exactly between two representable
numbers. -/
theorem roundNE_eq_tie (p : Nat) (q : ℚ) (e f : Int) (u : ℚ)
    (hu : u = (2 : ℚ) ^ (e - ((p : Int) - 1)))
    (hlo : (2 : ℚ) ^ e ≤ |q|) (hhi : |q| < (2 : ℚ) ^ (e + 1))
    (h1 : q = ((f : ℚ) + 1 / 2) * u) :
    roundNE p q = ((if f % 2 = 0 then f else f + 1 : Int) : ℚ) * u := by
  have he := log_two_abs_eq q e hlo hhi
  have hupos : 0 < u := by rw [hu]; positivity
  unfold roundNE
  simp only [he, ← hu]
  have hx : q / u = (f : ℚ) + 1 / 2 := by
    rw [h1, mul_div_assoc, div_self hupos.ne', mul_one]
  rw [hx, roundHalfEven_tie]

theorem b64_eq (q r : ℚ) (e k : Int)
    (hlo : (2 : ℚ) ^ e ≤ |q|) (hhi : |q| < (2 : ℚ) ^ (e + 1))
    (h1 : ((k : ℚ) - 1 / 2) * (2 : ℚ) ^ (e - 52) < q)
    (h2 : q < ((k : ℚ) + 1 / 2) * (2 : ℚ) ^ (e - 52))
    (hr : r = k * (2 : ℚ) ^ (e - 52)) : b64 q = r := by
  rw [hr]
  exact roundNE_eq 53 q e k _ (by norm_num) hlo hhi h1 h2

theorem b64_eq_tie (q r : ℚ) (e f : Int)
    (hlo : (2 : ℚ) ^ e ≤ |q|) (hhi : |q| < (2 : ℚ) ^ (e + 1))
    (h1 : q = ((f : ℚ) + 1 / 2) * (2 : ℚ) ^ (e - 52))
    (hr : r = ((if f % 2 = 0 then f else f + 1 : Int) : ℚ) * (2 : ℚ) ^ (e - 52)) :
    b64 q = r := by
  rw [hr]
  exact roundNE_eq_tie 53 q e f _ (by norm_num) hlo hhi h1

theorem b32_eq (q r : ℚ) (e k : Int)
    (hlo : (2 : ℚ) ^ e ≤ |q|) (hhi : |q| < (2 : ℚ) ^ (e + 1))
    (h1 : ((k : ℚ) - 1 / 2) * (2 : ℚ) ^ (e - 23) < q)
    (h2 : q < ((k : ℚ) + 1 / 2) * (2 : ℚ) ^ (e - 23))
    (hr : r = k * (2 : ℚ) ^ (e - 23)) : b32 q = r := by
  rw [hr]
  exact roundNE_eq 24 q e k _ (by norm_num) hlo hhi h1 h2

/-- `1/2`, `-1/2` and `3/2` are `double` values. -/
theorem b64_half : b64 (1 / 2) = 1 / 2 := by
  apply b64_eq _ _ (-1) 4503599627370496 <;> norm_num [abs_of_pos]

theorem b64_neg_half : b64 (-(1 / 2)) = -(1 / 2) := by
  apply b64_eq _ _ (-1) (-4503599627370496) <;> norm_num [abs_of_neg]

theorem b64_three_halves : b64 (3 / 2) = 3 / 2 := by
  apply b64_eq _ _ 0 6755399441055744 <;> norm_num [abs_of_pos]

theorem toLong_neg_half : toLong (-(1 / 2) : ℚ) = 0 := by
  apply toLong_eq_of_neg <;> norm_num

theorem toLong_three_halves : toLong (3 / 2 : ℚ) = 1 := by
  apply toLong_eq_of_nonneg <;> norm_num

/-- The call `add(-1.0)` on the instant `(0, 0.5)`. -/
theorem add_half_neg_one : add ⟨0, 1 / 2⟩ (-1) = ⟨0, -(1 / 2)⟩ := by
  have h : ((1 : ℚ) / 2 + -1) = -(1 / 2) := by norm_num
  simp only [add, h, b64_neg_half, toLong_neg_half]
  norm_num [b64_neg_half]

/-- The call `add(1.0)` on the instant `(0, 0.5)`. -/
theorem add_half_one : add ⟨0, 1 / 2⟩ 1 = ⟨1, 1 / 2⟩ := by
  have h : ((1 : ℚ) / 2 + 1) = 3 / 2 := by norm_num
  have h2 : ((3 : ℚ) / 2 - ((1 : Int) : ℚ)) = 1 / 2 := by norm_num
  simp only [add, h, b64_three_halves, toLong_three_halves, h2, b64_half]
  norm_num

/-- The call `add(-1.0)` on the instant `(1, 0.5)`. -/
theorem add_one_half_neg_one : add ⟨1, 1 / 2⟩ (-1) = ⟨1, -(1 / 2)⟩ := by
  have h : ((1 : ℚ) / 2 + -1) = -(1 / 2) := by norm_num
  simp only [add, h, b64_neg_half, toLong_neg_half]
  norm_num [b64_neg_half]

/-! ## Representable numbers -/

theorem abs_roundHalfEven_sub_le (y : ℚ) : |(roundHalfEven y : ℚ) - y| ≤ 1 / 2 := by
  have hfl := Int.floor_le y
  have hlf := Int.lt_floor_add_one y
  unfold roundHalfEven
  simp only
  split_ifs with h1 h2 h3
  · rw [abs_le]; constructor <;> linarith
  · rw [abs_le]; push_cast; constructor <;> linarith
  · rw [abs_le]; constructor <;> linarith
  · rw [abs_le]; push_cast; constructor <;> linarith

theorem isFloat_zero (p : Nat) : IsFloat p 0 :=
  ⟨0, 0, by simp, by simp⟩

/-- A number with at most `p` significant bits is not changed by rounding. -/
theorem roundNE_of_isFloat (p : Nat) (x : ℚ) (hx : IsFloat p x) : roundNE p x = x := by
  obtain ⟨k, j, hk, rfl⟩ := hx
  by_cases hk0 : k = 0
  · subst hk0; simpa using roundNE_zero p
  have h2 : (0 : ℚ) < 2 := by norm_num
  have hxne : (k : ℚ) * (2 : ℚ) ^ j ≠ 0 :=
    mul_ne_zero (by exact_mod_cast hk0) (zpow_ne_zero _ h2.ne')
  have hxpos : 0 < |(k : ℚ) * (2 : ℚ) ^ j| := abs_pos.2 hxne
  have hlog := Int.zpow_log_le_self (b := 2) (by norm_num) hxpos
  have hkq : |(k : ℚ)| < (2 : ℚ) ^ p := by
    have : ((|k| : Int) : ℚ) < ((2 ^ p : Int) : ℚ) := by exact_mod_cast hk
    simpa using this
  have hlt : |(k : ℚ) * (2 : ℚ) ^ j| < (2 : ℚ) ^ ((p : Int) + j) := by
    rw [abs_mul, abs_of_pos (zpow_pos h2 j), zpow_add₀ h2.ne', zpow_natCast]
    exact mul_lt_mul_of_pos_right hkq (zpow_pos h2 j)
  have hL : Int.log 2 |(k : ℚ) * (2 : ℚ) ^ j| < (p : Int) + j := by
    have h := lt_of_le_of_lt hlog hlt
    have h' : ((2 : ℕ) : ℚ) ^ Int.log 2 |(k : ℚ) * (2 : ℚ) ^ j| < ((2 : ℕ) : ℚ) ^ ((p : Int) + j) := by
      simpa using h
    exact (zpow_lt_zpow_iff_right₀ (by norm_num : (1 : ℚ) < ((2 : ℕ) : ℚ))).1 h'
  unfold roundNE
  generalize Int.log 2 |(k : ℚ) * (2 : ℚ) ^ j| = L at hL
  obtain ⟨d, hd⟩ : ∃ d : Nat, j = L - ((p : Int) - 1) + d :=
    ⟨(j - (L - ((p : Int) - 1))).toNat, by omega⟩
  have hdiv : (k : ℚ) * (2 : ℚ) ^ j / (2 : ℚ) ^ (L - ((p : Int) - 1))
      = ((k * 2 ^ d : Int) : ℚ) := by
    rw [hd, zpow_add₀ h2.ne', zpow_natCast]
    push_cast
    field_simp
    ring
  simp only
  rw [hdiv, roundHalfEven_intCast, hd, zpow_add₀ h2.ne', zpow_natCast]
  push_cast
  ring

/-- Rounding returns a number with at most `p` significant bits. -/
theorem isFloat_roundNE (p : Nat) (hp : 1 ≤ p) (x : ℚ) : IsFloat p (roundNE p x) := by
  by_cases hx0 : x = 0
  · subst hx0; rw [roundNE_zero]; exact isFloat_zero p
  have h2 : (0 : ℚ) < 2 := by norm_num
  have hxpos : 0 < |x| := abs_pos.2 hx0
  have hlt := Int.lt_zpow_succ_log_self (b := 2) (by norm_num) |x|
  unfold roundNE
  generalize Int.log 2 |x| = L at hlt
  simp only
  have hu : (0 : ℚ) < (2 : ℚ) ^ (L - ((p : Int) - 1)) := zpow_pos h2 _
  obtain ⟨n, hn⟩ : ∃ n : Int, n = roundHalfEven (x / (2 : ℚ) ^ (L - ((p : Int) - 1))) := ⟨_, rfl⟩
  rw [← hn]
  have hclose := abs_roundHalfEven_sub_le (x / (2 : ℚ) ^ (L - ((p : Int) - 1)))
  rw [← hn] at hclose
  have hq : |x / (2 : ℚ) ^ (L - ((p : Int) - 1))| < (2 : ℚ) ^ p := by
    rw [abs_div, abs_of_pos hu, div_lt_iff₀ hu, ← zpow_natCast, ← zpow_add₀ h2.ne']
    have e : (p : Int) + (L - ((p : Int) - 1)) = L + 1 := by ring
    rw [e]
    simpa using hlt
  have hnq : |(n : ℚ)| < (2 : ℚ) ^ p + 1 := by
    have h1 : |(n : ℚ)| ≤ |(n : ℚ) - x / (2 : ℚ) ^ (L - ((p : Int) - 1))|
        + |x / (2 : ℚ) ^ (L - ((p : Int) - 1))| := by
      have := abs_add ((n : ℚ) - x / (2 : ℚ) ^ (L - ((p : Int) - 1)))
        (x / (2 : ℚ) ^ (L - ((p : Int) - 1)))
      simpa using this
    linarith
  have hnz : |n| ≤ 2 ^ p := by
    have h1 : ((|n| : Int) : ℚ) < (((2 : Int) ^ p + 1 : Int) : ℚ) := by
      push_cast
      simpa using hnq
    have h2' : |n| < 2 ^ p + 1 := by exact_mod_cast h1
    omega
  rcases lt_or_eq_of_le hnz with hlt' | heq
  · exact ⟨n, L - ((p : Int) - 1), hlt', rfl⟩
  · obtain ⟨q, hq'⟩ : ∃ q : Nat, p = q + 1 := ⟨p - 1, by omega⟩
    have hpow : (2 : Int) ^ q < 2 ^ p := by
      rw [hq', pow_succ]
      have : (0 : Int) < 2 ^ q := by positivity
      omega
    rcases abs_eq (by positivity : (0 : Int) ≤ 2 ^ p) |>.1 heq with hpos | hneg
    · refine ⟨2 ^ q, L - ((p : Int) - 1) + 1, ?_, ?_⟩
      · rw [abs_of_pos (by positivity)]; exact hpow
      · rw [hpos, zpow_add₀ h2.ne', hq']
        push_cast
        ring
    · refine ⟨-2 ^ q, L - ((p : Int) - 1) + 1, ?_, ?_⟩
      · rw [abs_neg, abs_of_pos (by positivity)]; exact hpow
      · rw [hneg, zpow_add₀ h2.ne', hq']
        push_cast
        ring

theorem toLong_intCast (m : Int) : toLong (m : ℚ) = m := by
  unfold toLong
  split_ifs <;> simp

theorem toLong_of_nonneg (x : ℚ) (hx : 0 ≤ x) : toLong x = Int.floor x := by
  unfold toLong
  rw [if_pos hx]

/-- The fraction that a truncating cast discards lies strictly between -1 and 1. -/
theorem abs_sub_toLong_lt_one (x : ℚ) : |x - (toLong x : ℚ)| < 1 := by
  unfold toLong
  split_ifs with h
  · have h1 := Int.floor_le x
    have h2 := Int.lt_floor_add_one x
    rw [abs_lt]; constructor <;> linarith
  · have h1 := Int.le_ceil x
    have h2 := Int.ceil_lt_add_one x
    rw [abs_lt]; constructor <;> linarith

/-- The fraction that a truncating cast discards from a number with at most `p`
significant bits has at most `p` significant bits. -/
theorem isFloat_sub_toLong (p : Nat) (x : ℚ) (hx : IsFloat p x) :
    IsFloat p (x - (toLong x : ℚ)) := by
  obtain ⟨k, j, hk, rfl⟩ := hx
  have h2 : (0 : ℚ) < 2 := by norm_num
  rcases le_or_lt 0 j with hj | hj
  · obtain ⟨d, rfl⟩ : ∃ d : Nat, j = d := ⟨j.toNat, by omega⟩
    have e : (k : ℚ) * (2 : ℚ) ^ (d : Int) = ((k * 2 ^ d : Int) : ℚ) := by
      rw [zpow_natCast]; push_cast; ring
    rw [e, toLong_intCast, sub_self]
    exact isFloat_zero p
  · obtain ⟨d, hd⟩ : ∃ d : Nat, j = -(d : Int) := ⟨(-j).toNat, by omega⟩
    have hpow : (0 : ℚ) < (2 : ℚ) ^ d := by positivity
    have hx : (k : ℚ) * (2 : ℚ) ^ j = (k : ℚ) / (2 : ℚ) ^ d := by
      rw [hd, zpow_neg, zpow_natCast, div_eq_mul_inv]
    obtain ⟨m, hm⟩ : ∃ m : Int, m = toLong ((k : ℚ) * (2 : ℚ) ^ j) := ⟨_, rfl⟩
    rw [← hm]
    refine ⟨k - m * 2 ^ d, j, ?_, ?_⟩
    · have hpowz : (0 : Int) < 2 ^ d := by positivity
      rcases le_or_lt 0 k with hk0 | hk0
      · have hxnn : (0 : ℚ) ≤ (k : ℚ) * (2 : ℚ) ^ j :=
          mul_nonneg (by exact_mod_cast hk0) (zpow_pos h2 j).le
        have hm0 : 0 ≤ m := by
          rw [hm, toLong_of_nonneg _ hxnn]; exact Int.floor_nonneg.2 hxnn
        have hmle : (m : ℚ) ≤ (k : ℚ) / (2 : ℚ) ^ d := by
          rw [hm, toLong_of_nonneg _ hxnn, ← hx]; exact Int.floor_le _
        have hmk : m * 2 ^ d ≤ k := by
          have := (le_div_iff₀ hpow).1 hmle
          exact_mod_cast this
        have hnn : 0 ≤ m * 2 ^ d := mul_nonneg hm0 hpowz.le
        rw [abs_of_nonneg hk0] at hk
        rw [abs_of_nonneg (by omega)]
        omega
      · have hxneg : (k : ℚ) * (2 : ℚ) ^ j < 0 :=
          mul_neg_of_neg_of_pos (by exact_mod_cast hk0) (zpow_pos h2 j)
        have hmdef : m = Int.ceil ((k : ℚ) * (2 : ℚ) ^ j) := by
          rw [hm]; unfold toLong; rw [if_neg (not_le.2 hxneg)]
        have hm0 : m ≤ 0 := by
          rw [hmdef]; exact Int.ceil_le.2 (by simpa using hxneg.le)
        have hmge : (k : ℚ) / (2 : ℚ) ^ d ≤ (m : ℚ) := by
          rw [hmdef, ← hx]; exact Int.le_ceil _
        have hmk : k ≤ m * 2 ^ d := by
          have := (div_le_iff₀ hpow).1 hmge
          exact_mod_cast this
        have hnp : m * 2 ^ d ≤ 0 := mul_nonpos_of_nonpos_of_nonneg hm0 hpowz.le
        rw [abs_of_neg hk0] at hk
        rw [abs_of_nonpos (by omega)]
        omega
    · rw [hd, zpow_neg, zpow_natCast]
      push_cast
      field_simp
      ring

/-- The statement `TN -= (long)TN` is exact on a `double`. -/
theorem b64_sub_toLong_b64 (y : ℚ) :
    b64 (b64 y - (toLong (b64 y) : ℚ)) = b64 y - (toLong (b64 y) : ℚ) :=
  roundNE_of_isFloat 53 _ (isFloat_sub_toLong 53 _ (isFloat_roundNE 53 (by norm_num) y))

/-! ## Angles -/

theorem M_PI_pos : 0 < M_PI := Real.pi_pos

theorem DEGREES_mono {a b : ℝ} (h : a ≤ b) : DEGREES a ≤ DEGREES b := by
  unfold DEGREES
  have := M_PI_pos
  gcongr

theorem DEGREES_M_PI : DEGREES M_PI = 180 := by
  unfold DEGREES
  field_simp [M_PI_pos.ne']

theorem atan2_le (y x : ℝ) : atan2 y x ≤ M_PI := Complex.arg_le_pi _

theorem neg_lt_atan2 (y x : ℝ) : -M_PI < atan2 y x := Complex.neg_pi_lt_arg _

theorem atan2_zero_neg_one : atan2 0 (-1) = M_PI := by
  unfold atan2 M_PI
  have h : (⟨-1, 0⟩ : ℂ) = -1 := by
    apply Complex.ext <;> simp
  rw [h, Complex.arg_neg_one]

/-- The azimuth and longitude in degrees of an `atan2` value. -/
theorem DEGREES_atan2_le (y x : ℝ) : DEGREES (atan2 y x) ≤ 180 := by
  rw [← DEGREES_M_PI]
  exact DEGREES_mono (atan2_le y x)

theorem neg_lt_DEGREES_atan2 (y x : ℝ) : -180 < DEGREES (atan2 y x) := by
  have h := neg_lt_atan2 y x
  have hp := M_PI_pos
  unfold DEGREES
  rw [lt_div_iff₀ hp]
  nlinarith

/-! ## The Kepler loop -/

/-- More passes do not change the result of a loop that has reached its `break`. -/
theorem keplerLoop_mono (EC M : ℝ) (n : Nat) : ∀ (k : Nat) (EA : ℝ) (r : KeplerResult),
    keplerLoop EC M n EA = some r → keplerLoop EC M (n + k) EA = some r := by
  induction n with
  | zero => intro k EA r h; simp [keplerLoop] at h
  | succ n ih =>
    intro k EA r h
    rw [Nat.succ_add]
    simp only [keplerLoop] at h ⊢
    split_ifs at h ⊢ with hD
    · exact h
    · exact ih k _ r h

/-- The unbounded loop returns what any sufficient number of passes returns. -/
theorem kepler_eq_of_keplerLoop (EC M : ℝ) (n : Nat) (r : KeplerResult)
    (h : keplerLoop EC M n M = some r) : kepler EC M = some r := by
  classical
  have hex : ∃ fuel, (keplerLoop EC M fuel M).isSome := ⟨n, by rw [h]; rfl⟩
  unfold kepler
  rw [dif_pos hex]
  have hfind := Nat.find_spec hex
  have hle : Nat.find hex ≤ n := Nat.find_min' hex (by rw [h]; rfl)
  obtain ⟨r', hr'⟩ := Option.isSome_iff_exists.1 hfind
  have := keplerLoop_mono EC M (Nat.find hex) (n - Nat.find hex) M r' hr'
  rw [Nat.add_sub_cancel' hle, h] at this
  rw [hr', ← this]

/-- With eccentricity zero the first pass already reaches the `break`. -/
theorem kepler_circular (M : ℝ) :
    kepler 0 M = some { EA := M, C_EA := Real.cos M, S_EA := Real.sin M, DNOM := 1 } := by
  apply kepler_eq_of_keplerLoop 0 M 1
  simp only [keplerLoop]
  norm_num

/-! ## Reading the element lines -/

theorem field_eq_pair (l : List Char) (i : Nat) (a b : Char) (ha : l[i]? = some a)
    (hb : l[i + 1]? = some b) : field l i (i + 2) = [a, b] := by
  unfold field
  have h2 : i + 2 - i = 2 := by omega
  rw [h2]
  apply List.ext_getElem?
  intro n
  rcases n with _ | _ | n
  · simp [List.getElem?_take, List.getElem?_drop, ha]
  · simp [List.getElem?_take, List.getElem?_drop, hb]
  · simp [List.getElem?_take]

theorem atol_two_digits (d1 d2 : Nat) (h1 : d1 < 10) (h2 : d2 < 10) :
    atol [Char.ofNat (48 + d1), Char.ofNat (48 + d2)] = ((10 * d1 + d2 : Nat) : Int) := by
  interval_cases d1 <;> interval_cases d2 <;> rfl

/-! ## Convergence of the Kepler loop -/

/-- The loop with `fuel` passes, read off the sequence of its passes: when pass
number `n < fuel` has a correction below the threshold, the loop returns after the
first such pass `m ≤ n`, with `EA` the value after that pass. -/
theorem keplerLoop_of_small_step (EC M : ℝ) : ∀ (fuel n : Nat) (EA : ℝ), n < fuel →
    |keplerD EC M ((keplerStep EC M)^[n] EA)| < 1e-5 →
    ∃ r m, keplerLoop EC M fuel EA = some r ∧ m ≤ n ∧
      |keplerD EC M ((keplerStep EC M)^[m] EA)| < 1e-5 ∧
      r.EA = keplerStep EC M ((keplerStep EC M)^[m] EA) := by
  intro fuel
  induction fuel with
  | zero => intro n EA h; omega
  | succ fuel ih =>
    intro n EA hn hD
    by_cases h0 : |keplerD EC M EA| < 1e-5
    · refine ⟨KeplerResult.mk (keplerStep EC M EA) (Real.cos EA) (Real.sin EA)
          (1 - EC * Real.cos EA), 0, ?_, Nat.zero_le _, h0, rfl⟩
      simp only [keplerLoop]
      exact if_pos h0
    · cases n with
      | zero => exact absurd hD h0
      | succ n =>
        rw [Function.iterate_succ_apply] at hD
        obtain ⟨r, m, hr, hm, hDm, hEA⟩ := ih n (keplerStep EC M EA) (by omega) hD
        refine ⟨r, m + 1, ?_, by omega, ?_, ?_⟩
        · simp only [keplerLoop]
          exact (if_neg h0).trans hr
        · rw [Function.iterate_succ_apply]; exact hDm
        · rw [Function.iterate_succ_apply]; exact hEA

/-- The denominator `DNOM` of a pass is at least `1 - EC`. -/
theorem kepler_dnom_ge (EC EA : ℝ) (h0 : 0 ≤ EC) : 1 - EC ≤ 1 - EC * Real.cos EA := by
  have := Real.cos_le_one EA
  nlinarith

theorem kepler_dnom_pos (EC EA : ℝ) (h0 : 0 ≤ EC) (h1 : EC ≤ 9 / 10) :
    0 < 1 - EC * Real.cos EA := by
  have := kepler_dnom_ge EC EA h0
  linarith

/-- The defining relation of the correction: `D * DNOM` is the residual. -/
theorem keplerD_mul (EC M EA : ℝ) (h0 : 0 ≤ EC) (h1 : EC ≤ 9 / 10) :
    keplerD EC M EA * (1 - EC * Real.cos EA) = EA - EC * Real.sin EA - M := by
  unfold keplerD
  exact div_mul_cancel₀ _ (kepler_dnom_pos EC EA h0 h1).ne'

/-- The residual of Kepler's equation after a pass, in terms of the correction. -/
theorem kepler_residual_step (EC M EA : ℝ) (h0 : 0 ≤ EC) (h1 : EC ≤ 9 / 10) :
    keplerStep EC M EA - EC * Real.sin (keplerStep EC M EA) - M
      = EC * (Real.sin EA - keplerD EC M EA * Real.cos EA
          - Real.sin (EA - keplerD EC M EA)) := by
  have h := keplerD_mul EC M EA h0 h1
  unfold keplerStep
  linear_combination (-1 : ℝ) * h

theorem abs_sub_sin_le (D : ℝ) (hD : |D| ≤ 1) : |Real.sin D - D| ≤ |D| ^ 3 / 4 := by
  rcases lt_trichotomy D 0 with hneg | hz | hpos
  · have h1 : 0 < -D := by linarith
    have h2 : -D ≤ 1 := by
      have := neg_abs_le D
      linarith [abs_nonneg D, neg_le_abs D]
    have h3 := Real.sin_gt_sub_cube h1 h2
    have h4 := Real.sin_le h1.le
    rw [Real.sin_neg] at h3 h4
    rw [abs_of_neg hneg, abs_le]
    constructor <;> nlinarith
  · subst hz; simp
  · have h2 : D ≤ 1 := (le_abs_self D).trans hD
    have h3 := Real.sin_gt_sub_cube hpos h2
    have h4 := Real.sin_le hpos.le
    rw [abs_of_pos hpos, abs_le]
    constructor <;> nlinarith

/-- Second-order bound for the sine around `EA`. -/
theorem abs_sin_taylor_le (EA D : ℝ) (hD : |D| ≤ 1) :
    |Real.sin EA - D * Real.cos EA - Real.sin (EA - D)| ≤ D ^ 2 / 2 + |D| ^ 3 / 4 := by
  have e1 : Real.sin EA - D * Real.cos EA - Real.sin (EA - D)
      = Real.sin EA * (1 - Real.cos D) + Real.cos EA * (Real.sin D - D) := by
    rw [Real.sin_sub]; ring
  rw [e1]
  have hc1 := Real.cos_le_one D
  have hc2 := Real.one_sub_sq_div_two_le_cos (x := D)
  have hs := abs_sub_sin_le D hD
  have a1 : |Real.sin EA * (1 - Real.cos D)| ≤ D ^ 2 / 2 := by
    rw [abs_mul, abs_of_nonneg (by linarith : 0 ≤ 1 - Real.cos D)]
    have := Real.abs_sin_le_one EA
    nlinarith [abs_nonneg (Real.sin EA)]
  have a2 : |Real.cos EA * (Real.sin D - D)| ≤ |D| ^ 3 / 4 := by
    rw [abs_mul]
    have := Real.abs_cos_le_one EA
    nlinarith [abs_nonneg (Real.cos EA), abs_nonneg (Real.sin D - D)]
  exact (abs_add _ _).trans (add_le_add a1 a2)

/-- The residual after a pass is of second order in the correction. -/
theorem kepler_residual_le (EC M EA : ℝ) (h0 : 0 ≤ EC) (h1 : EC ≤ 9 / 10)
    (hD : |keplerD EC M EA| ≤ 1) :
    |keplerStep EC M EA - EC * Real.sin (keplerStep EC M EA) - M|
      ≤ EC * (keplerD EC M EA ^ 2 / 2 + |keplerD EC M EA| ^ 3 / 4) := by
  rw [kepler_residual_step EC M EA h0 h1, abs_mul, abs_of_nonneg h0]
  exact mul_le_mul_of_nonneg_left (abs_sin_taylor_le EA _ hD) h0

/-- Quadratic convergence: a correction of at most `1/10` is followed by one of at
most five times its square. -/
theorem keplerD_step_le (EC M EA : ℝ) (h0 : 0 ≤ EC) (h1 : EC ≤ 9 / 10)
    (hD : |keplerD EC M EA| ≤ 1 / 10) :
    |keplerD EC M (keplerStep EC M EA)| ≤ 5 * keplerD EC M EA ^ 2 := by
  have hres := kepler_residual_le EC M EA h0 h1 (hD.trans (by norm_num))
  have hden := kepler_dnom_ge EC (keplerStep EC M EA) h0
  have hpos := kepler_dnom_pos EC (keplerStep EC M EA) h0 h1
  have habs := abs_nonneg (keplerD EC M EA)
  have hsq : |keplerD EC M EA| ^ 2 = keplerD EC M EA ^ 2 := sq_abs _
  have hcube : |keplerD EC M EA| ^ 3 ≤ keplerD EC M EA ^ 2 / 10 := by
    have : |keplerD EC M EA| ^ 3 = |keplerD EC M EA| ^ 2 * |keplerD EC M EA| := by ring
    rw [this, hsq]
    nlinarith [sq_nonneg (keplerD EC M EA)]
  have hnum : |keplerStep EC M EA - EC * Real.sin (keplerStep EC M EA) - M|
      ≤ 5 * keplerD EC M EA ^ 2 * (1 - EC * Real.cos (keplerStep EC M EA)) := by
    have hsq0 := sq_nonneg (keplerD EC M EA)
    have b1 : EC * (keplerD EC M EA ^ 2 / 2 + |keplerD EC M EA| ^ 3 / 4)
        ≤ 9 / 10 * (keplerD EC M EA ^ 2 / 2 + keplerD EC M EA ^ 2 / 40) := by
      apply mul_le_mul h1 (by linarith) (by positivity) (by norm_num)
    have b2 : (1 : ℝ) / 10 ≤ 1 - EC * Real.cos (keplerStep EC M EA) := by linarith
    nlinarith
  conv_lhs => unfold keplerD
  rw [abs_div, abs_of_pos hpos, div_le_iff₀ hpos]
  exact hnum

/-- The sine lies below its tangents on `[0, π]`. -/
theorem sin_le_tangent (x y : ℝ) (hx0 : 0 ≤ x) (hx1 : x ≤ Real.pi) (hy0 : 0 ≤ y)
    (hy1 : y ≤ Real.pi) : Real.sin y ≤ Real.sin x + Real.cos x * (y - x) := by
  have hc : ConcaveOn ℝ (Set.Icc 0 Real.pi) Real.sin := strictConcaveOn_sin_Icc.concaveOn
  have hxm : x ∈ Set.Icc 0 Real.pi := ⟨hx0, hx1⟩
  have hym : y ∈ Set.Icc 0 Real.pi := ⟨hy0, hy1⟩
  rcases lt_trichotomy x y with hlt | heq | hgt
  · have h := hc.slope_le_of_hasDerivAt hxm hym hlt (Real.hasDerivAt_sin x)
    rw [slope_def_field, div_le_iff₀ (sub_pos.2 hlt)] at h
    linarith
  · subst heq; simp
  · have h := hc.le_slope_of_hasDerivAt hym hxm hgt (Real.hasDerivAt_sin x)
    rw [slope_def_field, le_div_iff₀ (sub_pos.2 hgt)] at h
    linarith

/-- The first pass from `EA = M` does not overshoot `π`. -/
theorem kepler_first_step_bound (EC M : ℝ) (h0 : 0 ≤ EC) (h1 : EC ≤ 9 / 10) (hM0 : 0 ≤ M)
    (hM1 : M ≤ Real.pi) :
    EC * Real.sin M ≤ (Real.pi - M) * (1 - EC * Real.cos M) := by
  obtain ⟨t, ht⟩ : ∃ t, t = (Real.pi - M) / 2 := ⟨_, rfl⟩
  have hM : M = Real.pi - 2 * t := by rw [ht]; ring
  have ht0 : 0 ≤ t := by rw [ht]; linarith
  have ht1 : t ≤ Real.pi / 2 := by rw [ht]; linarith
  have hs0 : 0 ≤ Real.sin t :=
    Real.sin_nonneg_of_nonneg_of_le_pi ht0 (by linarith [Real.pi_pos])
  have hs1 : Real.sin t ≤ 1 := Real.sin_le_one t
  have hst : Real.sin t ≤ t := Real.sin_le ht0
  have hc0 : 0 ≤ Real.cos t :=
    Real.cos_nonneg_of_neg_pi_div_two_le_of_le (by linarith [Real.pi_pos]) ht1
  have hc1 : Real.cos t ≤ 1 := Real.cos_le_one t
  have hct : 1 - t ^ 2 / 2 ≤ Real.cos t := Real.one_sub_sq_div_two_le_cos
  have hsin : Real.sin M = 2 * Real.sin t * Real.cos t := by
    rw [hM, Real.sin_pi_sub, Real.sin_two_mul]
  have hcos : Real.cos M = 1 - 2 * Real.cos t ^ 2 := by
    rw [hM, Real.cos_pi_sub, Real.cos_two_mul]; ring
  have hpm : Real.pi - M = 2 * t := by rw [hM]; ring
  rw [hsin, hcos, hpm]
  generalize Real.sin t = s at *
  generalize Real.cos t = c at *
  by_cases hq : EC * c ≤ 1 - EC + 2 * EC * c ^ 2
  · have hec : 0 ≤ EC * c := mul_nonneg h0 hc0
    have e1 : EC * c * s ≤ EC * c * t := mul_le_mul_of_nonneg_left hst hec
    have e2 : EC * c * t ≤ (1 - EC + 2 * EC * c ^ 2) * t := mul_le_mul_of_nonneg_right hq ht0
    nlinarith
  · push_neg at hq
    have hc3 : c < 1 / 3 := by
      by_contra hge
      push_neg at hge
      nlinarith [mul_nonneg h0 (mul_nonneg (sub_nonneg.2 hge) hc0)]
    have ht2 : 23 / 20 ≤ t := by
      by_contra hlt
      push_neg at hlt
      nlinarith
    have hec : 0 ≤ EC * c := mul_nonneg h0 hc0
    have e1 : EC * c * s ≤ EC * c * 1 := mul_le_mul_of_nonneg_left hs1 hec
    have hpos : 0 ≤ 1 - EC + 2 * EC * c ^ 2 := by nlinarith [sq_nonneg c]
    have e2 : (1 - EC + 2 * EC * c ^ 2) * (23 / 20) ≤ (1 - EC + 2 * EC * c ^ 2) * t :=
      mul_le_mul_of_nonneg_left ht2 hpos
    have e3 : EC * c ≤ (1 - EC + 2 * EC * c ^ 2) * (23 / 20) := by
      nlinarith [mul_nonneg h0 (sq_nonneg (c - 5 / 23))]
    nlinarith

/-- After the first pass from `EA = M ∈ [0, π]` the iterate lies in `[M, π]` and
its residual is non-negative. -/
theorem kepler_first_step (EC M : ℝ) (h0 : 0 ≤ EC) (h1 : EC ≤ 9 / 10) (hM0 : 0 ≤ M)
    (hM1 : M ≤ Real.pi) :
    M ≤ keplerStep EC M M ∧ keplerStep EC M M ≤ Real.pi ∧
      0 ≤ keplerStep EC M M - EC * Real.sin (keplerStep EC M M) - M := by
  have hden := kepler_dnom_pos EC M h0 h1
  have hmul := keplerD_mul EC M M h0 h1
  have hsin : 0 ≤ Real.sin M := Real.sin_nonneg_of_nonneg_of_le_pi hM0 hM1
  have hK := kepler_first_step_bound EC M h0 h1 hM0 hM1
  have hes : 0 ≤ EC * Real.sin M := mul_nonneg h0 hsin
  have hD0 : keplerD EC M M ≤ 0 := by
    by_contra hpos
    push_neg at hpos
    nlinarith [mul_pos hpos hden]
  have hD1 : M - Real.pi ≤ keplerD EC M M := by
    by_contra hlt
    push_neg at hlt
    nlinarith [mul_lt_mul_of_pos_right hlt hden]
  have h2 : M ≤ keplerStep EC M M := by unfold keplerStep; linarith
  have h3 : keplerStep EC M M ≤ Real.pi := by unfold keplerStep; linarith
  refine ⟨h2, h3, ?_⟩
  have htan := sin_le_tangent M (keplerStep EC M M) hM0 hM1 (hM0.trans h2) h3
  have hstep : keplerStep EC M M - M = -keplerD EC M M := by unfold keplerStep; ring
  nlinarith [mul_le_mul_of_nonneg_left htan h0]

/-- A pass from an iterate in `[M, π]` with non-negative residual has a
non-negative correction and leads to an iterate with the same properties. -/
theorem kepler_monotone_step (EC M EA : ℝ) (h0 : 0 ≤ EC) (h1 : EC ≤ 9 / 10) (hM0 : 0 ≤ M)
    (hM1 : M ≤ Real.pi) (hE0 : M ≤ EA) (hE1 : EA ≤ Real.pi)
    (hres : 0 ≤ EA - EC * Real.sin EA - M) :
    0 ≤ keplerD EC M EA ∧ M ≤ keplerStep EC M EA ∧ keplerStep EC M EA ≤ Real.pi ∧
      0 ≤ keplerStep EC M EA - EC * Real.sin (keplerStep EC M EA) - M := by
  have hden := kepler_dnom_pos EC EA h0 h1
  have hmul := keplerD_mul EC M EA h0 h1
  have hsinM : 0 ≤ Real.sin M := Real.sin_nonneg_of_nonneg_of_le_pi hM0 hM1
  have hD0 : 0 ≤ keplerD EC M EA := by
    by_contra hneg
    push_neg at hneg
    nlinarith [mul_neg_of_neg_of_pos hneg hden]
  have htanM := sin_le_tangent EA M (hM0.trans hE0) hE1 hM0 hM1
  have hD1 : keplerD EC M EA ≤ EA - M := by
    by_contra hlt
    push_neg at hlt
    have := mul_lt_mul_of_pos_right hlt hden
    nlinarith [mul_le_mul_of_nonneg_left htanM h0, mul_nonneg h0 hsinM]
  have h2 : M ≤ keplerStep EC M EA := by unfold keplerStep; linarith
  have h3 : keplerStep EC M EA ≤ Real.pi := by unfold keplerStep; linarith
  refine ⟨hD0, h2, h3, ?_⟩
  have htan := sin_le_tangent EA (keplerStep EC M EA) (hM0.trans hE0) hE1 (hM0.trans h2) h3
  have hstep : keplerStep EC M EA - EA = -keplerD EC M EA := by unfold keplerStep; ring
  nlinarith [mul_le_mul_of_nonneg_left htan h0]

/-- From the second pass on the iterates stay in `[M, π]` with non-negative
residual. -/
theorem kepler_monotone_iter (EC M : ℝ) (h0 : 0 ≤ EC) (h1 : EC ≤ 9 / 10) (hM0 : 0 ≤ M)
    (hM1 : M ≤ Real.pi) (n : Nat) :
    M ≤ (keplerStep EC M)^[n + 1] M ∧ (keplerStep EC M)^[n + 1] M ≤ Real.pi ∧
      0 ≤ (keplerStep EC M)^[n + 1] M - EC * Real.sin ((keplerStep EC M)^[n + 1] M) - M := by
  induction n with
  | zero => simpa using kepler_first_step EC M h0 h1 hM0 hM1
  | succ n ih =>
    obtain ⟨a, b, c⟩ := ih
    have h := kepler_monotone_step EC M _ h0 h1 hM0 hM1 a b c
    rw [Function.iterate_succ_apply']
    exact h.2

/-- While the corrections stay at `1/10` or more, the iterates fall by `1/10` per
pass. -/
theorem kepler_iter_le_of_large_steps (EC M : ℝ) (h0 : 0 ≤ EC) (h1 : EC ≤ 9 / 10)
    (hM0 : 0 ≤ M) (hM1 : M ≤ Real.pi) (n : Nat)
    (hbig : ∀ j, 1 ≤ j → j ≤ n → 1 / 10 ≤ keplerD EC M ((keplerStep EC M)^[j] M)) :
    (keplerStep EC M)^[n + 1] M ≤ Real.pi - (n : ℝ) / 10 := by
  induction n with
  | zero => simpa using (kepler_monotone_iter EC M h0 h1 hM0 hM1 0).2.1
  | succ n ih =>
    have ih' := ih (fun j hj1 hj2 => hbig j hj1 (Nat.le_succ_of_le hj2))
    have hb := hbig (n + 1) (by omega) le_rfl
    rw [Function.iterate_succ_apply']
    have hstep : keplerStep EC M ((keplerStep EC M)^[n + 1] M)
        = (keplerStep EC M)^[n + 1] M - keplerD EC M ((keplerStep EC M)^[n + 1] M) := rfl
    rw [hstep]
    push_cast
    linarith

/-- Within the first 32 passes after the first one, some correction is below `1/10`. -/
theorem kepler_exists_small_step (EC M : ℝ) (h0 : 0 ≤ EC) (h1 : EC ≤ 9 / 10)
    (hM0 : 0 ≤ M) (hM1 : M ≤ Real.pi) :
    ∃ j, j ≤ 32 ∧ |keplerD EC M ((keplerStep EC M)^[j] M)| < 1 / 10 := by
  by_contra hno
  push_neg at hno
  have hbig : ∀ j, 1 ≤ j → j ≤ 32 → 1 / 10 ≤ keplerD EC M ((keplerStep EC M)^[j] M) := by
    intro j hj1 hj2
    obtain ⟨k, rfl⟩ : ∃ k, j = k + 1 := ⟨j - 1, by omega⟩
    obtain ⟨a, b, c⟩ := kepler_monotone_iter EC M h0 h1 hM0 hM1 k
    have hD := (kepler_monotone_step EC M _ h0 h1 hM0 hM1 a b c).1
    have := hno (k + 1) hj2
    rwa [abs_of_nonneg hD] at this
  have hle := kepler_iter_le_of_large_steps EC M h0 h1 hM0 hM1 32 hbig
  have hge := (kepler_monotone_iter EC M h0 h1 hM0 hM1 32).1
  have hpi := Real.pi_lt_d2
  have h32 : ((32 : Nat) : ℝ) / 10 = 16 / 5 := by norm_num
  rw [h32] at hle
  have hpi' : Real.pi < 16 / 5 := hpi.trans (by norm_num)
  linarith

/-- Quadratic convergence with an explicit bound on the correction. -/
theorem keplerD_step_le_of_le (EC M EA d : ℝ) (h0 : 0 ≤ EC) (h1 : EC ≤ 9 / 10)
    (hd : d ≤ 1 / 10) (hD : |keplerD EC M EA| ≤ d) :
    |keplerD EC M (keplerStep EC M EA)| ≤ 5 * d ^ 2 := by
  have s1 := keplerD_step_le EC M EA h0 h1 (hD.trans hd)
  have a0 := abs_nonneg (keplerD EC M EA)
  have q0 : keplerD EC M EA ^ 2 = |keplerD EC M EA| ^ 2 := (sq_abs _).symm
  rw [q0] at s1
  have : |keplerD EC M EA| ^ 2 ≤ d ^ 2 := pow_le_pow_left₀ a0 hD 2
  linarith

/-- Four passes after a correction below `1/10` the correction is below `1e-5`. -/
theorem kepler_four_steps (EC M EA : ℝ) (h0 : 0 ≤ EC) (h1 : EC ≤ 9 / 10)
    (hD : |keplerD EC M EA| < 1 / 10) :
    |keplerD EC M ((keplerStep EC M)^[4] EA)| < 1e-5 := by
  have c1 := keplerD_step_le_of_le EC M EA (1 / 10) h0 h1 le_rfl hD.le
  have c2 := keplerD_step_le_of_le EC M _ (5 * (1 / 10) ^ 2) h0 h1 (by norm_num) c1
  have c3 := keplerD_step_le_of_le EC M _ (5 * (5 * (1 / 10) ^ 2) ^ 2) h0 h1 (by norm_num) c2
  have c4 := keplerD_step_le_of_le EC M _ (5 * (5 * (5 * (1 / 10) ^ 2) ^ 2) ^ 2) h0 h1
    (by norm_num) c3
  have hlt : (5 : ℝ) * (5 * (5 * (5 * (1 / 10) ^ 2) ^ 2) ^ 2) ^ 2 < 1e-5 := by norm_num
  exact lt_of_le_of_lt c4 hlt

/-- For a mean anomaly in `[0, π]` some pass among the first 37 has a correction
below the threshold of the loop. -/
theorem kepler_small_step_of_mem (EC M : ℝ) (h0 : 0 ≤ EC) (h1 : EC ≤ 9 / 10)
    (hM0 : 0 ≤ M) (hM1 : M ≤ Real.pi) :
    ∃ n, n ≤ 36 ∧ |keplerD EC M ((keplerStep EC M)^[n] M)| < 1e-5 := by
  obtain ⟨j, hj, hD⟩ := kepler_exists_small_step EC M h0 h1 hM0 hM1
  refine ⟨4 + j, by omega, ?_⟩
  rw [Function.iterate_add_apply]
  exact kepler_four_steps EC M _ h0 h1 hD

/-- The passes commute with a shift of the mean anomaly by whole turns. -/
theorem keplerD_add_turns (EC M EA : ℝ) (k : Int) :
    keplerD EC (M + k * (2 * Real.pi)) (EA + k * (2 * Real.pi)) = keplerD EC M EA := by
  unfold keplerD
  rw [Real.sin_add_int_mul_two_pi, Real.cos_add_int_mul_two_pi]
  congr 1
  ring

theorem keplerStep_add_turns (EC M EA : ℝ) (k : Int) :
    keplerStep EC (M + k * (2 * Real.pi)) (EA + k * (2 * Real.pi))
      = keplerStep EC M EA + k * (2 * Real.pi) := by
  unfold keplerStep
  rw [keplerD_add_turns]
  ring

theorem keplerStep_iterate_add_turns (EC M : ℝ) (k : Int) (n : Nat) : ∀ EA : ℝ,
    (keplerStep EC (M + k * (2 * Real.pi)))^[n] (EA + k * (2 * Real.pi))
      = (keplerStep EC M)^[n] EA + k * (2 * Real.pi) := by
  induction n with
  | zero => intro EA; rfl
  | succ n ih =>
    intro EA
    rw [Function.iterate_succ_apply, Function.iterate_succ_apply, keplerStep_add_turns, ih]

/-- The passes commute with a change of sign of the mean anomaly. -/
theorem keplerD_neg (EC M EA : ℝ) : keplerD EC (-M) (-EA) = -keplerD EC M EA := by
  unfold keplerD
  rw [Real.sin_neg, Real.cos_neg, ← neg_div]
  congr 1
  ring

theorem keplerStep_neg (EC M EA : ℝ) : keplerStep EC (-M) (-EA) = -keplerStep EC M EA := by
  unfold keplerStep
  rw [keplerD_neg]
  ring

theorem keplerStep_iterate_neg (EC M : ℝ) (n : Nat) : ∀ EA : ℝ,
    (keplerStep EC (-M))^[n] (-EA) = -(keplerStep EC M)^[n] EA := by
  induction n with
  | zero => intro EA; rfl
  | succ n ih =>
    intro EA
    rw [Function.iterate_succ_apply, Function.iterate_succ_apply, keplerStep_neg, ih]

/-- For every mean anomaly some pass among the first 37 has a correction below
the threshold of the loop. -/
theorem kepler_small_step (EC M : ℝ) (h0 : 0 ≤ EC) (h1 : EC ≤ 9 / 10) :
    ∃ n, n ≤ 36 ∧ |keplerD EC M ((keplerStep EC M)^[n] M)| < 1e-5 := by
  have hpi := Real.pi_pos
  obtain ⟨k, hk⟩ : ∃ k : Int, k = round (M / (2 * Real.pi)) := ⟨_, rfl⟩
  obtain ⟨M0, hM0⟩ : ∃ M0 : ℝ, M0 = M - k * (2 * Real.pi) := ⟨_, rfl⟩
  have hM : M = M0 + k * (2 * Real.pi) := by rw [hM0]; ring
  have habs : |M0| ≤ Real.pi := by
    have h := abs_sub_round (M / (2 * Real.pi))
    rw [← hk] at h
    have e : M0 = (M / (2 * Real.pi) - k) * (2 * Real.pi) := by
      rw [hM0]; field_simp; ring
    rw [e, abs_mul, abs_of_pos (by positivity : 0 < 2 * Real.pi)]
    nlinarith
  obtain ⟨hlo, hhi⟩ := abs_le.1 habs
  rcases le_or_lt 0 M0 with hpos | hneg
  · obtain ⟨n, hn, hD⟩ := kepler_small_step_of_mem EC M0 h0 h1 hpos hhi
    refine ⟨n, hn, ?_⟩
    rw [hM, keplerStep_iterate_add_turns, keplerD_add_turns]
    exact hD
  · obtain ⟨n, hn, hD⟩ := kepler_small_step_of_mem EC (-M0) h0 h1 (by linarith) (by linarith)
    refine ⟨n, hn, ?_⟩
    rw [hM, keplerStep_iterate_add_turns, keplerD_add_turns]
    have e : M0 = -(-M0) := (neg_neg M0).symm
    rw [e, keplerStep_iterate_neg, keplerD_neg, abs_neg]
    exact hD

/-! ## Concrete element sets -/

theorem circularElements_EC : circularElements.EC = 0 := by
  simp [circularElements, P13Satellite.tle, getdouble, field]

theorem circularElements_MA : circularElements.MA = 0 := by
  simp [circularElements, P13Satellite.tle, getdouble, field, RADIANS]

theorem circularElements_MM : circularElements.MM = 2 * M_PI := by
  simp [circularElements, P13Satellite.tle, getdouble, field]

theorem circularElements_TE : circularElements.TE = 0 := by
  simp [circularElements, P13Satellite.tle, getdouble, field, toLong]

theorem circularElements_DC : circularElements.DC = 0 := by
  simp [circularElements, P13Satellite.tle, getdouble, field, RADIANS]

/-- With eccentricity zero `predict` returns. -/
theorem predict_isSome_of_EC_zero (sat : P13Satellite) (dt : P13DateTime) (h : sat.EC = 0) :
    ∃ s, sat.predict dt = some s := by
  simp only [P13Satellite.predict, h, kepler_circular]
  exact ⟨_, rfl⟩

/-! ## The Earth ellipsoid -/

theorem RE_pos : 0 < RE := by unfold RE; norm_num

theorem FL_pos : 0 < FL := by unfold FL; norm_num

theorem FL_lt_one : FL < 1 := by unfold FL; norm_num

/-- The polar radius `RP = RE * (1 - FL)` is positive and below the equatorial
radius. -/
theorem RP_pos : 0 < RE * (1 - FL) := mul_pos RE_pos (by linarith [FL_lt_one])

theorem RP_lt_RE : RE * (1 - FL) < RE := by
  have := RE_pos
  have := FL_pos
  nlinarith

/-- The square of the local `D` of the observer constructor. -/
theorem observer_D_sq (LA : ℝ) :
    Real.sqrt (RE * RE * Real.cos LA * Real.cos LA
        + RE * (1 - FL) * (RE * (1 - FL)) * Real.sin LA * Real.sin LA) ^ 2
      = RE * RE * Real.cos LA * Real.cos LA
        + RE * (1 - FL) * (RE * (1 - FL)) * Real.sin LA * Real.sin LA := by
  apply Real.sq_sqrt
  have h1 := mul_self_nonneg (RE * Real.cos LA)
  have h2 := mul_self_nonneg (RE * (1 - FL) * Real.sin LA)
  nlinarith

/-- The local `D` of the observer constructor lies between the polar and the
equatorial radius. -/
theorem observer_D_bounds (LA : ℝ) :
    RE * (1 - FL) ≤ Real.sqrt (RE * RE * Real.cos LA * Real.cos LA
        + RE * (1 - FL) * (RE * (1 - FL)) * Real.sin LA * Real.sin LA) ∧
      Real.sqrt (RE * RE * Real.cos LA * Real.cos LA
        + RE * (1 - FL) * (RE * (1 - FL)) * Real.sin LA * Real.sin LA) ≤ RE := by
  have hsc := Real.sin_sq_add_cos_sq LA
  have hRP := RP_pos
  have hRE := RE_pos
  have hlt := RP_lt_RE
  have hc := sq_nonneg (Real.cos LA)
  have hs := sq_nonneg (Real.sin LA)
  constructor
  · apply Real.le_sqrt_of_sq_le
    nlinarith [mul_nonneg hc (sub_nonneg.2 (mul_self_le_mul_self hRP.le hlt.le))]
  · apply Real.sqrt_le_iff.2
    refine ⟨hRE.le, ?_⟩
    nlinarith [mul_nonneg hs (sub_nonneg.2 (mul_self_le_mul_self hRP.le hlt.le))]

theorem observer_D_pos (LA : ℝ) :
    0 < Real.sqrt (RE * RE * Real.cos LA * Real.cos LA
        + RE * (1 - FL) * (RE * (1 - FL)) * Real.sin LA * Real.sin LA) :=
  lt_of_lt_of_le RP_pos (observer_D_bounds LA).1

/-! ## Rounding to `float` over the reals, and the epoch of a concrete element set -/

theorem roundHalfEvenR_eq (x : ℝ) (k : Int) (h1 : (k : ℝ) - 1 / 2 < x) (h2 : x < k + 1 / 2) :
    roundHalfEvenR x = k := by
  have a1 : k - 1 ≤ Int.floor x := by
    rw [Int.le_floor]; push_cast; linarith
  have a2 : Int.floor x < k + 1 := by
    rw [Int.floor_lt]; push_cast; linarith
  have hfl := Int.floor_le x
  have hlf := Int.lt_floor_add_one x
  have hf : Int.floor x = k ∨ Int.floor x = k - 1 := by omega
  unfold roundHalfEvenR
  rcases hf with hf | hf
  · rw [if_pos (by rw [hf]; linarith), hf]
  · rw [hf] at hfl hlf
    push_cast at hfl hlf
    rw [if_neg (by rw [hf]; push_cast; linarith), if_pos (by rw [hf]; push_cast; linarith), hf]
    ring

/-- Certificate for one rounding to `float`: `k * 2 ^ (e - 23)` is the value of
`f32 x` as soon as `2 ^ e ≤ |x| < 2 ^ (e + 1)` and `x` is less than half a unit in
the last place away from it. -/
theorem f32_eq (x r : ℝ) (e k : Int)
    (hlo : (2 : ℝ) ^ e ≤ |x|) (hhi : |x| < (2 : ℝ) ^ (e + 1))
    (h1 : ((k : ℝ) - 1 / 2) * (2 : ℝ) ^ (e - 23) < x)
    (h2 : x < ((k : ℝ) + 1 / 2) * (2 : ℝ) ^ (e - 23))
    (hr : r = k * (2 : ℝ) ^ (e - 23)) : f32 x = r := by
  have hx : 0 < |x| := lt_of_lt_of_le (by positivity) hlo
  have he : Int.log 2 |x| = e := by
    apply le_antisymm
    · have h := (Int.lt_zpow_iff_log_lt (b := 2) (by norm_num) hx (x := e + 1)).1
        (by exact_mod_cast hhi)
      omega
    · exact (Int.zpow_le_iff_le_log (b := 2) (by norm_num) hx).1 (by exact_mod_cast hlo)
  have hupos : (0 : ℝ) < (2 : ℝ) ^ (e - 23) := by positivity
  rw [hr]
  unfold f32 roundNER
  simp only [he]
  have hu : (2 : ℝ) ^ (e - (((24 : Nat) : Int) - 1)) = (2 : ℝ) ^ (e - 23) := by norm_num
  rw [hu, roundHalfEvenR_eq (x / (2 : ℝ) ^ (e - 23)) k ((lt_div_iff₀ hupos).2 h1)
    ((div_lt_iff₀ hupos).2 h2)]

theorem fnday_YG : fnday YG 1 0 = 735248 := by
  have hr0 : b32 (1461 / 4) = 1461 / 4 := by
    apply b32_eq _ _ 8 11968512 <;> norm_num [abs_of_pos]
  have hr1 : b64 (1461 / 4) = 1461 / 4 := by
    apply b64_eq _ _ 8 6425545952722944 <;> norm_num [abs_of_pos]
  have hr3 : b32 (153 / 5) = 16043213 / 524288 := by
    apply b32_eq _ _ 4 16043213 <;> norm_num [abs_of_pos]
  have hr4 : b32 (112302491 / 262144) = 14037811 / 32768 := by
    apply b32_eq _ _ 8 14037811 <;> norm_num [abs_of_pos]
  have hr5 : b64 (2940993 / 4) = 2940993 / 4 := by
    apply b64_eq _ _ 19 6315734376382464 <;> norm_num [abs_of_pos]
  have ht1 : toLong (14037811 / 32768 : ℚ) = 428 := by
    apply toLong_eq_of_nonneg <;> norm_num
  have ht2 : toLong (2940993 / 4 : ℚ) = 735248 := by
    apply toLong_eq_of_nonneg <;> norm_num
  simp only [fnday, YM, YG]
  norm_num [hr0, hr1, hr3, hr4, hr5, ht1, ht2]

theorem fnday_2022 : fnday 2022 1 0 = 738170 := by
  have hr0 : b32 (1461 / 4) = 1461 / 4 := by
    apply b32_eq _ _ 8 11968512 <;> norm_num [abs_of_pos]
  have hr1 : b64 (1461 / 4) = 1461 / 4 := by
    apply b64_eq _ _ 8 6425545952722944 <;> norm_num [abs_of_pos]
  have hr2 : b64 (2952681 / 4) = 2952681 / 4 := by
    apply b64_eq _ _ 19 6340834165260288 <;> norm_num [abs_of_pos]
  have hr3 : b32 (153 / 5) = 16043213 / 524288 := by
    apply b32_eq _ _ 4 16043213 <;> norm_num [abs_of_pos]
  have hr4 : b32 (112302491 / 262144) = 14037811 / 32768 := by
    apply b32_eq _ _ 8 14037811 <;> norm_num [abs_of_pos]
  have ht0 : toLong (2952681 / 4 : ℚ) = 738170 := by
    apply toLong_eq_of_nonneg <;> norm_num
  have ht1 : toLong (14037811 / 32768 : ℚ) = 428 := by
    apply toLong_eq_of_nonneg <;> norm_num
  simp only [fnday]
  simp only [YM]
  norm_num [hr0, hr1, hr2, hr3, hr4, ht0, ht1]

theorem toLong_epoch_day : toLong (78.3 : ℝ) = 78 := by
  unfold toLong
  rw [if_pos (by norm_num), Int.floor_eq_iff]
  constructor <;> norm_num

theorem epochElements_YE : epochElements.YE = 2022 := by
  have hf : field (List.replicate 18 '0' ++ ['2', '2'] ++ List.replicate 49 '0') 18 20
      = ['2', '2'] := by decide
  have hg : getlong (List.replicate 18 '0' ++ ['2', '2'] ++ List.replicate 49 '0') 18 20
      = 22 := by
    unfold getlong
    rw [hf]
    simpa using atol_two_digits 2 2 (by decide) (by decide)
  have hYE : epochElements.YE
      = (if getlong (List.replicate 18 '0' ++ ['2', '2'] ++ List.replicate 49 '0') 18 20 < 58
          then getlong (List.replicate 18 '0' ++ ['2', '2'] ++ List.replicate 49 '0') 18 20 + 2000
          else getlong (List.replicate 18 '0' ++ ['2', '2'] ++ List.replicate 49 '0') 18 20
            + 1900) := rfl
  rw [hYE, hg]
  norm_num

theorem epochElements_DE : epochElements.DE = 738248 := by
  have hDE : epochElements.DE = fnday epochElements.YE 1 0
      + toLong (getdouble (fun s => if s.length = 12 then (78.3 : ℝ) else
          if s.length = 11 then 1 else 0)
        (List.replicate 18 '0' ++ ['2', '2'] ++ List.replicate 49 '0') 20 32) := rfl
  have hd : getdouble (fun s => if s.length = 12 then (78.3 : ℝ) else
          if s.length = 11 then 1 else 0)
        (List.replicate 18 '0' ++ ['2', '2'] ++ List.replicate 49 '0') 20 32 = 78.3 := by
    simp [getdouble, field]
  rw [hDE, hd, epochElements_YE, fnday_2022, toLong_epoch_day]
  norm_num

theorem epochElements_TE : epochElements.TE = 3 / 10 := by
  have hTE : epochElements.TE = getdouble (fun s => if s.length = 12 then (78.3 : ℝ) else
          if s.length = 11 then 1 else 0)
        (List.replicate 18 '0' ++ ['2', '2'] ++ List.replicate 49 '0') 20 32
      - (toLong (getdouble (fun s => if s.length = 12 then (78.3 : ℝ) else
          if s.length = 11 then 1 else 0)
        (List.replicate 18 '0' ++ ['2', '2'] ++ List.replicate 49 '0') 20 32) : ℝ) := rfl
  have hd : getdouble (fun s => if s.length = 12 then (78.3 : ℝ) else
          if s.length = 11 then 1 else 0)
        (List.replicate 18 '0' ++ ['2', '2'] ++ List.replicate 49 '0') 20 32 = 78.3 := by
    simp [getdouble, field]
  rw [hTE, hd, toLong_epoch_day]
  norm_num

/-- When the two conversions to `float` in `predict` change nothing, the hour
angle `GHAA` of the satellite is the hour angle `GHAE` of the Sun. -/
theorem predictGHAA_of_exact (sat : P13Satellite) (dt : P13DateTime)
    (h1 : f32 (((sat.DE - fnday YG 1 0 : Int) : ℝ) + sat.TE)
      = ((sat.DE - fnday YG 1 0 : Int) : ℝ) + sat.TE)
    (h2 : f32 (RADIANS G0 + (((sat.DE - fnday YG 1 0 : Int) : ℝ) + sat.TE) * WE)
      = RADIANS G0 + (((sat.DE - fnday YG 1 0 : Int) : ℝ) + sat.TE) * WE) :
    sat.predictGHAA dt = P13Sun.predictGHAE dt := by
  simp only [P13Satellite.predictGHAA, P13Satellite.predictT, P13Sun.predictGHAE, h1, h2]
  push_cast
  ring

theorem f32_epoch_TEG : f32 ((3000 : ℝ) + 3 / 10) = 12289229 / 4096 := by
  apply f32_eq _ _ 11 12289229 <;> norm_num [abs_of_pos]

theorem epoch_GHAE_eq :
    RADIANS G0 + (12289229 / 4096 : ℝ) * WE
      = Real.pi * (210995997240421102459 / 35063249990400000) := by
  simp only [RADIANS, G0, WE, WW, YT, M_PI]
  norm_num
  ring

theorem f32_epoch_GHAE :
    f32 (RADIANS G0 + (12289229 / 4096 : ℝ) * WE) = 9679254 / 512 := by
  rw [epoch_GHAE_eq]
  have hlo := Real.pi_gt_d20
  have hhi := Real.pi_lt_d20
  have hpos : (0 : ℝ) < Real.pi * (210995997240421102459 / 35063249990400000) := by positivity
  apply f32_eq _ _ 14 9679254
  · rw [abs_of_pos hpos]; norm_num; linarith
  · rw [abs_of_pos hpos]; norm_num; linarith
  · norm_num; linarith
  · norm_num; linarith
  · norm_num

/-! ## Evaluating roundings to `double` over the reals -/

theorem roundNER_eq (p : Nat) (x : ℝ) (e k : Int) (u : ℝ)
    (hu : u = (2 : ℝ) ^ (e - ((p : Int) - 1)))
    (hlo : (2 : ℝ) ^ e ≤ |x|) (hhi : |x| < (2 : ℝ) ^ (e + 1))
    (h1 : ((k : ℝ) - 1 / 2) * u < x) (h2 : x < ((k : ℝ) + 1 / 2) * u) :
    roundNER p x = k * u := by
  have hx : 0 < |x| := lt_of_lt_of_le (by positivity) hlo
  have he : Int.log 2 |x| = e := by
    apply le_antisymm
    · have h := (Int.lt_zpow_iff_log_lt (b := 2) (by norm_num) hx (x := e + 1)).1
        (by exact_mod_cast hhi)
      omega
    · exact (Int.zpow_le_iff_le_log (b := 2) (by norm_num) hx).1 (by exact_mod_cast hlo)
  have hupos : 0 < u := by rw [hu]; positivity
  unfold roundNER
  simp only [he, ← hu]
  rw [roundHalfEvenR_eq (x / u) k ((lt_div_iff₀ hupos).2 h1) ((div_lt_iff₀ hupos).2 h2)]

/-- Certificate for one rounding to `double`. -/
theorem f64_eq (x r : ℝ) (e k : Int)
    (hlo : (2 : ℝ) ^ e ≤ |x|) (hhi : |x| < (2 : ℝ) ^ (e + 1))
    (h1 : ((k : ℝ) - 1 / 2) * (2 : ℝ) ^ (e - 52) < x)
    (h2 : x < ((k : ℝ) + 1 / 2) * (2 : ℝ) ^ (e - 52))
    (hr : r = k * (2 : ℝ) ^ (e - 52)) : f64 x = r := by
  rw [hr]
  exact roundNER_eq 53 x e k _ (by norm_num) hlo hhi h1 h2

theorem roundNER_zero (p : Nat) : roundNER p 0 = 0 := by
  have h : roundHalfEvenR 0 = 0 := by
    simpa using roundHalfEvenR_eq 0 0 (by norm_num) (by norm_num)
  unfold roundNER
  simp [h]

theorem f64_zero : f64 0 = 0 := roundNER_zero 53

/-- Certificate for one rounded square root: `k * 2 ^ (e - 52)` is `f64 (√q)` as soon
as `q` lies strictly between the squares of the two midpoints around it. -/
theorem f64_sqrt_eq (q r : ℝ) (e k : Int) (hk : (1 : ℝ) / 2 < k)
    (hlo : ((2 : ℝ) ^ e) ^ 2 ≤ q) (hhi : q < ((2 : ℝ) ^ (e + 1)) ^ 2)
    (h1 : (((k : ℝ) - 1 / 2) * (2 : ℝ) ^ (e - 52)) ^ 2 < q)
    (h2 : q < (((k : ℝ) + 1 / 2) * (2 : ℝ) ^ (e - 52)) ^ 2)
    (hr : r = k * (2 : ℝ) ^ (e - 52)) : f64 (Real.sqrt q) = r := by
  have hq : 0 ≤ q := le_trans (by positivity) hlo
  have hs : 0 ≤ Real.sqrt q := Real.sqrt_nonneg q
  have hu : (0 : ℝ) < (2 : ℝ) ^ (e - 52) := by positivity
  apply f64_eq _ _ e k
  · rw [abs_of_nonneg hs]
    exact Real.le_sqrt_of_sq_le hlo
  · rw [abs_of_nonneg hs, Real.sqrt_lt' (by positivity)]
    exact hhi
  · exact Real.lt_sqrt_of_sq_lt h1
  · rw [Real.sqrt_lt' (mul_pos (by linarith) hu)]
    exact h2
  · exact hr

theorem roundHalfEvenR_tie (f : Int) :
    roundHalfEvenR ((f : ℝ) + 1 / 2) = if f % 2 = 0 then f else f + 1 := by
  have hf : Int.floor ((f : ℝ) + 1 / 2) = f := by
    rw [Int.floor_eq_iff]; constructor <;> linarith
  unfold roundHalfEvenR
  simp only [hf]
  rw [if_neg (by norm_num), if_neg (by norm_num)]

/-- Certificate for a rounding to `double` that falls exactly between two
representable numbers. -/
theorem f64_eq_tie (x r : ℝ) (e f : Int)
    (hlo : (2 : ℝ) ^ e ≤ |x|) (hhi : |x| < (2 : ℝ) ^ (e + 1))
    (h1 : x = ((f : ℝ) + 1 / 2) * (2 : ℝ) ^ (e - 52))
    (hr : r = ((if f % 2 = 0 then f else f + 1 : Int) : ℝ) * (2 : ℝ) ^ (e - 52)) :
    f64 x = r := by
  have hx : 0 < |x| := lt_of_lt_of_le (by positivity) hlo
  have he : Int.log 2 |x| = e := by
    apply le_antisymm
    · have h := (Int.lt_zpow_iff_log_lt (b := 2) (by norm_num) hx (x := e + 1)).1
        (by exact_mod_cast hhi)
      omega
    · exact (Int.zpow_le_iff_le_log (b := 2) (by norm_num) hx).1 (by exact_mod_cast hlo)
  have hupos : (0 : ℝ) < (2 : ℝ) ^ (e - 52) := by positivity
  have hu : (2 : ℝ) ^ (e - (((53 : Nat) : Int) - 1)) = (2 : ℝ) ^ (e - 52) := by norm_num
  rw [hr]
  unfold f64 roundNER
  simp only [he, hu]
  have hq : x / (2 : ℝ) ^ (e - 52) = (f : ℝ) + 1 / 2 := by
    rw [h1, mul_div_assoc, div_self hupos.ne', mul_one]
  rw [hq, roundHalfEvenR_tie]

/-! ## The Kepler loop in binary64, and the fields of a concrete element set -/

theorem keplerLoop64_mono (m : Libm) (EC M : ℝ) (n : Nat) :
    ∀ (k : Nat) (EA : ℝ) (r : KeplerResult),
      Binary64.keplerLoop m EC M n EA = some r →
        Binary64.keplerLoop m EC M (n + k) EA = some r := by
  induction n with
  | zero => intro k EA r h; simp [Binary64.keplerLoop] at h
  | succ n ih =>
    intro k EA r h
    rw [Nat.succ_add]
    simp only [Binary64.keplerLoop] at h ⊢
    split_ifs at h ⊢ with hD
    · exact h
    · exact ih k _ r h

theorem kepler64_eq_of_keplerLoop (m : Libm) (EC M : ℝ) (n : Nat) (r : KeplerResult)
    (h : Binary64.keplerLoop m EC M n M = some r) : Binary64.kepler m EC M = some r := by
  classical
  have hex : ∃ fuel, (Binary64.keplerLoop m EC M fuel M).isSome := ⟨n, by rw [h]; rfl⟩
  unfold Binary64.kepler
  rw [dif_pos hex]
  have hfind := Nat.find_spec hex
  have hle : Nat.find hex ≤ n := Nat.find_min' hex (by rw [h]; rfl)
  obtain ⟨r', hr'⟩ := Option.isSome_iff_exists.1 hfind
  have := keplerLoop64_mono m EC M (Nat.find hex) (n - Nat.find hex) M r' hr'
  rw [Nat.add_sub_cancel' hle, h] at this
  rw [hr', ← this]

theorem polar_year : getlong polarLine1 18 20 = 22 := by
  have hf : field polarLine1 18 20 = ['2', '2'] := by decide
  unfold getlong
  rw [hf]
  simpa using atol_two_digits 2 2 (by decide) (by decide)

theorem polar_day : getdouble polarStrtod polarLine1 20 32 = 1 := by
  have hf : field polarLine1 20 32 = String.toList "001.00000000" := by decide
  simp [getdouble, hf, polarStrtod]

theorem polar_decay : getdouble polarStrtod polarLine1 33 43 = 0 := by
  have hf : field polarLine1 33 43 = String.toList " .00000000" := by decide
  simp [getdouble, hf, polarStrtod]

theorem polar_inclination : getdouble polarStrtod polarLine2 8 16 = 90 := by
  have hf : field polarLine2 8 16 = String.toList " 90.0000" := by decide
  simp [getdouble, hf, polarStrtod]

theorem polar_ascension : getdouble polarStrtod polarLine2 17 25 = 0 := by
  have hf : field polarLine2 17 25 = String.toList "  0.0000" := by decide
  simp [getdouble, hf, polarStrtod]

theorem polar_eccentricity : getdouble polarStrtod polarLine2 26 33 = 0 := by
  have hf : field polarLine2 26 33 = String.toList "0000000" := by decide
  simp [getdouble, hf, polarStrtod]

theorem polar_perigee : getdouble polarStrtod polarLine2 34 42 = 60 := by
  have hf : field polarLine2 34 42 = String.toList " 60.0000" := by decide
  simp [getdouble, hf, polarStrtod]

theorem polar_anomaly : getdouble polarStrtod polarLine2 43 51 = 30 := by
  have hf : field polarLine2 43 51 = String.toList " 30.0000" := by decide
  simp [getdouble, hf, polarStrtod]

theorem polar_motion : getdouble polarStrtod polarLine2 52 63 = 2 := by
  have hf : field polarLine2 52 63 = String.toList " 2.00000000" := by decide
  simp [getdouble, hf, polarStrtod]

/-! ## The calendar round trip -/

set_option maxRecDepth 4000 in
/-- C1 (evaluation at a failing input): `settime(2000, 1, 1, 0, 0, 3)` followed by
`gettime` gives back the date 2000-01-01 but the time 00:00:02: the second is
lost to the `(int)` truncation of a `double` that was rounded below 3. -/
theorem gettime_settime_loses_a_second :
    gettime (settime 2000 1 1 0 0 3) = (2000, 1, 1, 0, 0, 2) := by
  have hr0 : b32 (1461 / 4) = 1461 / 4 := by
    apply b32_eq _ _ 8 11968512 <;> norm_num [abs_of_pos]
  have hr1 : b64 (1461 / 4) = 1461 / 4 := by
    apply b64_eq _ _ 8 6425545952722944 <;> norm_num [abs_of_pos]
  have hr2 : b64 (2920539 / 4) = 2920539 / 4 := by
    apply b64_eq _ _ 19 6271809745846272 <;> norm_num [abs_of_pos]
  have hr3 : b32 (153 / 5) = 16043213 / 524288 := by
    apply b32_eq _ _ 4 16043213 <;> norm_num [abs_of_pos]
  have hr4 : b32 (112302491 / 262144) = 14037811 / 32768 := by
    apply b32_eq _ _ 8 14037811 <;> norm_num [abs_of_pos]
  have hr5 : b64 (0) = 0 := roundNE_zero _
  have hr6 : b64 (1 / 1200) = 7686143364045647 / 9223372036854775808 := by
    apply b64_eq _ _ (-11) 7686143364045647 <;> norm_num [abs_of_pos]
  have hr7 : b64 (7686143364045647 / 9223372036854775808) = 7686143364045647 / 9223372036854775808 := by
    apply b64_eq _ _ (-11) 7686143364045647 <;> norm_num [abs_of_pos]
  have hr8 : b64 (7686143364045647 / 221360928884514619392) = 5124095576030431 / 147573952589676412928 := by
    apply b64_eq _ _ (-15) 5124095576030431 <;> norm_num [abs_of_pos]
  have hr9 : b64 (1221 / 10) = 4296011832046387 / 35184372088832 := by
    apply b64_eq _ _ 6 8592023664092774 <;> norm_num [abs_of_pos]
  have hr10 : b64 (25700104414501326029 / 35184372088832) = 6274439554321613 / 8589934592 := by
    apply b64_eq _ _ 19 6274439554321613 <;> norm_num [abs_of_pos]
  have hr11 : b64 (6274439554321613 / 3137473609728) = 549711336723591 / 274877906944 := by
    apply b64_eq _ _ 10 8795381387577456 <;> norm_num [abs_of_pos]
  have hr12 : b64 (3061 / 100) = 2153987259278295 / 70368744177664 := by
    apply b64_eq _ _ 4 8615949037113180 <;> norm_num [abs_of_pos]
  have hr13 : b64 (10062730417405952 / 717995753092765) = 3944879614794885 / 281474976710656 := by
    apply b64_eq _ _ 3 7889759229589770 <;> norm_num [abs_of_pos]
  have hr14 : b64 (153 / 5) = 4306567143673037 / 140737488355328 := by
    apply b64_eq _ _ 4 8613134287346074 <;> norm_num [abs_of_pos]
  have hr15 : b64 (30145970005711259 / 70368744177664) = 7536492501427815 / 17592186044416 := by
    apply b64_eq _ _ 8 7536492501427815 <;> norm_num [abs_of_pos]
  have hr16 : b64 (15372286728091293 / 18446744073709551616) = 3843071682022823 / 4611686018427387904 := by
    apply b64_eq_tie _ _ (-11) 7686143364045646 <;> norm_num [abs_of_pos]
  have hr17 : b64 (3843071682022823 / 4611686018427387904) = 3843071682022823 / 4611686018427387904 := by
    apply b64_eq _ _ (-11) 7686143364045646 <;> norm_num [abs_of_pos]
  have hr18 : b64 (57646075230342345 / 1152921504606846976) = 7205759403792793 / 144115188075855872 := by
    apply b64_eq _ _ (-5) 7205759403792793 <;> norm_num [abs_of_pos]
  have hr19 : b64 (7205759403792793 / 144115188075855872) = 7205759403792793 / 144115188075855872 := by
    apply b64_eq _ _ (-5) 7205759403792793 <;> norm_num [abs_of_pos]
  have hr20 : b64 (108086391056891895 / 36028797018963968) = 6755399441055743 / 2251799813685248 := by
    apply b64_eq _ _ 1 6755399441055743 <;> norm_num [abs_of_pos]
  have ht0 : toLong (2920539 / 4 : ℚ) = 730134 := by
    apply toLong_eq_of_nonneg <;> norm_num
  have ht1 : toLong (14037811 / 32768 : ℚ) = 428 := by
    apply toLong_eq_of_nonneg <;> norm_num
  have ht2 : toLong (549711336723591 / 274877906944 : ℚ) = 1999 := by
    apply toLong_eq_of_nonneg <;> norm_num
  have ht3 : toLong (3944879614794885 / 281474976710656 : ℚ) = 14 := by
    apply toLong_eq_of_nonneg <;> norm_num
  have ht4 : toLong (7536492501427815 / 17592186044416 : ℚ) = 428 := by
    apply toLong_eq_of_nonneg <;> norm_num
  have ht5 : toLong (3843071682022823 / 4611686018427387904 : ℚ) = 0 := by
    apply toLong_eq_of_nonneg <;> norm_num
  have ht6 : toLong (7205759403792793 / 144115188075855872 : ℚ) = 0 := by
    apply toLong_eq_of_nonneg <;> norm_num
  have ht7 : toLong (6755399441055743 / 2251799813685248 : ℚ) = 2 := by
    apply toLong_eq_of_nonneg <;> norm_num
  simp only [gettime, settime, fnday, fndate, YM]
  norm_num [hr0, hr1, hr2, hr3, hr4, hr5, hr6, hr7, hr8, hr9, hr10, hr11, hr12, hr13, hr14,
    hr15, hr16, hr17, hr18, hr19, hr20, ht0, ht1, ht2, ht3, ht4, ht5, ht6, ht7]

/-! ## Advancing an instant -/

/-- C2 (evaluation at a failing input): from the instant `(DN, TN) = (0, 0.5)`, whose
fraction lies in `[0, 1)`, `add(-1.0)` leaves `DN = 0` and `TN = -0.5`: the cast
`(long)TN` truncates toward zero, so a negative fraction is not brought back
into `[0, 1)`. -/
theorem add_leaves_negative_fraction :
    (0 : ℚ) ≤ 1 / 2 ∧ (1 : ℚ) / 2 < 1 ∧
      add ⟨0, 1 / 2⟩ (-1) = ⟨0, -(1 / 2)⟩ ∧ (add ⟨0, 1 / 2⟩ (-1)).TN < 0 := by
  refine ⟨by norm_num, by norm_num, add_half_neg_one, ?_⟩
  rw [add_half_neg_one]
  norm_num

/-- C3 (evaluation at a failing input): from the instant `(0, 0.5)`, `add(1.0)` followed by
`add(-1.0)` ends in `(1, -0.5)`, not in the original pair `(0, 0.5)`. -/
theorem add_then_add_neg_changes_pair :
    add (add ⟨0, 1 / 2⟩ 1) (-1) = ⟨1, -(1 / 2)⟩ ∧
      add (add ⟨0, 1 / 2⟩ 1) (-1) ≠ ⟨0, 1 / 2⟩ := by
  have h : add (add ⟨0, 1 / 2⟩ 1) (-1) = ⟨1, -(1 / 2)⟩ := by
    rw [add_half_one, add_one_half_neg_one]
  refine ⟨h, ?_⟩
  rw [h]
  intro hc
  have := congrArg P13DateTime.DN hc
  norm_num at this

/-! ## Azimuth -/

/-- C4 (evaluation at a failing input): the observer at latitude 0, longitude 0, height 0,
whose position is `O = (6378.13720703125, 0, 0)`, and the Earth-fixed position
`S = (7000, -1e-13, 1000)`, which differs from `O`.  In binary64 `altaz` computes the
projections `e = -8.491934864318626e-17` and `n = 0.8491934864318627`; for a C
library that returns `atan2(e, n) = -1e-16` (and `cos(0) = 1`, `sin(0) = 0`),
`DEGREES` gives `az = -5.729577951308232e-15`, which is negative, and
`az += 360.0` rounds to `360`: the azimuth returned is `360`, not below `360`. -/
theorem altaz_azimuth_reaches_360 (m : Libm)
    (h0 : m.cos 0 = 1)
    (h1 : m.sin 0 = 0)
    (h2 : m.atan2 (-(3444738024912811 / 40564819207303340847894502572032)) (3824427469059989 / 4503599627370496)
      = -(2028240960365167 / 20282409603651670423947251286016)) :
    (Binary64.P13Observer.P13Observer m "" 0 0 0).O 0 = 13062425 / 2048 ∧
      Binary64.altazE ![7000, f64 (-1e-13), 1000] (Binary64.P13Observer.P13Observer m "" 0 0 0)
        = -(3444738024912811 / 40564819207303340847894502572032) ∧
      Binary64.altazN ![7000, f64 (-1e-13), 1000] (Binary64.P13Observer.P13Observer m "" 0 0 0)
        = 3824427469059989 / 4503599627370496 ∧
      (Binary64.P13Satellite.altaz m (satAt ![7000, f64 (-1e-13), 1000] 0)
        (Binary64.P13Observer.P13Observer m "" 0 0 0)).2 = 360 ∧
      ¬ ((Binary64.P13Satellite.altaz m (satAt ![7000, f64 (-1e-13), 1000] 0)
        (Binary64.P13Observer.P13Observer m "" 0 0 0)).2 < 360) := by
  have c0 : f64 (157079632679489661923 / 50000000000000000000)
      = 884279719003555 / 281474976710656 := by
    apply f64_eq _ _ 1 7074237752028440 <;> norm_num [abs_of_pos]
  have c1 : f64 1 = 1 := by
    apply f64_eq _ _ 0 4503599627370496 <;> norm_num [abs_of_pos]
  have c2 : f32 (6378137 / 1000) = 13062425 / 2048 := by
    apply f32_eq _ _ 12 13062425 <;> norm_num [abs_of_pos]
  have c3 : f32 (37282153 / 125000) = 9773293 / 32768 := by
    apply f32_eq _ _ 8 9773293 <;> norm_num [abs_of_pos]
  have c4 : f32 (32768 / 9773293) = 3600053 / 1073741824 := by
    apply f32_eq _ _ (-9) 14400212 <;> norm_num [abs_of_pos]
  have c5 : f64 (1070141771 / 1073741824) = 1070141771 / 1073741824 := by
    apply f64_eq _ _ (-1) 8976999821344768 <;> norm_num [abs_of_pos]
  have c6 : f64 (13978646623054675 / 2199023255552) = 3494661655763669 / 549755813888 := by
    apply f64_eq_tie _ _ 12 6989323311527337 <;> norm_num [abs_of_pos]
  have c7 : f64 (170626946880625 / 4194304) = 170626946880625 / 4194304 := by
    apply f64_eq _ _ 25 5460062300180000 <;> norm_num [abs_of_pos]
  have c8 : f64 (12212660088264868568407580341561 / 302231454903657293676544)
      = 5423510568764941 / 134217728 := by
    apply f64_eq _ _ 25 5423510568764941 <;> norm_num [abs_of_pos]
  have c9 : f64 (Real.sqrt (170626946880625 / 4194304)) = 13062425 / 2048 := by
    apply f64_sqrt_eq _ _ 12 7012836022681600 <;> norm_num
  have c10 : f64 (13062425 / 2048) = 13062425 / 2048 := by
    apply f64_eq _ _ 12 7012836022681600 <;> norm_num [abs_of_pos]
  have c11 : f64 (5423510568764941 / 856059084800) = 6965889434040943 / 1099511627776 := by
    apply f64_eq _ _ 12 6965889434040943 <;> norm_num [abs_of_pos]
  have c12 : f64 (6965889434040943 / 1099511627776) = 6965889434040943 / 1099511627776 := by
    apply f64_eq _ _ 12 6965889434040943 <;> norm_num [abs_of_pos]
  have c13 : f64 (-(1 / 10000000000000)) = -(3961408125713217 / 39614081257132168796771975168) := by
    apply f64_eq _ _ (-44) (-7922816251426434) <;> norm_num [abs_of_neg]
  have c14 : f64 (1273575 / 2048) = 1273575 / 2048 := by
    apply f64_eq _ _ 9 5469962974003200 <;> norm_num [abs_of_pos]
  have c15 : f64 (-(3961408125713217 / 39614081257132168796771975168))
      = -(3961408125713217 / 39614081257132168796771975168) := by
    apply f64_eq _ _ (-44) (-7922816251426434) <;> norm_num [abs_of_neg]
  have c16 : f64 1000 = 1000 := by
    apply f64_eq _ _ 9 8796093022208000 <;> norm_num [abs_of_pos]
  have c17 : f64 (1621993280625 / 4194304) = 1621993280625 / 4194304 := by
    apply f64_eq _ _ 18 6643684477440000 <;> norm_num [abs_of_pos]
  have c18 : f64 (15692754338466702862884928489089 / 1569275433846670190958947355801916604025588861116008628224)
      = 1742245718635205 / 174224571863520493293247799005065324265472 := by
    apply f64_eq _ _ (-87) 6968982874540820 <;> norm_num [abs_of_pos]
  have c19 : f64 (67374964924430292768152548711131530715458155205 / 174224571863520493293247799005065324265472)
      = 1621993280625 / 4194304 := by
    apply f64_eq _ _ 18 6643684477440000 <;> norm_num [abs_of_pos]
  have c20 : f64 1000000 = 1000000 := by
    apply f64_eq _ _ 19 8589934592000000 <;> norm_num [abs_of_pos]
  have c21 : f64 (5816297280625 / 4194304) = 5816297280625 / 4194304 := by
    apply f64_eq _ _ 20 5955888415360000 <;> norm_num [abs_of_pos]
  have c22 : f64 (Real.sqrt (5816297280625 / 4194304)) = 5179086487796429 / 4398046511104 := by
    apply f64_sqrt_eq _ _ 10 5179086487796429 <;> norm_num
  have c23 : f64 (2734981487001600 / 5179086487796429) = 4756538294832105 / 9007199254740992 := by
    apply f64_eq _ _ (-1) 4756538294832105 <;> norm_num [abs_of_pos]
  have c24 : f64 (-(3961408125713217 / 46649063953119137047429217517568))
      = -(3444738024912811 / 40564819207303340847894502572032) := by
    apply f64_eq _ _ (-54) (-6889476049825622) <;> norm_num [abs_of_neg]
  have c25 : f64 (4398046511104000 / 5179086487796429) = 3824427469059989 / 4503599627370496 := by
    apply f64_eq _ _ (-1) 7648854938119978 <;> norm_num [abs_of_pos]
  have c26 : f64 (4756538294832105 / 9007199254740992) = 4756538294832105 / 9007199254740992 := by
    apply f64_eq _ _ (-1) 4756538294832105 <;> norm_num [abs_of_pos]
  have c27 : f64 (-(3444738024912811 / 40564819207303340847894502572032))
      = -(3444738024912811 / 40564819207303340847894502572032) := by
    apply f64_eq _ _ (-54) (-6889476049825622) <;> norm_num [abs_of_neg]
  have c28 : f64 (3824427469059989 / 4503599627370496) = 3824427469059989 / 4503599627370496 := by
    apply f64_eq _ _ (-1) 7648854938119978 <;> norm_num [abs_of_pos]
  have c29 : f64 (-(91270843216432515 / 5070602400912917605986812821504))
      = -(713053462628379 / 39614081257132168796771975168) := by
    apply f64_eq _ _ (-46) (-5704427701027032) <;> norm_num [abs_of_neg]
  have c30 : f64 (-(713053462628379 / 124451306656115537763935191040))
      = -(7263102929030309 / 1267650600228229401496703205376) := by
    apply f64_eq _ _ (-48) (-7263102929030309) <;> norm_num [abs_of_neg]
  have c31 : f64 (456354216082162577275710224905051 / 1267650600228229401496703205376) = 360 := by
    apply f64_eq _ _ 8 6333186975989760 <;> norm_num [abs_of_pos]
  have he : Binary64.altazE ![7000, f64 (-1e-13), 1000] (Binary64.P13Observer.P13Observer m "" 0 0 0)
      = -(3444738024912811 / 40564819207303340847894502572032) := by
    simp only [Binary64.altazE, Binary64.altazN, Binary64.altazR, Binary64.P13Observer.P13Observer,
      Binary64.RADIANS, Binary64.M_PI, Binary64.RE, Binary64.FL, Matrix.cons_val_zero, Matrix.cons_val_one, Matrix.head_cons, Matrix.cons_val_two,
      Matrix.tail_cons]
    norm_num only [f64_zero, if_true, if_false, h0, h1, h2,
      c0, c1, c2, c3, c4, c5, c6, c7, c8, c9, c10, c11, c12, c13, c14, c15, c16, c17, c18, c19, c20,
      c21, c22, c23, c24, c25, c26, c27, c28, c29, c30, c31]
  have hn : Binary64.altazN ![7000, f64 (-1e-13), 1000] (Binary64.P13Observer.P13Observer m "" 0 0 0)
      = 3824427469059989 / 4503599627370496 := by
    simp only [Binary64.altazE, Binary64.altazN, Binary64.altazR, Binary64.P13Observer.P13Observer,
      Binary64.RADIANS, Binary64.M_PI, Binary64.RE, Binary64.FL, Matrix.cons_val_zero, Matrix.cons_val_one, Matrix.head_cons, Matrix.cons_val_two,
      Matrix.tail_cons]
    norm_num only [f64_zero, if_true, if_false, h0, h1, h2,
      c0, c1, c2, c3, c4, c5, c6, c7, c8, c9, c10, c11, c12, c13, c14, c15, c16, c17, c18, c19, c20,
      c21, c22, c23, c24, c25, c26, c27, c28, c29, c30, c31]
  have haz : (Binary64.P13Satellite.altaz m (satAt ![7000, f64 (-1e-13), 1000] 0)
      (Binary64.P13Observer.P13Observer m "" 0 0 0)).2 = 360 := by
    simp only [Binary64.P13Satellite.altaz, Binary64.altazBody, satAt, he, hn, Binary64.DEGREES,
      Binary64.M_PI]
    norm_num only [f64_zero, if_true, if_false, h0, h1, h2,
      c0, c1, c2, c3, c4, c5, c6, c7, c8, c9, c10, c11, c12, c13, c14, c15, c16, c17, c18, c19, c20,
      c21, c22, c23, c24, c25, c26, c27, c28, c29, c30, c31]
  have hO : (Binary64.P13Observer.P13Observer m "" 0 0 0).O 0 = 13062425 / 2048 := by
    simp only [Binary64.P13Observer.P13Observer,
      Binary64.RADIANS, Binary64.M_PI, Binary64.RE, Binary64.FL, Matrix.cons_val_zero, Matrix.cons_val_one, Matrix.head_cons, Matrix.cons_val_two,
      Matrix.tail_cons]
    norm_num only [f64_zero, if_true, if_false, h0, h1, h2,
      c0, c1, c2, c3, c4, c5, c6, c7, c8, c9, c10, c11, c12, c13, c14, c15, c16, c17, c18, c19, c20,
      c21, c22, c23, c24, c25, c26, c27, c28, c29, c30, c31]
  refine ⟨hO, he, hn, haz, ?_⟩
  rw [haz]; norm_num

/-- Witness for C4: the `Libm` of the table `libmTable` meets the three hypotheses. -/
theorem altaz_azimuth_reaches_360_witness :
    (Binary64.P13Satellite.altaz libmTable (satAt ![7000, f64 (-1e-13), 1000] 0)
      (Binary64.P13Observer.P13Observer libmTable "" 0 0 0)).2 = 360 :=
  (altaz_azimuth_reaches_360 libmTable
    (by norm_num [libmTable])
    (by norm_num [libmTable])
    (by norm_num [libmTable])).2.2.2.1

/-! ## Elevation -/

/-- C5 (evaluation at a failing input): the observer built by the constructor at latitude 0,
longitude 45, height 0, whose position is `O = (4510.024070430024,
4510.024070430023, 0)`, and the Earth-fixed position `S = (12000, 12000, 0)`, straight
above it.  `RADIANS(45)` is `0.7853981633974483`; for a C library that
returns there `cos = 0.7071067811865476` and `sin = 0.7071067811865475` (and
`cos(0) = 1`, `sin(0) = 0`), the projection `u` that `altaz` computes in binary64
is `1 + 2^-52 = 1.0000000000000002`, which is not in `[-1, 1]`, and the elevation
`DEGREES(asin(u))` is NaN. -/
theorem altaz_elevation_is_nan (m : Libm)
    (h0 : m.cos 0 = 1)
    (h1 : m.sin 0 = 0)
    (h2 : m.cos (884279719003555 / 1125899906842624) = 6369051672525773 / 9007199254740992)
    (h3 : m.sin (884279719003555 / 1125899906842624) = 1592262918131443 / 2251799813685248) :
    Binary64.RADIANS 45 = 884279719003555 / 1125899906842624 ∧
      (Binary64.P13Observer.P13Observer m "" 0 45 0).O 0
        = 4958823906987457 / 1099511627776 ∧
      Binary64.altazU ![12000, 12000, 0] (Binary64.P13Observer.P13Observer m "" 0 45 0)
        = 1 + 1 / 2 ^ 52 ∧
      ¬ (Binary64.altazU ![12000, 12000, 0] (Binary64.P13Observer.P13Observer m "" 0 45 0) ≤ 1) ∧
      (Binary64.P13Satellite.altaz m (satAt ![12000, 12000, 0] 0)
        (Binary64.P13Observer.P13Observer m "" 0 45 0)).1 = none := by
  have c0 : f64 (157079632679489661923 / 50000000000000000000)
      = 884279719003555 / 281474976710656 := by
    apply f64_eq _ _ 1 7074237752028440 <;> norm_num [abs_of_pos]
  have c1 : f64 (39792587355159975 / 281474976710656) = 4974073419394997 / 35184372088832 := by
    apply f64_eq _ _ 7 4974073419394997 <;> norm_num [abs_of_pos]
  have c2 : f64 (4974073419394997 / 6333186975989760) = 884279719003555 / 1125899906842624 := by
    apply f64_eq _ _ (-1) 7074237752028440 <;> norm_num [abs_of_pos]
  have c3 : f64 (6369051672525773 / 9007199254740992) = 6369051672525773 / 9007199254740992 := by
    apply f64_eq _ _ (-1) 6369051672525773 <;> norm_num [abs_of_pos]
  have c4 : f64 (1592262918131443 / 2251799813685248) = 1592262918131443 / 2251799813685248 := by
    apply f64_eq _ _ (-1) 6369051672525772 <;> norm_num [abs_of_pos]
  have c5 : f32 (6378137 / 1000) = 13062425 / 2048 := by
    apply f32_eq _ _ 12 13062425 <;> norm_num [abs_of_pos]
  have c6 : f32 (37282153 / 125000) = 9773293 / 32768 := by
    apply f32_eq _ _ 8 9773293 <;> norm_num [abs_of_pos]
  have c7 : f32 (32768 / 9773293) = 3600053 / 1073741824 := by
    apply f32_eq _ _ (-9) 14400212 <;> norm_num [abs_of_pos]
  have c8 : f64 (1070141771 / 1073741824) = 1070141771 / 1073741824 := by
    apply f64_eq _ _ (-1) 8976999821344768 <;> norm_num [abs_of_pos]
  have c9 : f64 (13978646623054675 / 2199023255552) = 3494661655763669 / 549755813888 := by
    apply f64_eq_tie _ _ 12 6989323311527337 <;> norm_num [abs_of_pos]
  have c10 : f64 (170626946880625 / 4194304) = 170626946880625 / 4194304 := by
    apply f64_eq _ _ 25 5460062300180000 <;> norm_num [abs_of_pos]
  have c11 : f64 (12212660088264868568407580341561 / 302231454903657293676544)
      = 5423510568764941 / 134217728 := by
    apply f64_eq _ _ 25 5423510568764941 <;> norm_num [abs_of_pos]
  have c12 : f64 (Real.sqrt (170626946880625 / 4194304)) = 13062425 / 2048 := by
    apply f64_sqrt_eq _ _ 12 7012836022681600 <;> norm_num
  have c13 : f64 (13062425 / 2048) = 13062425 / 2048 := by
    apply f64_eq _ _ 12 7012836022681600 <;> norm_num [abs_of_pos]
  have c14 : f64 (5423510568764941 / 856059084800) = 6965889434040943 / 1099511627776 := by
    apply f64_eq _ _ 12 6965889434040943 <;> norm_num [abs_of_pos]
  have c15 : f64 (6965889434040943 / 1099511627776) = 6965889434040943 / 1099511627776 := by
    apply f64_eq _ _ 12 6965889434040943 <;> norm_num [abs_of_pos]
  have c16 : f64 (83195259793492470379525 / 18446744073709551616)
      = 4958823906987457 / 1099511627776 := by
    apply f64_eq _ _ 12 4958823906987457 <;> norm_num [abs_of_pos]
  have c17 : f64 (20798814948373114329275 / 4611686018427387904)
      = 77481623546679 / 17179869184 := by
    apply f64_eq _ _ 12 4958823906987456 <;> norm_num [abs_of_pos]
  have c18 : f64 (8235315626324543 / 1099511627776) = 8235315626324543 / 1099511627776 := by
    apply f64_eq _ _ 12 8235315626324543 <;> norm_num [abs_of_pos]
  have c19 : f64 (128676806661321 / 17179869184) = 128676806661321 / 17179869184 := by
    apply f64_eq _ _ 12 8235315626324544 <;> norm_num [abs_of_pos]
  have c20 : f64 (67820423465185199954523164158849 / 1208925819614629174706176)
      = 7529579567087685 / 134217728 := by
    apply f64_eq _ _ 25 7529579567087685 <;> norm_num [abs_of_pos]
  have c21 : f64 (16557720572554984478797465041 / 295147905179352825856)
      = 7529579567087687 / 134217728 := by
    apply f64_eq _ _ 25 7529579567087687 <;> norm_num [abs_of_pos]
  have c22 : f64 (3764789783543843 / 33554432) = 3764789783543843 / 33554432 := by
    apply f64_eq _ _ 26 7529579567087686 <;> norm_num [abs_of_pos]
  have c23 : f64 (Real.sqrt (3764789783543843 / 33554432)) = 727905940573203 / 68719476736 := by
    apply f64_sqrt_eq _ _ 13 5823247524585624 <;> norm_num
  have c24 : f64 (433437664543397 / 612973423640592) = 6369051672525773 / 9007199254740992 := by
    apply f64_eq _ _ (-1) 6369051672525773 <;> norm_num [abs_of_pos]
  have c25 : f64 (19063230616492 / 26959479280489) = 3184525836262887 / 4503599627370496 := by
    apply f64_eq _ _ (-1) 6369051672525774 <;> norm_num [abs_of_pos]
  have c26 : f64 (40564819207303346393761349247529 / 81129638414606681695789005144064)
      = 4503599627370497 / 9007199254740992 := by
    apply f64_eq _ _ (-1) 4503599627370497 <;> norm_num [abs_of_pos]
  have c27 : f64 (5070602400912918299220168655941 / 10141204801825835211973625643008)
      = 4503599627370497 / 9007199254740992 := by
    apply f64_eq _ _ (-1) 4503599627370497 <;> norm_num [abs_of_pos]
  have c28 : f64 (4503599627370497 / 4503599627370496) = 4503599627370497 / 4503599627370496 := by
    apply f64_eq _ _ 0 4503599627370497 <;> norm_num [abs_of_pos]
  have hLO : Binary64.RADIANS 45 = 884279719003555 / 1125899906842624 := by
    simp only [Binary64.RADIANS, Binary64.M_PI]
    norm_num only [c0, c1, c2, c3, c4, c5, c6, c7, c8, c9, c10, c11, c12, c13, c14, c15, c16, c17, c18, c19, c20, c21, c22, c23, c24, c25, c26, c27, c28]
  have hu : Binary64.altazU ![12000, 12000, 0] (Binary64.P13Observer.P13Observer m "" 0 45 0)
      = 1 + 1 / 2 ^ 52 := by
    simp only [Binary64.altazU, Binary64.altazR, Binary64.P13Observer.P13Observer,
      Binary64.RADIANS, Binary64.M_PI, Binary64.RE, Binary64.FL, Matrix.cons_val_zero, Matrix.cons_val_one, Matrix.head_cons, Matrix.cons_val_two,
      Matrix.tail_cons]
    norm_num only [f64_zero, if_true, if_false, h0, h1, h2, h3,
      c0, c1, c2, c3, c4, c5, c6, c7, c8, c9, c10, c11, c12, c13, c14, c15, c16, c17, c18, c19, c20,
      c21, c22, c23, c24, c25, c26, c27, c28]
  have hO : (Binary64.P13Observer.P13Observer m "" 0 45 0).O 0
      = 4958823906987457 / 1099511627776 := by
    simp only [Binary64.P13Observer.P13Observer,
      Binary64.RADIANS, Binary64.M_PI, Binary64.RE, Binary64.FL, Matrix.cons_val_zero, Matrix.cons_val_one, Matrix.head_cons, Matrix.cons_val_two,
      Matrix.tail_cons]
    norm_num only [f64_zero, h0, h1, h2, h3,
      c0, c1, c2, c3, c4, c5, c6, c7, c8, c9, c10, c11, c12, c13, c14, c15, c16, c17, c18, c19, c20,
      c21, c22, c23, c24, c25, c26, c27, c28]
  refine ⟨hLO, hO, hu, ?_, ?_⟩
  · rw [hu]; norm_num
  · simp only [Binary64.P13Satellite.altaz, Binary64.altazBody, satAt, hu]
    norm_num

/-- Witness for C5: the `Libm` of the table `libmTable` meets the four hypotheses. -/
theorem altaz_elevation_is_nan_witness :
    (Binary64.P13Satellite.altaz libmTable (satAt ![12000, 12000, 0] 0)
      (Binary64.P13Observer.P13Observer libmTable "" 0 45 0)).1 = none :=
  (altaz_elevation_is_nan libmTable
    (by norm_num [libmTable])
    (by norm_num [libmTable])
    (by norm_num [libmTable])
    (by norm_num [libmTable])).2.2.2.2

/-! ## The Kepler solver -/

/-- C6: for every eccentricity `EC` in `[0, 0.9]` and every mean anomaly `M`, the
Newton-Raphson loop of `predict` started at `EA = M` reaches its `break` within 50
passes, and the eccentric anomaly `EA` it leaves satisfies
`|EA - EC*sin(EA) - M| ≤ 1e-5`. -/
theorem kepler_converges (EC M : ℝ) (h0 : 0 ≤ EC) (h1 : EC ≤ 0.9) :
    ∃ r, keplerLoop EC M 50 M = some r ∧ kepler EC M = some r ∧
      |r.EA - EC * Real.sin r.EA - M| ≤ 1e-5 := by
  have h1' : EC ≤ 9 / 10 := by norm_num at h1; exact h1
  obtain ⟨n, hn, hD⟩ := kepler_small_step EC M h0 h1'
  obtain ⟨r, m, hr, -, hDm, hEA⟩ := keplerLoop_of_small_step EC M 50 n M (by omega) hD
  refine ⟨r, hr, kepler_eq_of_keplerLoop EC M 50 r hr, ?_⟩
  rw [hEA]
  have hDm' : |keplerD EC M ((keplerStep EC M)^[m] M)| < 1 / 100000 := by
    norm_num at hDm; exact hDm
  have hres := kepler_residual_le EC M _ h0 h1' (hDm'.le.trans (by norm_num))
  have a0 := abs_nonneg (keplerD EC M ((keplerStep EC M)^[m] M))
  have q : keplerD EC M ((keplerStep EC M)^[m] M) ^ 2
      = |keplerD EC M ((keplerStep EC M)^[m] M)| ^ 2 := (sq_abs _).symm
  rw [q] at hres
  have b2 : |keplerD EC M ((keplerStep EC M)^[m] M)| ^ 2 ≤ (1 / 100000) ^ 2 :=
    pow_le_pow_left₀ a0 hDm'.le 2
  have b3 : |keplerD EC M ((keplerStep EC M)^[m] M)| ^ 3 ≤ (1 / 100000) ^ 3 :=
    pow_le_pow_left₀ a0 hDm'.le 3
  have b4 : EC * (|keplerD EC M ((keplerStep EC M)^[m] M)| ^ 2 / 2
      + |keplerD EC M ((keplerStep EC M)^[m] M)| ^ 3 / 4)
      ≤ 9 / 10 * ((1 / 100000) ^ 2 / 2 + (1 / 100000) ^ 3 / 4) :=
    mul_le_mul h1' (by linarith) (by positivity) (by norm_num)
  have b5 : (9 : ℝ) / 10 * ((1 / 100000) ^ 2 / 2 + (1 / 100000) ^ 3 / 4) ≤ 1e-5 := by norm_num
  exact hres.trans (b4.trans b5)

/-- Witness for C6: eccentricity `0.5` and mean anomaly `1`. -/
theorem kepler_converges_witness :
    ∃ r, keplerLoop 0.5 1 50 1 = some r ∧ kepler 0.5 1 = some r ∧
      |r.EA - 0.5 * Real.sin r.EA - 1| ≤ 1e-5 :=
  kepler_converges 0.5 1 (by norm_num) (by norm_num)

/-! ## Propagation -/

/-- C7: for every element set read by `tle` with eccentricity `EC = 0`, decay
`M2 = 0` and non-zero mean motion, `predict` returns at every instant, and the
radius `RS` it sets is the semi-major axis `A_0`, hence the same at every
instant. -/
theorem predict_radius_circular (strtod : List Char → ℝ) (self : P13Satellite) (nm : String)
    (l1 l2 : List Char) (dt : P13DateTime)
    (hEC : (self.tle strtod nm l1 l2).EC = 0) (hM2 : (self.tle strtod nm l1 l2).M2 = 0)
    (_hMM : (self.tle strtod nm l1 l2).MM ≠ 0) :
    ∃ s, (self.tle strtod nm l1 l2).predict dt = some s ∧
      s.RS = (self.tle strtod nm l1 l2).A_0 := by
  have hDC : (self.tle strtod nm l1 l2).DC = 0 := by
    have h : (self.tle strtod nm l1 l2).DC
        = -2 * (self.tle strtod nm l1 l2).M2 / (3 * (self.tle strtod nm l1 l2).MM) := rfl
    rw [h, hM2]
    simp
  generalize self.tle strtod nm l1 l2 = sat at *
  simp only [P13Satellite.predict, hEC, kepler_circular, hDC]
  refine ⟨_, rfl, ?_⟩
  simp

/-- Witness for C7: element lines whose fields all read as zero except the mean
motion (columns 53-63 of line 2, the only field of eleven characters), which
reads as one revolution per day. -/
theorem predict_radius_circular_witness :
    ((satAt 0 0).tle (fun s => if s.length = 11 then 1 else 0) "" []
        (List.replicate 69 '0')).MM ≠ 0 ∧
      ∃ s, ((satAt 0 0).tle (fun s => if s.length = 11 then 1 else 0) "" []
          (List.replicate 69 '0')).predict ⟨0, 0⟩ = some s ∧
        s.RS = ((satAt 0 0).tle (fun s => if s.length = 11 then 1 else 0) "" []
          (List.replicate 69 '0')).A_0 := by
  have hEC : ((satAt 0 0).tle (fun s => if s.length = 11 then 1 else 0) "" []
      (List.replicate 69 '0')).EC = 0 := by
    simp [P13Satellite.tle, getdouble, field]
  have hM2 : ((satAt 0 0).tle (fun s => if s.length = 11 then 1 else 0) "" []
      (List.replicate 69 '0')).M2 = 0 := by
    simp [P13Satellite.tle, getdouble, field, RADIANS]
  have hMM : ((satAt 0 0).tle (fun s => if s.length = 11 then 1 else 0) "" []
      (List.replicate 69 '0')).MM ≠ 0 := by
    simp [P13Satellite.tle, getdouble, field, M_PI, Real.pi_ne_zero]
  exact ⟨hMM, predict_radius_circular _ _ _ _ _ ⟨0, 0⟩ hEC hM2 hMM⟩

/-- C8: for every element set and every instant `dt`, a second call of
`predict(dt)` returns exactly when the first does and leaves the state the
first call left. -/
theorem predict_idempotent (sat : P13Satellite) (dt : P13DateTime) :
    (sat.predict dt).bind (fun s => s.predict dt) = sat.predict dt := by
  cases hs : sat.predict dt with
  | none => rfl
  | some s =>
    show s.predict dt = some s
    unfold P13Satellite.predict at hs
    dsimp only at hs
    split at hs
    · exact absurd hs (by simp)
    · rename_i k hk
      rw [← Option.some.inj hs]
      unfold P13Satellite.predict
      dsimp only [P13Satellite.predictM, P13Satellite.predictT, P13Satellite.predictGHAA] at hk ⊢
      rw [hk]

/-! ## Geographic position -/

/-- C9 (counterexample): at the Earth-fixed position `S = (-1, 0, 0)`, where `S[0]` and
`S[1]` are not both zero, `LL` returns the longitude 180, which is not below 180. -/
theorem LL_longitude_reaches_180 :
    ((satAt ![-1, 0, 0] 1).S 0 ≠ 0 ∨ (satAt ![-1, 0, 0] 1).S 1 ≠ 0) ∧
      (satAt ![-1, 0, 0] 1).LL.2 = 180 ∧
      ¬ (-180 ≤ (satAt ![-1, 0, 0] 1).LL.2 ∧ (satAt ![-1, 0, 0] 1).LL.2 < 180) := by
  have h : (satAt ![-1, 0, 0] 1).LL.2 = 180 := by
    simp only [P13Satellite.LL, satAt, Matrix.cons_val_zero, Matrix.cons_val_one,
      Matrix.head_cons]
    rw [atan2_zero_neg_one, DEGREES_M_PI]
  refine ⟨Or.inl (by simp [satAt]), h, ?_⟩
  rw [h]
  norm_num

/-- C9 (amended): for every satellite state the longitude returned by `LL`,
`DEGREES(atan2(S[1], S[0]))`, satisfies `-180 ≤ lng ≤ 180`. -/
theorem LL_longitude_range (sat : P13Satellite) : -180 ≤ sat.LL.2 ∧ sat.LL.2 ≤ 180 :=
  ⟨(neg_lt_DEGREES_atan2 _ _).le, DEGREES_atan2_le _ _⟩

/-! ## The epoch year -/

/-- C10: when columns 19 and 20 of element line 1 hold the decimal digits `d1` and
`d2`, so that `yy = 10 * d1 + d2`, `tle` sets `YE` to `2000 + yy` when `yy < 58` and
to `1900 + yy` otherwise, and `1958 ≤ YE ≤ 2057`. -/
theorem tle_epoch_year (strtod : List Char → ℝ) (self : P13Satellite) (nm : String)
    (l1 l2 : List Char) (d1 d2 : Nat) (h1 : d1 < 10) (h2 : d2 < 10)
    (hc1 : l1[18]? = some (Char.ofNat (48 + d1))) (hc2 : l1[19]? = some (Char.ofNat (48 + d2))) :
    (self.tle strtod nm l1 l2).YE
        = (if 10 * d1 + d2 < 58 then 2000 + (10 * d1 + d2 : Int) else 1900 + (10 * d1 + d2 : Int)) ∧
      1958 ≤ (self.tle strtod nm l1 l2).YE ∧ (self.tle strtod nm l1 l2).YE ≤ 2057 := by
  have hf : field l1 18 20 = [Char.ofNat (48 + d1), Char.ofNat (48 + d2)] :=
    field_eq_pair l1 18 _ _ hc1 hc2
  have hYE : (self.tle strtod nm l1 l2).YE
      = (if getlong l1 18 20 < 58 then getlong l1 18 20 + 2000 else getlong l1 18 20 + 1900) := rfl
  have hg : getlong l1 18 20 = ((10 * d1 + d2 : Nat) : Int) := by
    unfold getlong
    rw [hf, atol_two_digits d1 d2 h1 h2]
  rw [hYE, hg]
  push_cast
  split_ifs with ha hb hb <;> omega

/-- Witness for C10: a line 1 whose first twenty characters end in the digits `2`
and `4` gives the epoch year 2024. -/
theorem tle_epoch_year_witness :
    ((satAt 0 0).tle (fun _ => 0) "" (List.replicate 18 ' ' ++ ['2', '4']) []).YE = 2024 := by
  have h := tle_epoch_year (fun _ => 0) (satAt 0 0) "" (List.replicate 18 ' ' ++ ['2', '4']) []
    2 4 (by decide) (by decide) (by decide) (by decide)
  simpa using h.1

/-! ## Rounding up to an interval -/

/-- C11 (evaluation at a failing input): at noon, `(DN, TN) = (0, 0.5)`, `roundup(1.0/1440)`
(one minute) leaves the instant where it is: `inc = t - fmod(TN, t)` is `11 * 2^-59`
and `TN + inc` rounds back to `0.5`.  The result is not strictly later than
`DN + TN`, and it is not `DN + t*(floor(TN/t) + 1)`. -/
theorem roundup_can_stay :
    (0 : ℚ) < b64 (1 / 1440) ∧ roundup ⟨0, 1 / 2⟩ (b64 (1 / 1440)) = ⟨0, 1 / 2⟩ ∧
      ¬ ((0 : ℚ) + 1 / 2 < ((roundup ⟨0, 1 / 2⟩ (b64 (1 / 1440))).DN : ℚ)
        + (roundup ⟨0, 1 / 2⟩ (b64 (1 / 1440))).TN) ∧
      ((roundup ⟨0, 1 / 2⟩ (b64 (1 / 1440))).DN : ℚ) + (roundup ⟨0, 1 / 2⟩ (b64 (1 / 1440))).TN
        ≠ 0 + b64 (1 / 1440) * ((Int.floor ((1 / 2 : ℚ) / b64 (1 / 1440)) : ℚ) + 1) := by
  have hr0 : b64 (1 / 1440) = 6405119470038039 / 9223372036854775808 := by
    apply b64_eq _ _ (-11) 6405119470038039 <;> norm_num [abs_of_pos]
  have hr1 : b64 (11 / 576460752303423488) = 11 / 576460752303423488 := by
    apply b64_eq _ _ (-56) 6192449487634432 <;> norm_num [abs_of_pos]
  have hr2 : b64 (288230376151711755 / 576460752303423488) = 1 / 2 := by
    apply b64_eq _ _ (-1) 4503599627370496 <;> norm_num [abs_of_pos]
  have hr3 : b64 (1 / 2) = 1 / 2 := by
    apply b64_eq _ _ (-1) 4503599627370496 <;> norm_num [abs_of_pos]
  have ht0 : toLong (4611686018427387904 / 6405119470038039 : ℚ) = 719 := by
    apply toLong_eq_of_nonneg <;> norm_num
  have ht1 : toLong (1 / 2 : ℚ) = 0 := by
    apply toLong_eq_of_nonneg <;> norm_num
  have hr : roundup ⟨0, 1 / 2⟩ (b64 (1 / 1440)) = ⟨0, 1 / 2⟩ := by
    simp only [roundup, fmod]
    norm_num [hr0, hr1, hr2, hr3, ht0, ht1]
  have hfl : Int.floor ((1 / 2 : ℚ) / b64 (1 / 1440)) = 719 := by
    rw [hr0, Int.floor_eq_iff]
    constructor <;> norm_num
  refine ⟨by rw [hr0]; norm_num, hr, ?_, ?_⟩
  · rw [hr]; norm_num
  · rw [hr, hfl, hr0]; norm_num

/-! ## The mean anomaly fed to the Kepler loop -/

/-- C12 (evaluation at a failing input): for the circular element set with one revolution
per day and the instant half a day before its epoch, `T = -0.5`, the quotient
`M / (2π) = -0.5` is truncated to `DR = 0`, and the mean anomaly that `predict`
feeds to the Kepler loop is `-π`, which is not in `[0, 2π)`. -/
theorem predict_mean_anomaly_negative :
    circularElements.predictT ⟨circularElements.DE - 1, 1 / 2⟩ = -(1 / 2) ∧
      circularElements.predictM ⟨circularElements.DE - 1, 1 / 2⟩ = -M_PI ∧
      ¬ (0 ≤ circularElements.predictM ⟨circularElements.DE - 1, 1 / 2⟩) := by
  have hT : circularElements.predictT ⟨circularElements.DE - 1, 1 / 2⟩ = -(1 / 2) := by
    simp only [P13Satellite.predictT, circularElements_TE]
    push_cast
    norm_num
  have hq : -M_PI / (2 * M_PI) = -(1 / 2) := by
    have := M_PI_pos
    field_simp
    ring
  have hl : toLong (-(1 / 2) : ℝ) = 0 := by
    unfold toLong
    rw [if_neg (by norm_num), Int.ceil_eq_iff]
    constructor <;> norm_num
  have hM : circularElements.predictM ⟨circularElements.DE - 1, 1 / 2⟩ = -M_PI := by
    simp only [P13Satellite.predictM, hT, circularElements_DC, circularElements_MA,
      circularElements_MM]
    have e : 0 + 2 * M_PI * -(1 / 2) * (1 - 3 * (0 * -(1 / 2) / 2)) = -M_PI := by ring
    rw [e, hq, hl]
    simp
  refine ⟨hT, hM, ?_⟩
  rw [hM]
  have := M_PI_pos
  linarith

/-! ## The decay constant -/

/-- C13 (evaluation at a failing input): for element lines with decay `ndot = 1` rev/day²
and mean motion `n = 1` rev/day, `tle` sets `DC = -1/540`, which is
`-2*ndot/(3*n)` divided by 360: the decay is converted with `RADIANS` (a factor
`π/180`) where the mean motion is converted with `2π`. -/
theorem tle_decay_constant_off_by_360 :
    getdouble (fun s => if s.length = 11 ∨ s.length = 10 then 1 else 0)
        (List.replicate 69 '0') 33 43 = 1 ∧
      getdouble (fun s => if s.length = 11 ∨ s.length = 10 then 1 else 0)
        (List.replicate 69 '0') 52 63 = 1 ∧
      decayingElements.DC = -1 / 540 ∧ decayingElements.DC ≠ -2 * 1 / (3 * 1) := by
  have hDC : decayingElements.DC = -1 / 540 := by
    have hp := M_PI_pos
    simp only [decayingElements, P13Satellite.tle, getdouble, field, RADIANS]
    simp
    field_simp
    ring
  refine ⟨by simp [getdouble, field], by simp [getdouble, field], hDC, ?_⟩
  rw [hDC]
  norm_num

/-! ## What `predict` changes -/

/-- C14: for every element set and instant at which `predict` returns, it changes
only `SAT`, `VEL`, `S`, `V` and `RS`: every orbital element and derived constant
(`N`, `YE`, `DE`, `TE`, `IN`, `RA`, `EC`, `WP`, `MA`, `MM`, `M2`, `RV`, `N0`, `A_0`, `B_0`,
`PC`, `QD`, `WD`, `DC`), and also `ALON`, `ALAT` and `name`, has the value it had
before the call. -/
theorem predict_frame (sat s : P13Satellite) (dt : P13DateTime) (h : sat.predict dt = some s) :
    s.N = sat.N ∧ s.YE = sat.YE ∧ s.DE = sat.DE ∧ s.TE = sat.TE ∧ s.IN = sat.IN ∧
      s.RA = sat.RA ∧ s.EC = sat.EC ∧ s.WP = sat.WP ∧ s.MA = sat.MA ∧ s.MM = sat.MM ∧
      s.M2 = sat.M2 ∧ s.RV = sat.RV ∧ s.N0 = sat.N0 ∧ s.A_0 = sat.A_0 ∧ s.B_0 = sat.B_0 ∧
      s.PC = sat.PC ∧ s.QD = sat.QD ∧ s.WD = sat.WD ∧ s.DC = sat.DC ∧
      s.ALON = sat.ALON ∧ s.ALAT = sat.ALAT ∧ s.name = sat.name := by
  unfold P13Satellite.predict at h
  dsimp only at h
  split at h
  · exact absurd h (by simp)
  · rw [← Option.some.inj h]
    simp

/-- Witness for C14: the circular element set at the instant `(0, 0)`. -/
theorem predict_frame_witness :
    ∃ s, circularElements.predict ⟨0, 0⟩ = some s ∧ s.EC = circularElements.EC ∧
      s.A_0 = circularElements.A_0 := by
  obtain ⟨s, hs⟩ := predict_isSome_of_EC_zero circularElements ⟨0, 0⟩ circularElements_EC
  have h := predict_frame circularElements s ⟨0, 0⟩ hs
  exact ⟨s, hs, h.2.2.2.2.2.2.1, h.2.2.2.2.2.2.2.2.2.2.2.2.2.1⟩

/-! ## The Greenwich hour angle of satellite and Sun -/

/-- C15 (evaluation at a failing input): for the element set with epoch 2022, day 78.3,
and the instant of that epoch, `T = 0`; the `float` variable `TEG` holds
`12289229 / 4096 = 3000.300048828125` in place of `3000.3`, the `float` variable
`GHAE` holds `9679254 / 512 = 18904.79296875`, and this is the hour angle `GHAA`
by which `P13Satellite::predict` rotates, whereas `P13Sun::predict` rotates at the
same instant by `RADIANS(G0) + 3000.3 * WE`, kept in a `double`: the hour angle
of the satellite is larger than that of the Sun by more than `5 / 10000` radian. -/
theorem predict_hour_angle_differs_from_sun :
    epochElements.predictT ⟨epochElements.DE, 3 / 10⟩ = 0 ∧
      f32 (((epochElements.DE - fnday YG 1 0 : Int) : ℝ) + epochElements.TE)
        = 12289229 / 4096 ∧
      epochElements.predictGHAA ⟨epochElements.DE, 3 / 10⟩ = 9679254 / 512 ∧
      P13Sun.predictGHAE ⟨epochElements.DE, 3 / 10⟩ = RADIANS G0 + (3000 + 3 / 10) * WE ∧
      P13Sun.predictGHAE ⟨epochElements.DE, 3 / 10⟩ + 5 / 10000
        < epochElements.predictGHAA ⟨epochElements.DE, 3 / 10⟩ := by
  have hT : epochElements.predictT ⟨epochElements.DE, 3 / 10⟩ = 0 := by
    simp only [P13Satellite.predictT, epochElements_TE]
    push_cast
    norm_num
  have hd : ((epochElements.DE - fnday YG 1 0 : Int) : ℝ) + epochElements.TE
      = (3000 : ℝ) + 3 / 10 := by
    rw [epochElements_DE, fnday_YG, epochElements_TE]
    norm_num
  have hTEG : f32 (((epochElements.DE - fnday YG 1 0 : Int) : ℝ) + epochElements.TE)
      = 12289229 / 4096 := by
    rw [hd, f32_epoch_TEG]
  have hA : epochElements.predictGHAA ⟨epochElements.DE, 3 / 10⟩ = 9679254 / 512 := by
    simp only [P13Satellite.predictGHAA, hT, hTEG, f32_epoch_GHAE]
    ring
  have hS : P13Sun.predictGHAE ⟨epochElements.DE, 3 / 10⟩
      = RADIANS G0 + (3000 + 3 / 10) * WE := by
    simp only [P13Sun.predictGHAE, epochElements_DE, fnday_YG]
    push_cast
    norm_num
  refine ⟨hT, hTEG, hA, hS, ?_⟩
  rw [hA, hS]
  have e : RADIANS G0 + (3000 + 3 / 10 : ℝ) * WE
      = Real.pi * (1648406201616410903 / 273931640550000) := by
    simp only [RADIANS, G0, WE, WW, YT, M_PI]
    norm_num
    ring
  rw [e]
  have hhi := Real.pi_lt_d20
  linarith

/-! ## The observer -/

/-- C16: for every latitude and longitude the vectors `U` (up), `E` (east) and `N`
(north) built by the observer constructor have length 1, are pairwise orthogonal,
and form a right-handed triad: `E × N = U`. -/
theorem observer_frame_orthonormal (nm : String) (lat lng hgt : ℝ) :
    (fun obs : P13Observer =>
      (obs.U 0 * obs.U 0 + obs.U 1 * obs.U 1 + obs.U 2 * obs.U 2 = 1 ∧
        obs.E 0 * obs.E 0 + obs.E 1 * obs.E 1 + obs.E 2 * obs.E 2 = 1 ∧
        obs.N 0 * obs.N 0 + obs.N 1 * obs.N 1 + obs.N 2 * obs.N 2 = 1) ∧
      (obs.U 0 * obs.E 0 + obs.U 1 * obs.E 1 + obs.U 2 * obs.E 2 = 0 ∧
        obs.U 0 * obs.N 0 + obs.U 1 * obs.N 1 + obs.U 2 * obs.N 2 = 0 ∧
        obs.E 0 * obs.N 0 + obs.E 1 * obs.N 1 + obs.E 2 * obs.N 2 = 0) ∧
      (obs.E 1 * obs.N 2 - obs.E 2 * obs.N 1 = obs.U 0 ∧
        obs.E 2 * obs.N 0 - obs.E 0 * obs.N 2 = obs.U 1 ∧
        obs.E 0 * obs.N 1 - obs.E 1 * obs.N 0 = obs.U 2))
      (P13Observer.P13Observer nm lat lng hgt) := by
  simp only [P13Observer.P13Observer, Matrix.cons_val_zero, Matrix.cons_val_one,
    Matrix.head_cons, Matrix.cons_val_two, Matrix.tail_cons]
  have h1 := Real.sin_sq_add_cos_sq (RADIANS lat)
  have h2 := Real.sin_sq_add_cos_sq (RADIANS lng)
  generalize Real.sin (RADIANS lat) = sa at h1
  generalize Real.cos (RADIANS lat) = ca at h1
  generalize Real.sin (RADIANS lng) = so at h2
  generalize Real.cos (RADIANS lng) = co at h2
  refine ⟨⟨?_, ?_, ?_⟩, ⟨?_, ?_, ?_⟩, ⟨?_, ?_, ?_⟩⟩
  · linear_combination ca ^ 2 * h2 + h1
  · linear_combination h2
  · linear_combination sa ^ 2 * h2 + h1
  · ring
  · linear_combination (-(ca * sa)) * h2
  · ring
  · ring
  · ring
  · linear_combination sa * h2

/-- C17: for every latitude, longitude and height `h` (metres) the position `O` built
by the observer constructor is `P + (h/1000)*U` for a point `P` of the ellipsoid
with equatorial radius `RE` and polar radius `RP = RE*(1 - FL)`,
`(P[0]² + P[1]²)/RE² + P[2]²/RP² = 1`, and the velocity `V` is
`(-O[1]*W0, O[0]*W0, 0)`. -/
theorem observer_position_on_ellipsoid (nm : String) (lat lng hgt : ℝ) :
    (fun obs : P13Observer =>
      (∃ P : Vec3, (∀ i, obs.O i = P i + hgt / 1000 * obs.U i) ∧
        (P 0 ^ 2 + P 1 ^ 2) / RE ^ 2 + P 2 ^ 2 / (RE * (1 - FL)) ^ 2 = 1) ∧
      obs.V = ![-obs.O 1 * W0, obs.O 0 * W0, 0])
      (P13Observer.P13Observer nm lat lng hgt) := by
  have hD := observer_D_sq (RADIANS lat)
  have hDpos := observer_D_pos (RADIANS lat)
  have hRE := RE_pos
  have hRP := RP_pos
  have h2 := Real.sin_sq_add_cos_sq (RADIANS lng)
  refine ⟨?_, rfl⟩
  simp only [P13Observer.P13Observer, Matrix.cons_val_zero, Matrix.cons_val_one,
    Matrix.head_cons, Matrix.cons_val_two, Matrix.tail_cons]
  generalize Real.sqrt (RE * RE * Real.cos (RADIANS lat) * Real.cos (RADIANS lat)
    + RE * (1 - FL) * (RE * (1 - FL)) * Real.sin (RADIANS lat) * Real.sin (RADIANS lat)) = D
    at hD hDpos
  refine ⟨![RE * RE / D * (Real.cos (RADIANS lat) * Real.cos (RADIANS lng)),
      RE * RE / D * (Real.cos (RADIANS lat) * Real.sin (RADIANS lng)),
      RE * (1 - FL) * (RE * (1 - FL)) / D * Real.sin (RADIANS lat)], ?_, ?_⟩
  · intro i
    fin_cases i <;> simp <;> ring
  · simp only [Matrix.cons_val_zero, Matrix.cons_val_one, Matrix.head_cons,
      Matrix.cons_val_two, Matrix.tail_cons]
    have hDne : D ≠ 0 := hDpos.ne'
    have hREne : RE ≠ 0 := hRE.ne'
    have hRPne : RE * (1 - FL) ≠ 0 := hRP.ne'
    generalize Real.sin (RADIANS lat) = sa at hD
    generalize Real.cos (RADIANS lat) = ca at hD
    generalize Real.sin (RADIANS lng) = so at h2
    generalize Real.cos (RADIANS lng) = co at h2
    generalize RE * (1 - FL) = RP at hD hRPne hRP
    field_simp
    linear_combination (RE ^ 4 * ca ^ 2 * D ^ 2 * RP ^ 2) * h2 - (D ^ 2 * RE ^ 2 * RP ^ 2) * hD

/-! ## Look angles of the Sun -/

/-- C18 (evaluation at a failing input): the instant `(DN, TN) = (735327, 0.6955)` (20 March 2014,
near the equinox) and the observer at latitude 0, longitude `-68.52122777643562`,
height 0, which the Sun's vector `H` passes straight below.  For a C library that
returns the twelve values named in the hypotheses (the arguments are the values
of `MASE`, `2*MASE`, `TAS`, `INS`, `-GHAE`, `LA` and `LO` at this input),
`P13Sun::predict` sets `H = (0.3661564880454059, -0.9305532889852784,
-5.119507066479293e-05)` and the projection `u` that `P13Sun::altaz` computes in
binary64 is `-(1 + 2^-52) = -1.0000000000000002`, which is not in `[-1, 1]`: the
elevation `DEGREES(asin(u))` is NaN, not a negative number. -/
theorem sun_altaz_elevation_is_nan (m : Libm)
    (h0 : m.sin (4273609908790199 / 562949953421312) = 8698591483220481 / 9007199254740992)
    (h1 : m.sin (4273609908790199 / 281474976710656) = 2257461009008923 / 4503599627370496)
    (h2 : m.cos (7074092835003881 / 1125899906842624) = 9007199180130651 / 9007199254740992)
    (h3 : m.sin (7074092835003881 / 1125899906842624) = -(2374320523823349 / 18446744073709551616))
    (h4 : m.cos (3684498829181479 / 9007199254740992) = 4132027872315403 / 4503599627370496)
    (h5 : m.sin (3684498829181479 / 9007199254740992) = 895649940833515 / 2251799813685248)
    (h6 : m.cos (-(8863833977788929 / 17592186044416)) = 6598068485500189 / 18014398509481984)
    (h7 : m.sin (-(8863833977788929 / 17592186044416)) = -(8381289368573847 / 9007199254740992))
    (h8 : m.cos 0 = 1)
    (h9 : m.sin 0 = 0)
    (h10 : m.cos (-(5385949515015563 / 4503599627370496)) = 3298044435934351 / 9007199254740992)
    (h11 : m.sin (-(5385949515015563 / 4503599627370496)) = -(523854931736567 / 562949953421312)) :
    (Binary64.P13Sun.predict m ⟨0, 0⟩ ⟨735327, b64 0.6955⟩).H 0
        = 3298044446241159 / 9007199254740992 ∧
      (Binary64.P13Sun.predict m ⟨0, 0⟩ ⟨735327, b64 0.6955⟩).H 1
        = -(8381678891044979 / 9007199254740992) ∧
      (Binary64.P13Sun.predict m ⟨0, 0⟩ ⟨735327, b64 0.6955⟩).H 2
        = -(3777529465555643 / 73786976294838206464) ∧
      Binary64.altazU (Binary64.P13Sun.predict m ⟨0, 0⟩ ⟨735327, b64 0.6955⟩).H
        (Binary64.P13Observer.P13Observer m "" 0 (f64 (-68.52122777643562)) 0) = -(1 + 1 / 2 ^ 52) ∧
      ¬ (-1 ≤ Binary64.altazU (Binary64.P13Sun.predict m ⟨0, 0⟩ ⟨735327, b64 0.6955⟩).H
        (Binary64.P13Observer.P13Observer m "" 0 (f64 (-68.52122777643562)) 0)) ∧
      (Binary64.P13Sun.altaz m (Binary64.P13Sun.predict m ⟨0, 0⟩ ⟨735327, b64 0.6955⟩)
        (Binary64.P13Observer.P13Observer m "" 0 (f64 (-68.52122777643562)) 0)).1 = none := by
  have hTN : ((b64 0.6955 : ℚ) : ℝ) = 783063385209045 / 1125899906842624 := by
    have h : b64 0.6955 = 783063385209045 / 1125899906842624 := by
      apply b64_eq _ _ (-1) 6264507081672360 <;> norm_num [abs_of_pos]
    rw [h]; norm_num
  have c0 : f64 (89729156025776341 / 1125899906842624) = 5608072251611021 / 70368744177664 := by
    apply f64_eq _ _ 6 5608072251611021 <;> norm_num [abs_of_pos]
  have c1 : f32 (248957 / 2500) = 13052517 / 131072 := by
    apply f32_eq _ _ 6 13052517 <;> norm_num [abs_of_pos]
  have c2 : f64 (157079632679489661923 / 50000000000000000000)
      = 884279719003555 / 281474976710656 := by
    apply f64_eq _ _ 1 7074237752028440 <;> norm_num [abs_of_pos]
  have c3 : f64 (11542076065049124697935 / 36893488147419103232)
      = 1375922687655583 / 4398046511104 := by
    apply f64_eq _ _ 8 5503690750622332 <;> norm_num [abs_of_pos]
  have c4 : f64 (1375922687655583 / 791648371998720) = 7827471289773983 / 4503599627370496 := by
    apply f64_eq _ _ 0 7827471289773983 <;> norm_num [abs_of_pos]
  have c5 : f64 (884279719003555 / 140737488355328) = 884279719003555 / 140737488355328 := by
    apply f64_eq _ _ 2 7074237752028440 <;> norm_num [abs_of_pos]
  have c6 : f32 (1826210937 / 5000000) = 46751 / 128 := by
    apply f32_eq _ _ 8 11968256 <;> norm_num [abs_of_pos]
  have c7 : f64 (884279719003555 / 51403268110155776) = 4958367150616413 / 288230376151711744 := by
    apply f64_eq _ _ (-6) 4958367150616413 <;> norm_num [abs_of_pos]
  have c8 : f64 (1815963231669897053 / 288230376151711744)
      = 7093606373710535 / 1125899906842624 := by
    apply f64_eq _ _ 2 7093606373710535 <;> norm_num [abs_of_pos]
  have c9 : f64 (39781457068257129699935269806235 / 79228162514264337593543950336)
      = 8833257918063249 / 17592186044416 := by
    apply f64_eq _ _ 8 8833257918063249 <;> norm_num [abs_of_pos]
  have c10 : f64 (2269141498313965727 / 4503599627370496) = 8863833977788929 / 17592186044416 := by
    apply f64_eq _ _ 8 8863833977788929 <;> norm_num [abs_of_pos]
  have c11 : f64 (27806881230671509745192454287673 / 20282409603651670423947251286016)
      = 1543591989265431 / 1125899906842624 := by
    apply f64_eq _ _ 0 6174367957061724 <;> norm_num [abs_of_pos]
  have c12 : f64 (14001839246835707 / 4503599627370496) = 3500459811708927 / 1125899906842624 := by
    apply f64_eq_tie _ _ 1 7000919623417853 <;> norm_num [abs_of_pos]
  have c13 : f64 (7037578687723147 / 1125899906842624) = 7037578687723147 / 1125899906842624 := by
    apply f64_eq _ _ 2 7037578687723147 <;> norm_num [abs_of_pos]
  have c14 : f32 (712821 / 2000) = 11678859 / 32768 := by
    apply f32_eq _ _ 8 11678859 <;> norm_num [abs_of_pos]
  have c15 : f32 (24640007 / 25000000) = 16535629 / 16777216 := by
    apply f32_eq _ _ (-1) 16535629 <;> norm_num [abs_of_pos]
  have c16 : f64 (92733002157834495567209 / 1180591620717411303424)
      = 5527317652573257 / 70368744177664 := by
    apply f64_eq _ _ 6 5527317652573257 <;> norm_num [abs_of_pos]
  have c17 : f64 (30607476382370889 / 70368744177664) = 3825934547796361 / 8796093022208 := by
    apply f64_eq _ _ 8 7651869095592722 <;> norm_num [abs_of_pos]
  have c18 : f64 (3383196326851359371619975063355 / 2475880078570760549798248448)
      = 6009763934236217 / 4398046511104 := by
    apply f64_eq _ _ 10 6009763934236217 <;> norm_num [abs_of_pos]
  have c19 : f64 (6009763934236217 / 791648371998720) = 4273609908790199 / 562949953421312 := by
    apply f64_eq _ _ 2 8547219817580398 <;> norm_num [abs_of_pos]
  have c20 : f64 (167 / 5000) = 2406723640866793 / 72057594037927936 := by
    apply f64_eq _ _ (-5) 4813447281733586 <;> norm_num [abs_of_pos]
  have c21 : f64 (20935105764909273162385970387433 / 649037107316853453566312041152512)
      = 4648527288633025 / 144115188075855872 := by
    apply f64_eq _ _ (-5) 4648527288633025 <;> norm_num [abs_of_pos]
  have c22 : f64 (905458599317195841 / 144115188075855872)
      = 7073895307165593 / 1125899906842624 := by
    apply f64_eq _ _ 2 7073895307165593 <;> norm_num [abs_of_pos]
  have c23 : f64 (7 / 20000) = 6456360425798343 / 18446744073709551616 := by
    apply f64_eq _ _ (-12) 6456360425798343 <;> norm_num [abs_of_pos]
  have c24 : f64 (4273609908790199 / 281474976710656) = 4273609908790199 / 281474976710656 := by
    apply f64_eq _ _ 3 8547219817580398 <;> norm_num [abs_of_pos]
  have c25 : f64 (14574981921348007123387485614589 / 83076749736557242056487941267521536)
      = 404537012814399 / 2305843009213693952 := by
    apply f64_eq _ _ (-13) 6472592205030384 <;> norm_num [abs_of_pos]
  have c26 : f64 (14487742126087948863 / 2305843009213693952)
      = 7074092835003881 / 1125899906842624 := by
    apply f64_eq _ _ 2 7074092835003881 <;> norm_num [abs_of_pos]
  have c27 : f32 (375 / 16) = 375 / 16 := by
    apply f32_eq _ _ 4 12288000 <;> norm_num [abs_of_pos]
  have c28 : f64 (8726646259971647884618453842443 / 500000000000000000000000000000000)
      = 5030569068109113 / 288230376151711744 := by
    apply f64_eq _ _ (-6) 5030569068109113 <;> norm_num [abs_of_pos]
  have c29 : f64 (1886463400540917375 / 4611686018427387904)
      = 3684498829181479 / 9007199254740992 := by
    apply f64_eq _ _ (-2) 7368997658362958 <;> norm_num [abs_of_pos]
  have c30 : f64 (-(9810758582248585888558783744647 / 83076749736557242056487941267521536))
      = -(4356852026820495 / 36893488147419103232) := by
    apply f64_eq _ _ (-14) (-8713704053640990) <;> norm_num [abs_of_neg]
  have c31 : f64 (-(2126560036682182873863678741735 / 41538374868278621028243970633760768))
      = -(3777529465555643 / 73786976294838206464) := by
    apply f64_eq _ _ (-15) (-7555058931111286) <;> norm_num [abs_of_neg]
  have c32 : f64 (59430117053043188496344105193039 / 162259276829213363391578010288128)
      = 3299034215422835 / 9007199254740992 := by
    apply f64_eq _ _ (-2) 6598068430845670 <;> norm_num [abs_of_pos]
  have c33 : f64 (36516037572840032053032020594265 / 332306998946228968225951765070086144)
      = 253380910509027 / 2305843009213693952 := by
    apply f64_eq _ _ (-14) 8108189136288864 <;> norm_num [abs_of_pos]
  have c34 : f64 (844299378237736733 / 2305843009213693952)
      = 3298044446241159 / 9007199254740992 := by
    apply f64_eq _ _ (-2) 6596088892482318 <;> norm_num [abs_of_pos]
  have c35 : f64 (-(75491942729056096305139001684397 / 81129638414606681695789005144064))
      = -(8381289299148175 / 9007199254740992) := by
    apply f64_eq _ _ (-1) (-8381289299148175) <;> norm_num [abs_of_neg]
  have c36 : f64 (-(28746808054151932270043391573555 / 664613997892457936451903530140172288))
      = -(3191536818619937 / 73786976294838206464) := by
    apply f64_eq _ _ (-15) (-6383073637239874) <;> norm_num [abs_of_neg]
  have c37 : f64 (-(68662713475440469537 / 73786976294838206464))
      = -(8381678891044979 / 9007199254740992) := by
    apply f64_eq _ _ (-1) (-8381678891044979) <;> norm_num [abs_of_neg]
  have c38 : f64 (-(3426061388821781 / 50000000000000)) = -(4821752748139443 / 70368744177664) := by
    apply f64_eq _ _ 6 (-4821752748139443) <;> norm_num [abs_of_neg]
  have c39 : f64 (-(4263778165229365759876152719865 / 19807040628566084398385987584))
      = -(7573991505490635 / 35184372088832) := by
    apply f64_eq _ _ 7 (-7573991505490635) <;> norm_num [abs_of_neg]
  have c40 : f64 (-(504932767032709 / 422212465065984))
      = -(5385949515015563 / 4503599627370496) := by
    apply f64_eq _ _ 0 (-5385949515015563) <;> norm_num [abs_of_neg]
  have c41 : f64 (3298044435934351 / 9007199254740992) = 3298044435934351 / 9007199254740992 := by
    apply f64_eq _ _ (-2) 6596088871868702 <;> norm_num [abs_of_pos]
  have c42 : f64 (-(523854931736567 / 562949953421312)) = -(523854931736567 / 562949953421312) := by
    apply f64_eq _ _ (-1) (-8381678907785072) <;> norm_num [abs_of_neg]
  have c43 : f32 (6378137 / 1000) = 13062425 / 2048 := by
    apply f32_eq _ _ 12 13062425 <;> norm_num [abs_of_pos]
  have c44 : f32 (37282153 / 125000) = 9773293 / 32768 := by
    apply f32_eq _ _ 8 9773293 <;> norm_num [abs_of_pos]
  have c45 : f32 (32768 / 9773293) = 3600053 / 1073741824 := by
    apply f32_eq _ _ (-9) 14400212 <;> norm_num [abs_of_pos]
  have c46 : f64 (1070141771 / 1073741824) = 1070141771 / 1073741824 := by
    apply f64_eq _ _ (-1) 8976999821344768 <;> norm_num [abs_of_pos]
  have c47 : f64 (13978646623054675 / 2199023255552) = 3494661655763669 / 549755813888 := by
    apply f64_eq_tie _ _ 12 6989323311527337 <;> norm_num [abs_of_pos]
  have c48 : f64 (170626946880625 / 4194304) = 170626946880625 / 4194304 := by
    apply f64_eq _ _ 25 5460062300180000 <;> norm_num [abs_of_pos]
  have c49 : f64 (12212660088264868568407580341561 / 302231454903657293676544)
      = 5423510568764941 / 134217728 := by
    apply f64_eq _ _ 25 5423510568764941 <;> norm_num [abs_of_pos]
  have c50 : f64 (Real.sqrt (170626946880625 / 4194304)) = 13062425 / 2048 := by
    apply f64_sqrt_eq _ _ 12 7012836022681600 <;> norm_num
  have c51 : f64 (13062425 / 2048) = 13062425 / 2048 := by
    apply f64_eq _ _ 12 7012836022681600 <;> norm_num [abs_of_pos]
  have c52 : f64 (5423510568764941 / 856059084800) = 6965889434040943 / 1099511627776 := by
    apply f64_eq _ _ 12 6965889434040943 <;> norm_num [abs_of_pos]
  have c53 : f64 (6965889434040943 / 1099511627776) = 6965889434040943 / 1099511627776 := by
    apply f64_eq _ _ 12 6965889434040943 <;> norm_num [abs_of_pos]
  have c54 : f64 (43080458091059764861175 / 18446744073709551616)
      = 10030450786245 / 4294967296 := by
    apply f64_eq _ _ 11 5135590802557440 <;> norm_num [abs_of_pos]
  have c55 : f64 (-(6842815756689026194975 / 1152921504606846976))
      = -(6525817639054323 / 1099511627776) := by
    apply f64_eq _ _ 12 (-6525817639054323) <;> norm_num [abs_of_neg]
  have c56 : f64 (-(21032081882829033081 / 9007199254740992))
      = -(5134785615925057 / 2199023255552) := by
    apply f64_eq _ _ 11 (-5134785615925057) <;> norm_num [abs_of_neg]
  have c57 : f64 (53451116420241969037 / 9007199254740992) = 3262397242446409 / 549755813888 := by
    apply f64_eq _ _ 12 6524794484892818 <;> norm_num [abs_of_pos]
  have c58 : f64 (-(3777529465555643 / 73786976294838206464))
      = -(3777529465555643 / 73786976294838206464) := by
    apply f64_eq _ _ (-15) (-7555058931111286) <;> norm_num [abs_of_neg]
  have c59 : f64 (26366023321510866979165840453249 / 4835703278458516698824704)
      = 2927216615934521 / 536870912 := by
    apply f64_eq _ _ 22 5854433231869042 <;> norm_num [abs_of_pos]
  have c60 : f64 (10643235767521933545007236995281 / 302231454903657293676544)
      = 1181636540561685 / 33554432 := by
    apply f64_eq _ _ 25 4726546162246740 <;> norm_num [abs_of_pos]
  have c61 : f64 (21833401264921481 / 536870912) = 2729175158115185 / 67108864 := by
    apply f64_eq _ _ 25 5458350316230370 <;> norm_num [abs_of_pos]
  have c62 : f64 (14269728863141101834350729143449 / 5444517870735015415413993718908291383296)
      = 1584258153901741 / 604462909807314587353088 := by
    apply f64_eq _ _ (-29) 6337032615606964 <;> norm_num [abs_of_pos]
  have c63 : f64 (24582224450232724921092231065261 / 604462909807314587353088)
      = 2729175158115185 / 67108864 := by
    apply f64_eq _ _ 25 5458350316230370 <;> norm_num [abs_of_pos]
  have c64 : f64 (Real.sqrt (2729175158115185 / 67108864)) = 219116765970477 / 34359738368 := by
    apply f64_sqrt_eq _ _ 12 7011736511055264 <;> norm_num
  have c65 : f64 (-(5134785615925057 / 14023473022110528))
      = -(6596088871864115 / 18014398509481984) := by
    apply f64_eq _ _ (-2) (-6596088871864115) <;> norm_num [abs_of_neg]
  have c66 : f64 (3262397242446409 / 3505868255527632) = 8381678907785975 / 9007199254740992 := by
    apply f64_eq _ _ (-1) 8381678907785975 <;> norm_num [abs_of_pos]
  have c67 : f64 (-(3777529465555643 / 470549671924242208260096))
      = -(606571577049217 / 75557863725914323419136) := by
    apply f64_eq _ _ (-27) (-4852572616393736) <;> norm_num [abs_of_neg]
  have c68 : f64 (-(21754194202779934785465132714365 / 162259276829213363391578010288128))
      = -(4830401457218677 / 36028797018963968) := by
    apply f64_eq _ _ (-3) (-4830401457218677) <;> norm_num [abs_of_neg]
  have c69 : f64 (-(4390783832076045384463917247825 / 5070602400912917605986812821504))
      = -(1949899722609081 / 2251799813685248) := by
    apply f64_eq _ _ (-1) (-7799598890436324) <;> norm_num [abs_of_neg]
  have c70 : f64 (-(36028797018963973 / 36028797018963968))
      = -(4503599627370497 / 4503599627370496) := by
    apply f64_eq _ _ 0 (-4503599627370497) <;> norm_num [abs_of_neg]
  have c71 : f64 (-(4503599627370497 / 4503599627370496))
      = -(4503599627370497 / 4503599627370496) := by
    apply f64_eq _ _ 0 (-4503599627370497) <;> norm_num [abs_of_neg]
  have hH0 : (Binary64.P13Sun.predict m ⟨0, 0⟩ ⟨735327, b64 0.6955⟩).H 0
      = 3298044446241159 / 9007199254740992 := by
    simp only [Binary64.P13Sun.predict, fnday_YG, hTN, Binary64.RADIANS, Binary64.DEGREES,
      Binary64.radians, Binary64.M_PI, Binary64.RE, Binary64.FL, Binary64.YT, Binary64.WW,
      Binary64.WE, Binary64.G0, Binary64.MAS0, Binary64.MASD, Binary64.EQC1, Binary64.EQC2,
      Binary64.INS, Binary64.CNS, Binary64.SNS, Binary64.GM, Binary64.J2, Matrix.cons_val_zero,
      Matrix.cons_val_one, Matrix.head_cons, Matrix.cons_val_two, Matrix.tail_cons]
    norm_num only [f64_zero, if_true, if_false, h0, h1, h2, h3, h4, h5, h6, h7, h8, h9, h10, h11,
      c0, c1, c2, c3, c4, c5, c6, c7, c8, c9, c10, c11, c12, c13, c14, c15, c16, c17, c18, c19, c20,
      c21, c22, c23, c24, c25, c26, c27, c28, c29, c30, c31, c32, c33, c34, c35, c36, c37, c38, c39,
      c40, c41, c42, c43, c44, c45, c46, c47, c48, c49, c50, c51, c52, c53, c54, c55, c56, c57, c58,
      c59, c60, c61, c62, c63, c64, c65, c66, c67, c68, c69, c70, c71]
  have hH1 : (Binary64.P13Sun.predict m ⟨0, 0⟩ ⟨735327, b64 0.6955⟩).H 1
      = -(8381678891044979 / 9007199254740992) := by
    simp only [Binary64.P13Sun.predict, fnday_YG, hTN, Binary64.RADIANS, Binary64.DEGREES,
      Binary64.radians, Binary64.M_PI, Binary64.RE, Binary64.FL, Binary64.YT, Binary64.WW,
      Binary64.WE, Binary64.G0, Binary64.MAS0, Binary64.MASD, Binary64.EQC1, Binary64.EQC2,
      Binary64.INS, Binary64.CNS, Binary64.SNS, Binary64.GM, Binary64.J2, Matrix.cons_val_zero,
      Matrix.cons_val_one, Matrix.head_cons, Matrix.cons_val_two, Matrix.tail_cons]
    norm_num only [f64_zero, if_true, if_false, h0, h1, h2, h3, h4, h5, h6, h7, h8, h9, h10, h11,
      c0, c1, c2, c3, c4, c5, c6, c7, c8, c9, c10, c11, c12, c13, c14, c15, c16, c17, c18, c19, c20,
      c21, c22, c23, c24, c25, c26, c27, c28, c29, c30, c31, c32, c33, c34, c35, c36, c37, c38, c39,
      c40, c41, c42, c43, c44, c45, c46, c47, c48, c49, c50, c51, c52, c53, c54, c55, c56, c57, c58,
      c59, c60, c61, c62, c63, c64, c65, c66, c67, c68, c69, c70, c71]
  have hH2 : (Binary64.P13Sun.predict m ⟨0, 0⟩ ⟨735327, b64 0.6955⟩).H 2
      = -(3777529465555643 / 73786976294838206464) := by
    simp only [Binary64.P13Sun.predict, fnday_YG, hTN, Binary64.RADIANS, Binary64.DEGREES,
      Binary64.radians, Binary64.M_PI, Binary64.RE, Binary64.FL, Binary64.YT, Binary64.WW,
      Binary64.WE, Binary64.G0, Binary64.MAS0, Binary64.MASD, Binary64.EQC1, Binary64.EQC2,
      Binary64.INS, Binary64.CNS, Binary64.SNS, Binary64.GM, Binary64.J2, Matrix.cons_val_zero,
      Matrix.cons_val_one, Matrix.head_cons, Matrix.cons_val_two, Matrix.tail_cons]
    norm_num only [f64_zero, if_true, if_false, h0, h1, h2, h3, h4, h5, h6, h7, h8, h9, h10, h11,
      c0, c1, c2, c3, c4, c5, c6, c7, c8, c9, c10, c11, c12, c13, c14, c15, c16, c17, c18, c19, c20,
      c21, c22, c23, c24, c25, c26, c27, c28, c29, c30, c31, c32, c33, c34, c35, c36, c37, c38, c39,
      c40, c41, c42, c43, c44, c45, c46, c47, c48, c49, c50, c51, c52, c53, c54, c55, c56, c57, c58,
      c59, c60, c61, c62, c63, c64, c65, c66, c67, c68, c69, c70, c71]
  have hO0 : (Binary64.P13Observer.P13Observer m "" 0 (f64 (-68.52122777643562)) 0).O 0
      = 10030450786245 / 4294967296 := by
    simp only [Binary64.P13Observer.P13Observer, Binary64.RADIANS, Binary64.DEGREES,
      Binary64.radians, Binary64.M_PI, Binary64.RE, Binary64.FL, Binary64.YT, Binary64.WW,
      Binary64.WE, Binary64.G0, Binary64.MAS0, Binary64.MASD, Binary64.EQC1, Binary64.EQC2,
      Binary64.INS, Binary64.CNS, Binary64.SNS, Binary64.GM, Binary64.J2, Matrix.cons_val_zero,
      Matrix.cons_val_one, Matrix.head_cons, Matrix.cons_val_two, Matrix.tail_cons]
    norm_num only [f64_zero, if_true, if_false, h0, h1, h2, h3, h4, h5, h6, h7, h8, h9, h10, h11,
      c0, c1, c2, c3, c4, c5, c6, c7, c8, c9, c10, c11, c12, c13, c14, c15, c16, c17, c18, c19, c20,
      c21, c22, c23, c24, c25, c26, c27, c28, c29, c30, c31, c32, c33, c34, c35, c36, c37, c38, c39,
      c40, c41, c42, c43, c44, c45, c46, c47, c48, c49, c50, c51, c52, c53, c54, c55, c56, c57, c58,
      c59, c60, c61, c62, c63, c64, c65, c66, c67, c68, c69, c70, c71]
  have hO1 : (Binary64.P13Observer.P13Observer m "" 0 (f64 (-68.52122777643562)) 0).O 1
      = -(6525817639054323 / 1099511627776) := by
    simp only [Binary64.P13Observer.P13Observer, Binary64.RADIANS, Binary64.DEGREES,
      Binary64.radians, Binary64.M_PI, Binary64.RE, Binary64.FL, Binary64.YT, Binary64.WW,
      Binary64.WE, Binary64.G0, Binary64.MAS0, Binary64.MASD, Binary64.EQC1, Binary64.EQC2,
      Binary64.INS, Binary64.CNS, Binary64.SNS, Binary64.GM, Binary64.J2, Matrix.cons_val_zero,
      Matrix.cons_val_one, Matrix.head_cons, Matrix.cons_val_two, Matrix.tail_cons]
    norm_num only [f64_zero, if_true, if_false, h0, h1, h2, h3, h4, h5, h6, h7, h8, h9, h10, h11,
      c0, c1, c2, c3, c4, c5, c6, c7, c8, c9, c10, c11, c12, c13, c14, c15, c16, c17, c18, c19, c20,
      c21, c22, c23, c24, c25, c26, c27, c28, c29, c30, c31, c32, c33, c34, c35, c36, c37, c38, c39,
      c40, c41, c42, c43, c44, c45, c46, c47, c48, c49, c50, c51, c52, c53, c54, c55, c56, c57, c58,
      c59, c60, c61, c62, c63, c64, c65, c66, c67, c68, c69, c70, c71]
  have hO2 : (Binary64.P13Observer.P13Observer m "" 0 (f64 (-68.52122777643562)) 0).O 2
      = 0 := by
    simp only [Binary64.P13Observer.P13Observer, Binary64.RADIANS, Binary64.DEGREES,
      Binary64.radians, Binary64.M_PI, Binary64.RE, Binary64.FL, Binary64.YT, Binary64.WW,
      Binary64.WE, Binary64.G0, Binary64.MAS0, Binary64.MASD, Binary64.EQC1, Binary64.EQC2,
      Binary64.INS, Binary64.CNS, Binary64.SNS, Binary64.GM, Binary64.J2, Matrix.cons_val_zero,
      Matrix.cons_val_one, Matrix.head_cons, Matrix.cons_val_two, Matrix.tail_cons]
    norm_num only [f64_zero, if_true, if_false, h0, h1, h2, h3, h4, h5, h6, h7, h8, h9, h10, h11,
      c0, c1, c2, c3, c4, c5, c6, c7, c8, c9, c10, c11, c12, c13, c14, c15, c16, c17, c18, c19, c20,
      c21, c22, c23, c24, c25, c26, c27, c28, c29, c30, c31, c32, c33, c34, c35, c36, c37, c38, c39,
      c40, c41, c42, c43, c44, c45, c46, c47, c48, c49, c50, c51, c52, c53, c54, c55, c56, c57, c58,
      c59, c60, c61, c62, c63, c64, c65, c66, c67, c68, c69, c70, c71]
  have hU0 : (Binary64.P13Observer.P13Observer m "" 0 (f64 (-68.52122777643562)) 0).U 0
      = 3298044435934351 / 9007199254740992 := by
    simp only [Binary64.P13Observer.P13Observer, Binary64.RADIANS, Binary64.DEGREES,
      Binary64.radians, Binary64.M_PI, Binary64.RE, Binary64.FL, Binary64.YT, Binary64.WW,
      Binary64.WE, Binary64.G0, Binary64.MAS0, Binary64.MASD, Binary64.EQC1, Binary64.EQC2,
      Binary64.INS, Binary64.CNS, Binary64.SNS, Binary64.GM, Binary64.J2, Matrix.cons_val_zero,
      Matrix.cons_val_one, Matrix.head_cons, Matrix.cons_val_two, Matrix.tail_cons]
    norm_num only [f64_zero, if_true, if_false, h0, h1, h2, h3, h4, h5, h6, h7, h8, h9, h10, h11,
      c0, c1, c2, c3, c4, c5, c6, c7, c8, c9, c10, c11, c12, c13, c14, c15, c16, c17, c18, c19, c20,
      c21, c22, c23, c24, c25, c26, c27, c28, c29, c30, c31, c32, c33, c34, c35, c36, c37, c38, c39,
      c40, c41, c42, c43, c44, c45, c46, c47, c48, c49, c50, c51, c52, c53, c54, c55, c56, c57, c58,
      c59, c60, c61, c62, c63, c64, c65, c66, c67, c68, c69, c70, c71]
  have hU1 : (Binary64.P13Observer.P13Observer m "" 0 (f64 (-68.52122777643562)) 0).U 1
      = -(523854931736567 / 562949953421312) := by
    simp only [Binary64.P13Observer.P13Observer, Binary64.RADIANS, Binary64.DEGREES,
      Binary64.radians, Binary64.M_PI, Binary64.RE, Binary64.FL, Binary64.YT, Binary64.WW,
      Binary64.WE, Binary64.G0, Binary64.MAS0, Binary64.MASD, Binary64.EQC1, Binary64.EQC2,
      Binary64.INS, Binary64.CNS, Binary64.SNS, Binary64.GM, Binary64.J2, Matrix.cons_val_zero,
      Matrix.cons_val_one, Matrix.head_cons, Matrix.cons_val_two, Matrix.tail_cons]
    norm_num only [f64_zero, if_true, if_false, h0, h1, h2, h3, h4, h5, h6, h7, h8, h9, h10, h11,
      c0, c1, c2, c3, c4, c5, c6, c7, c8, c9, c10, c11, c12, c13, c14, c15, c16, c17, c18, c19, c20,
      c21, c22, c23, c24, c25, c26, c27, c28, c29, c30, c31, c32, c33, c34, c35, c36, c37, c38, c39,
      c40, c41, c42, c43, c44, c45, c46, c47, c48, c49, c50, c51, c52, c53, c54, c55, c56, c57, c58,
      c59, c60, c61, c62, c63, c64, c65, c66, c67, c68, c69, c70, c71]
  have hU2 : (Binary64.P13Observer.P13Observer m "" 0 (f64 (-68.52122777643562)) 0).U 2
      = 0 := by
    simp only [Binary64.P13Observer.P13Observer, Binary64.RADIANS, Binary64.DEGREES,
      Binary64.radians, Binary64.M_PI, Binary64.RE, Binary64.FL, Binary64.YT, Binary64.WW,
      Binary64.WE, Binary64.G0, Binary64.MAS0, Binary64.MASD, Binary64.EQC1, Binary64.EQC2,
      Binary64.INS, Binary64.CNS, Binary64.SNS, Binary64.GM, Binary64.J2, Matrix.cons_val_zero,
      Matrix.cons_val_one, Matrix.head_cons, Matrix.cons_val_two, Matrix.tail_cons]
    norm_num only [f64_zero, if_true, if_false, h0, h1, h2, h3, h4, h5, h6, h7, h8, h9, h10, h11,
      c0, c1, c2, c3, c4, c5, c6, c7, c8, c9, c10, c11, c12, c13, c14, c15, c16, c17, c18, c19, c20,
      c21, c22, c23, c24, c25, c26, c27, c28, c29, c30, c31, c32, c33, c34, c35, c36, c37, c38, c39,
      c40, c41, c42, c43, c44, c45, c46, c47, c48, c49, c50, c51, c52, c53, c54, c55, c56, c57, c58,
      c59, c60, c61, c62, c63, c64, c65, c66, c67, c68, c69, c70, c71]
  have hu : Binary64.altazU (Binary64.P13Sun.predict m ⟨0, 0⟩ ⟨735327, b64 0.6955⟩).H
      (Binary64.P13Observer.P13Observer m "" 0 (f64 (-68.52122777643562)) 0) = -(1 + 1 / 2 ^ 52) := by
    simp only [Binary64.altazU, Binary64.altazR, hH0, hH1, hH2, hO0, hO1, hO2, hU0, hU1, hU2,
      Matrix.cons_val_zero, Matrix.cons_val_one, Matrix.head_cons, Matrix.cons_val_two, Matrix.tail_cons]
    norm_num only [f64_zero, c0, c1, c2, c3, c4, c5, c6, c7, c8, c9, c10, c11, c12, c13, c14, c15,
      c16, c17, c18, c19, c20, c21, c22, c23, c24, c25, c26, c27, c28, c29, c30, c31, c32, c33, c34,
      c35, c36, c37, c38, c39, c40, c41, c42, c43, c44, c45, c46, c47, c48, c49, c50, c51, c52, c53,
      c54, c55, c56, c57, c58, c59, c60, c61, c62, c63, c64, c65, c66, c67, c68, c69, c70, c71]
  refine ⟨hH0, hH1, hH2, hu, ?_, ?_⟩
  · rw [hu]; norm_num
  · simp only [Binary64.P13Sun.altaz, Binary64.altazBody, hu]
    norm_num

/-- Witness for C18: the `Libm` of the table `libmTable` meets the twelve hypotheses. -/
theorem sun_altaz_elevation_is_nan_witness :
    (Binary64.P13Sun.altaz libmTable (Binary64.P13Sun.predict libmTable ⟨0, 0⟩ ⟨735327, b64 0.6955⟩)
      (Binary64.P13Observer.P13Observer libmTable "" 0 (f64 (-68.52122777643562)) 0)).1 = none :=
  (sun_altaz_elevation_is_nan libmTable
    (by norm_num [libmTable])
    (by norm_num [libmTable])
    (by norm_num [libmTable])
    (by norm_num [libmTable])
    (by norm_num [libmTable])
    (by norm_num [libmTable])
    (by norm_num [libmTable])
    (by norm_num [libmTable])
    (by norm_num [libmTable])
    (by norm_num [libmTable])
    (by norm_num [libmTable])
    (by norm_num [libmTable])).2.2.2.2.2

/-! ## Latitude -/

/-- C19 (evaluation at a failing input): the element set of a circular polar orbit (`EC = 0`,
inclination 90, argument of perigee 60, mean anomaly 30, two revolutions per day,
epoch day 1.0 of 2022) and the instant of its epoch, `(DN, TN) = (738171, 0)`, where
the satellite stands over the pole.  For a C library that returns the six values
named in the hypotheses (`pow` at `GM/(N0*N0)` and `1.0/3.0`; `cos` and `sin` at
`MA = 0.5235987755982988` and at `WP = 1.0471975511965976`; `sin` at
`IN = 1.5707963267948966`), `predict` returns with `RS = 26610.21297391043` and
`S[2] = 26610.212973910435`, one unit in the last place more: the quotient
`S[2] / RS` that `LL` passes to `asin` is `1 + 2^-52`, not in `[-1, 1]`, and the
latitude is NaN. -/
theorem LL_latitude_is_nan (m : Libm)
    (h0 : m.pow (4823752499213161 / 256) (6004799503160661 / 18014398509481984)
      = 7314559645602573 / 274877906944)
    (h1 : m.cos (4716158501352293 / 9007199254740992) = 7800463371553963 / 9007199254740992)
    (h2 : m.sin (4716158501352293 / 9007199254740992) = 9007199254740991 / 18014398509481984)
    (h3 : m.cos (4716158501352293 / 4503599627370496) = 4503599627370497 / 9007199254740992)
    (h4 : m.sin (4716158501352293 / 4503599627370496) = 3900231685776981 / 4503599627370496)
    (h5 : m.sin (884279719003555 / 562949953421312) = 1) :
    (polarElements m).EC = 0 ∧ (polarElements m).DE = 738171 ∧ (polarElements m).TE = 0 ∧
      ∃ s, Binary64.P13Satellite.predict m (polarElements m) ⟨738171, 0⟩ = some s ∧
        s.RS = 7314559645602573 / 274877906944 ∧
        s.S 2 = 3657279822801287 / 137438953472 ∧
        f64 (s.S 2 / s.RS) = 1 + 1 / 2 ^ 52 ∧
        (Binary64.P13Satellite.LL m s).1 = none := by
  have c0 : f64 (157079632679489661923 / 50000000000000000000)
      = 884279719003555 / 281474976710656 := by
    apply f64_eq _ _ 1 7074237752028440 <;> norm_num [abs_of_pos]
  have c1 : f64 (39792587355159975 / 140737488355328) = 4974073419394997 / 17592186044416 := by
    apply f64_eq _ _ 8 4974073419394997 <;> norm_num [abs_of_pos]
  have c2 : f64 (4974073419394997 / 3166593487994880) = 884279719003555 / 562949953421312 := by
    apply f64_eq _ _ 0 7074237752028440 <;> norm_num [abs_of_pos]
  have c3 : f64 (13264195785053325 / 70368744177664) = 3316048946263331 / 17592186044416 := by
    apply f64_eq_tie _ _ 7 6632097892526662 <;> norm_num [abs_of_pos]
  have c4 : f64 (3316048946263331 / 3166593487994880) = 4716158501352293 / 4503599627370496 := by
    apply f64_eq _ _ 0 4716158501352293 <;> norm_num [abs_of_pos]
  have c5 : f64 (13264195785053325 / 140737488355328) = 3316048946263331 / 35184372088832 := by
    apply f64_eq_tie _ _ 6 6632097892526662 <;> norm_num [abs_of_pos]
  have c6 : f64 (3316048946263331 / 6333186975989760) = 4716158501352293 / 9007199254740992 := by
    apply f64_eq _ _ (-1) 4716158501352293 <;> norm_num [abs_of_pos]
  have c7 : f64 (884279719003555 / 140737488355328) = 884279719003555 / 140737488355328 := by
    apply f64_eq _ _ 2 7074237752028440 <;> norm_num [abs_of_pos]
  have c8 : f64 (884279719003555 / 70368744177664) = 884279719003555 / 70368744177664 := by
    apply f64_eq _ _ 3 7074237752028440 <;> norm_num [abs_of_pos]
  have c9 : f64 (176855943800711 / 1215971899390033920)
      = 5365940339316387 / 36893488147419103232 := by
    apply f64_eq _ _ (-13) 5365940339316387 <;> norm_num [abs_of_pos]
  have c10 : f32 398600 = 398600 := by
    apply f32_eq _ _ 18 12755200 <;> norm_num [abs_of_pos]
  have c11 : f64 (28793315725102862453170486733769 / 1361129467683753853853498429727072845824)
      = 1598350103665539 / 75557863725914323419136 := by
    apply f64_eq _ _ (-26) 6393400414662156 <;> norm_num [abs_of_pos]
  have c12 : f64 (30117364481149449314867609600 / 1598350103665539) = 4823752499213161 / 256 := by
    apply f64_eq _ _ 44 4823752499213161 <;> norm_num [abs_of_pos]
  have c13 : f64 (1 / 3) = 6004799503160661 / 18014398509481984 := by
    apply f64_eq _ _ (-2) 6004799503160661 <;> norm_num [abs_of_pos]
  have c14 : f64 1 = 1 := by
    apply f64_eq _ _ 0 4503599627370496 <;> norm_num [abs_of_pos]
  have c15 : f64 (Real.sqrt 1) = 1 := by
    apply f64_sqrt_eq _ _ 0 4503599627370496 <;> norm_num
  have c16 : f64 (7314559645602573 / 274877906944) = 7314559645602573 / 274877906944 := by
    apply f64_eq _ _ 14 7314559645602573 <;> norm_num [abs_of_pos]
  have c17 : f64 (4716158501352293 / 9007199254740992) = 4716158501352293 / 9007199254740992 := by
    apply f64_eq _ _ (-1) 4716158501352293 <;> norm_num [abs_of_pos]
  have c18 : f64 (4716158501352293 / 56593902016227520) = 6004799503160661 / 72057594037927936 := by
    apply f64_eq _ _ (-4) 6004799503160661 <;> norm_num [abs_of_pos]
  have c19 : f64 (1 / 100000) = 5902958103587057 / 590295810358705651712 := by
    apply f64_eq _ _ (-17) 5902958103587057 <;> norm_num [abs_of_pos]
  have c20 : f64 (7800463371553963 / 9007199254740992) = 7800463371553963 / 9007199254740992 := by
    apply f64_eq _ _ (-1) 7800463371553963 <;> norm_num [abs_of_pos]
  have c21 : f64 (57056954594569607314810521146799 / 2475880078570760549798248448)
      = 6334594470588329 / 274877906944 := by
    apply f64_eq _ _ 14 6334594470588329 <;> norm_num [abs_of_pos]
  have c22 : f64 (65883696188630022772435238169843 / 4951760157141521099596496896)
      = 1828639911400643 / 137438953472 := by
    apply f64_eq _ _ 13 7314559645602572 <;> norm_num [abs_of_pos]
  have c23 : f64 (4716158501352293 / 4503599627370496) = 4716158501352293 / 4503599627370496 := by
    apply f64_eq _ _ 0 4716158501352293 <;> norm_num [abs_of_pos]
  have c24 : f64 (3900231685776981 / 4503599627370496) = 3900231685776981 / 4503599627370496 := by
    apply f64_eq _ _ (-1) 7800463371553962 <;> norm_num [abs_of_pos]
  have c25 : f64 (4503599627370497 / 9007199254740992) = 4503599627370497 / 9007199254740992 := by
    apply f64_eq _ _ (-1) 4503599627370497 <;> norm_num [abs_of_pos]
  have c26 : f64 (24706386070736260903356555454749 / 1237940039285380274899124224)
      = 2742959867100965 / 137438953472 := by
    apply f64_eq _ _ 14 5485919734201930 <;> norm_num [abs_of_pos]
  have c27 : f64 (8235462023578754463614365029571 / 1237940039285380274899124224)
      = 3657279822801287 / 549755813888 := by
    apply f64_eq _ _ 12 7314559645602574 <;> norm_num [abs_of_pos]
  have c28 : f64 (14629119291205147 / 549755813888) = 3657279822801287 / 137438953472 := by
    apply f64_eq_tie _ _ 14 7314559645602573 <;> norm_num [abs_of_pos]
  have c29 : f64 (7314559645602574 / 7314559645602573) = 4503599627370497 / 4503599627370496 := by
    apply f64_eq _ _ 0 4503599627370497 <;> norm_num [abs_of_pos]
  have hl1 : toLong (1 : ℝ) = 1 := by simp [toLong]
  have hl0 : toLong (6004799503160661 / 72057594037927936 : ℝ) = 0 := by
    unfold toLong
    rw [if_pos (by norm_num), Int.floor_eq_iff]
    constructor <;> norm_num
  have hEC : (polarElements m).EC = 0 := by
    simp only [polarElements, Binary64.P13Satellite.tle, polar_eccentricity]
    norm_num only [f64_zero, zero_div]
  have hDE : (polarElements m).DE = 738171 := by
    simp only [polarElements, Binary64.P13Satellite.tle, polar_year, polar_day, hl1]
    norm_num [fnday_2022]
  have hTE : (polarElements m).TE = 0 := by
    simp only [polarElements, Binary64.P13Satellite.tle, polar_day, hl1]
    norm_num [f64_zero]
  have hMA : (polarElements m).MA
      = 4716158501352293 / 9007199254740992 := by
    simp only [polarElements, Binary64.P13Satellite.tle, polar_year, polar_day, polar_decay,
      polar_inclination, polar_ascension, polar_eccentricity, polar_perigee, polar_anomaly,
      polar_motion, Binary64.RADIANS, Binary64.DEGREES, Binary64.radians, Binary64.M_PI,
      Binary64.RE, Binary64.FL, Binary64.YT, Binary64.WW, Binary64.WE, Binary64.G0, Binary64.MAS0,
      Binary64.MASD, Binary64.EQC1, Binary64.EQC2, Binary64.INS, Binary64.CNS, Binary64.SNS,
      Binary64.GM, Binary64.J2]
    norm_num only [f64_zero, if_true, if_false, mul_zero, zero_mul, add_zero, zero_add, sub_zero,
      mul_one, one_mul, div_one, neg_zero, abs_zero, hl1, fnday_2022, h0, h1, h2, h3, h4, h5, c0,
      c1, c2, c3, c4, c5, c6, c7, c8, c9, c10, c11, c12, c13, c14, c15, c16, c17, c18, c19, c20,
      c21, c22, c23, c24, c25, c26, c27, c28, c29]
  have hWP : (polarElements m).WP
      = 4716158501352293 / 4503599627370496 := by
    simp only [polarElements, Binary64.P13Satellite.tle, polar_year, polar_day, polar_decay,
      polar_inclination, polar_ascension, polar_eccentricity, polar_perigee, polar_anomaly,
      polar_motion, Binary64.RADIANS, Binary64.DEGREES, Binary64.radians, Binary64.M_PI,
      Binary64.RE, Binary64.FL, Binary64.YT, Binary64.WW, Binary64.WE, Binary64.G0, Binary64.MAS0,
      Binary64.MASD, Binary64.EQC1, Binary64.EQC2, Binary64.INS, Binary64.CNS, Binary64.SNS,
      Binary64.GM, Binary64.J2]
    norm_num only [f64_zero, if_true, if_false, mul_zero, zero_mul, add_zero, zero_add, sub_zero,
      mul_one, one_mul, div_one, neg_zero, abs_zero, hl1, fnday_2022, h0, h1, h2, h3, h4, h5, c0,
      c1, c2, c3, c4, c5, c6, c7, c8, c9, c10, c11, c12, c13, c14, c15, c16, c17, c18, c19, c20,
      c21, c22, c23, c24, c25, c26, c27, c28, c29]
  have hIN : (polarElements m).IN
      = 884279719003555 / 562949953421312 := by
    simp only [polarElements, Binary64.P13Satellite.tle, polar_year, polar_day, polar_decay,
      polar_inclination, polar_ascension, polar_eccentricity, polar_perigee, polar_anomaly,
      polar_motion, Binary64.RADIANS, Binary64.DEGREES, Binary64.radians, Binary64.M_PI,
      Binary64.RE, Binary64.FL, Binary64.YT, Binary64.WW, Binary64.WE, Binary64.G0, Binary64.MAS0,
      Binary64.MASD, Binary64.EQC1, Binary64.EQC2, Binary64.INS, Binary64.CNS, Binary64.SNS,
      Binary64.GM, Binary64.J2]
    norm_num only [f64_zero, if_true, if_false, mul_zero, zero_mul, add_zero, zero_add, sub_zero,
      mul_one, one_mul, div_one, neg_zero, abs_zero, hl1, fnday_2022, h0, h1, h2, h3, h4, h5, c0,
      c1, c2, c3, c4, c5, c6, c7, c8, c9, c10, c11, c12, c13, c14, c15, c16, c17, c18, c19, c20,
      c21, c22, c23, c24, c25, c26, c27, c28, c29]
  have hA0 : (polarElements m).A_0
      = 7314559645602573 / 274877906944 := by
    simp only [polarElements, Binary64.P13Satellite.tle, polar_year, polar_day, polar_decay,
      polar_inclination, polar_ascension, polar_eccentricity, polar_perigee, polar_anomaly,
      polar_motion, Binary64.RADIANS, Binary64.DEGREES, Binary64.radians, Binary64.M_PI,
      Binary64.RE, Binary64.FL, Binary64.YT, Binary64.WW, Binary64.WE, Binary64.G0, Binary64.MAS0,
      Binary64.MASD, Binary64.EQC1, Binary64.EQC2, Binary64.INS, Binary64.CNS, Binary64.SNS,
      Binary64.GM, Binary64.J2]
    norm_num only [f64_zero, if_true, if_false, mul_zero, zero_mul, add_zero, zero_add, sub_zero,
      mul_one, one_mul, div_one, neg_zero, abs_zero, hl1, fnday_2022, h0, h1, h2, h3, h4, h5, c0,
      c1, c2, c3, c4, c5, c6, c7, c8, c9, c10, c11, c12, c13, c14, c15, c16, c17, c18, c19, c20,
      c21, c22, c23, c24, c25, c26, c27, c28, c29]
  have hB0 : (polarElements m).B_0
      = 7314559645602573 / 274877906944 := by
    simp only [polarElements, Binary64.P13Satellite.tle, polar_year, polar_day, polar_decay,
      polar_inclination, polar_ascension, polar_eccentricity, polar_perigee, polar_anomaly,
      polar_motion, Binary64.RADIANS, Binary64.DEGREES, Binary64.radians, Binary64.M_PI,
      Binary64.RE, Binary64.FL, Binary64.YT, Binary64.WW, Binary64.WE, Binary64.G0, Binary64.MAS0,
      Binary64.MASD, Binary64.EQC1, Binary64.EQC2, Binary64.INS, Binary64.CNS, Binary64.SNS,
      Binary64.GM, Binary64.J2]
    norm_num only [f64_zero, if_true, if_false, mul_zero, zero_mul, add_zero, zero_add, sub_zero,
      mul_one, one_mul, div_one, neg_zero, abs_zero, hl1, fnday_2022, h0, h1, h2, h3, h4, h5, c0,
      c1, c2, c3, c4, c5, c6, c7, c8, c9, c10, c11, c12, c13, c14, c15, c16, c17, c18, c19, c20,
      c21, c22, c23, c24, c25, c26, c27, c28, c29]
  have hT : Binary64.P13Satellite.predictT (polarElements m) ⟨738171, 0⟩ = 0 := by
    simp only [Binary64.P13Satellite.predictT, hDE, hTE]
    norm_num [f64_zero]
  have hM : Binary64.P13Satellite.predictM (polarElements m) ⟨738171, 0⟩
      = 4716158501352293 / 9007199254740992 := by
    simp only [Binary64.P13Satellite.predictM, hT, hMA, Binary64.M_PI]
    norm_num only [f64_zero, mul_zero, zero_mul, add_zero, zero_add, sub_zero, mul_one, one_mul,
      div_one, neg_zero, abs_zero, zero_div, hl0, Int.cast_zero, c0, c1, c2, c3, c4, c5, c6, c7, c8,
      c9, c10, c11, c12, c13, c14, c15, c16, c17, c18, c19, c20, c21, c22, c23, c24, c25, c26, c27,
      c28, c29]
  have hk : Binary64.kepler m 0 (4716158501352293 / 9007199254740992)
      = some (KeplerResult.mk (4716158501352293 / 9007199254740992) (7800463371553963 / 9007199254740992)
        (9007199254740991 / 18014398509481984) 1) := by
    apply kepler64_eq_of_keplerLoop m 0 _ 1
    simp only [Binary64.keplerLoop]
    norm_num only [f64_zero, if_true, if_false, mul_zero, zero_mul, add_zero, zero_add, sub_zero,
      mul_one, one_mul, div_one, neg_zero, abs_zero, zero_div, sub_self, h0, h1, h2, h3, h4, h5, c0,
      c1, c2, c3, c4, c5, c6, c7, c8, c9, c10, c11, c12, c13, c14, c15, c16, c17, c18, c19, c20,
      c21, c22, c23, c24, c25, c26, c27, c28, c29]
  refine ⟨hEC, hDE, hTE, ?_⟩
  simp only [Binary64.P13Satellite.predict, hEC, hM, hk, hT, hA0, hB0, hWP, hIN]
  refine ⟨_, rfl, ?_⟩
  simp only [Binary64.P13Satellite.LL, Matrix.cons_val_zero, Matrix.cons_val_one, Matrix.head_cons, Matrix.cons_val_two,
    Matrix.tail_cons]
  norm_num only [f64_zero, if_true, if_false, mul_zero, zero_mul, add_zero, zero_add, sub_zero,
    mul_one, one_mul, div_one, neg_zero, abs_zero, zero_div, h0, h1, h2, h3, h4, h5, c0, c1, c2, c3,
    c4, c5, c6, c7, c8, c9, c10, c11, c12, c13, c14, c15, c16, c17, c18, c19, c20, c21, c22, c23,
    c24, c25, c26, c27, c28, c29]
  simp

/-- Witness for C19: the `Libm` of the table `libmTable` meets the six hypotheses. -/
theorem LL_latitude_is_nan_witness :
    ∃ s, Binary64.P13Satellite.predict libmTable (polarElements libmTable) ⟨738171, 0⟩ = some s ∧
      (Binary64.P13Satellite.LL libmTable s).1 = none := by
  obtain ⟨s, hs, _, _, _, hLL⟩ := (LL_latitude_is_nan libmTable
    (by norm_num [libmTable])
    (by norm_num [libmTable])
    (by norm_num [libmTable])
    (by norm_num [libmTable])
    (by norm_num [libmTable])
    (by norm_num [libmTable])).2.2.2
  exact ⟨s, hs, hLL⟩

/-! ## Conservation of time by `add` -/

/-- C20 (counterexample): from the instant `(0, 0.5)`, `add(1e30)` makes
`TN = 1000000000000000019884624838656` (the `double` nearest `1e30`, which absorbs
the `0.5`), and `(long)TN` is then outside the range of `long`, be it of 64 or of
32 bits: the call has no defined result, so nothing bounds `TN'`. -/
theorem add_out_of_range :
    b64 (1 / 2 + b64 (10 ^ 30)) = 1000000000000000019884624838656 ∧
      (2 : Int) ^ 63 ≤ toLong (b64 (1 / 2 + b64 (10 ^ 30))) ∧
      addChecked 64 ⟨0, 1 / 2⟩ (b64 (10 ^ 30)) = none ∧
      addChecked 32 ⟨0, 1 / 2⟩ (b64 (10 ^ 30)) = none := by
  have hr0 : b64 (10 ^ 30) = 1000000000000000019884624838656 := by
    apply b64_eq _ _ 99 7105427357601002 <;> norm_num [abs_of_pos]
  have hr1 : b64 (1 / 2 + 1000000000000000019884624838656)
      = 1000000000000000019884624838656 := by
    apply b64_eq _ _ 99 7105427357601002 <;> norm_num [abs_of_pos]
  have ht : toLong (1000000000000000019884624838656 : ℚ) = 1000000000000000019884624838656 := by
    apply toLong_eq_of_nonneg <;> norm_num
  refine ⟨by rw [hr0, hr1], by rw [hr0, hr1, ht]; norm_num, ?_, ?_⟩
  · simp only [addChecked]
    rw [hr0, hr1, ht]
    norm_num
  · simp only [addChecked]
    rw [hr0, hr1, ht]
    norm_num

/-- C20 (amended): for every width `w` of `long`, every instant `(DN, TN)` and every
number of days `delta` for which the conversion `(long)TN` and the addition to
`DN` stay within the range of `long`, after `add(delta)` the sum `DN' + TN'` equals
`DN + fl(TN + delta)`, `fl` being the rounding of that one sum to `double`, and
`|TN'| < 1`. -/
theorem add_conserves_rounded_sum (w : Nat) (s s' : P13DateTime) (days : ℚ)
    (h : addChecked w s days = some s') :
    (s'.DN : ℚ) + s'.TN = s.DN + b64 (s.TN + days) ∧ |s'.TN| < 1 := by
  have hs : s' = add s days := by
    simp only [addChecked] at h
    split at h
    · exact (Option.some.inj h).symm
    · exact absurd h (by simp)
  have hTN : (add s days).TN = b64 (s.TN + days) - (toLong (b64 (s.TN + days)) : ℚ) := by
    simp only [add]
    exact b64_sub_toLong_b64 _
  have hDN : (add s days).DN = s.DN + toLong (b64 (s.TN + days)) := rfl
  rw [hs]
  constructor
  · rw [hTN, hDN]; push_cast; ring
  · rw [hTN]; exact abs_sub_toLong_lt_one _

/-- Witness for C20: from `(0, 0.5)`, `add(1.0)` on a 32-bit `long` is defined and
gives `(1, 0.5)`. -/
theorem add_conserves_rounded_sum_witness :
    (((1 : Int) : ℚ) + 1 / 2 = ((0 : Int) : ℚ) + b64 (1 / 2 + 1)) ∧ |(1 / 2 : ℚ)| < 1 := by
  have ht : toLong (3 / 2 : ℚ) = 1 := toLong_three_halves
  have h : addChecked 32 ⟨0, 1 / 2⟩ 1 = some ⟨1, 1 / 2⟩ := by
    simp only [addChecked]
    norm_num [b64_three_halves, ht, add_half_one]
  exact add_conserves_rounded_sum 32 ⟨0, 1 / 2⟩ ⟨1, 1 / 2⟩ 1 h

end P13
